import Mathlib

/-!
# Base onchain identity: the identity pipeline of `src/api/baseIdentityApi.js`

A shallow embedding of the module that fetches the activity records of an
address and aggregates them into an identity summary, followed by the
theorems that settle the claims of the specification.

## Number model

A JavaScript number is modelled by `JsNum`: either `NaN` or an exact rational.
The arithmetic of `JsNum` is exact (no binary rounding) and the two infinities
are left out; the constant `0.1` of the source is the rational `1/10`.  Every
divisor the module uses is a non-zero constant.

Two computations of the module show the rounding of the doubles in their
results: the product `totalOutEth * 100` of `calculateXP` and the running sums
of the totals.  The section *Binary64 arithmetic* defines the rounding to the
nearest double and embeds these two computations a second time, with every
operation rounded; the theorems on the formula of the experience points and on
the totals are stated over that embedding.
-/

namespace BaseIdentity

/-! ## JavaScript numbers -/

/-- A JavaScript number: `NaN` or an exact finite value. -/
inductive JsNum where
  | nan : JsNum
  | fin (q : ℚ) : JsNum
  deriving DecidableEq

namespace JsNum

instance : Inhabited JsNum := ⟨JsNum.nan⟩

instance (n : Nat) : OfNat JsNum n := ⟨JsNum.fin n⟩

/-- JavaScript `x + y`. -/
def add : JsNum → JsNum → JsNum
  | fin a, fin b => fin (a + b)
  | _, _ => nan

/-- JavaScript `x * y`. -/
def mul : JsNum → JsNum → JsNum
  | fin a, fin b => fin (a * b)
  | _, _ => nan

/-- JavaScript `x - y`. -/
def sub : JsNum → JsNum → JsNum
  | fin a, fin b => fin (a - b)
  | _, _ => nan

/-- JavaScript `x / y`, for the non-zero divisors the module uses. -/
def div : JsNum → JsNum → JsNum
  | fin a, fin b => fin (a / b)
  | _, _ => nan

instance : Add JsNum := ⟨add⟩
instance : Mul JsNum := ⟨mul⟩
instance : Sub JsNum := ⟨sub⟩
instance : Div JsNum := ⟨div⟩

/-- JavaScript `x > y`: false as soon as an operand is `NaN`. -/
def gt : JsNum → JsNum → Bool
  | fin a, fin b => decide (b < a)
  | _, _ => false

/-- JavaScript `x >= y`: false as soon as an operand is `NaN`. -/
def ge : JsNum → JsNum → Bool
  | fin a, fin b => decide (b ≤ a)
  | _, _ => false

/-- JavaScript `x < y`: false as soon as an operand is `NaN`. -/
def lt : JsNum → JsNum → Bool
  | fin a, fin b => decide (a < b)
  | _, _ => false

/-- Whether the number is `NaN`. -/
def isNaN : JsNum → Bool
  | nan => true
  | fin _ => false

end JsNum

namespace Math

/-- JavaScript `Math.min(x, y)`. -/
def min : JsNum → JsNum → JsNum
  | JsNum.fin a, JsNum.fin b => JsNum.fin (Min.min a b)
  | _, _ => JsNum.nan

/-- JavaScript `Math.round(x)`: the nearest integer, halves rounded up. -/
def round : JsNum → JsNum
  | JsNum.fin a => JsNum.fin (⌊a + 1 / 2⌋ : ℤ)
  | JsNum.nan => JsNum.nan

/-- JavaScript `Math.floor(x)`. -/
def floor : JsNum → JsNum
  | JsNum.fin a => JsNum.fin (⌊a⌋ : ℤ)
  | JsNum.nan => JsNum.nan

/-- JavaScript `Math.pow(2, i)` for a loop counter `i`. -/
def pow2 (i : Nat) : JsNum := JsNum.fin ((2 : ℚ) ^ i)

end Math

/-! ## The aggregation engine: score, rank, experience points -/

/-- The source's `calculateBuilderScore`. -/
def calculateBuilderScore (txCount activeDays totalOutEth tokenCount nftCount : JsNum) : JsNum :=
  let score : JsNum := 0
  -- Transaction count (max 30 points)
  let score := score + Math.min 30 ((txCount / 100) * 30)
  -- Active days (max 25 points)
  let score := score + Math.min 25 ((activeDays / 365) * 25)
  -- Activity level (max 20 points)
  let score :=
    if totalOutEth.gt 10 then score + 20
    else if totalOutEth.gt 1 then score + 15
    else if totalOutEth.gt (JsNum.fin (1 / 10)) then score + 10
    else if totalOutEth.gt 0 then score + 5
    else score
  -- Token diversity (max 15 points)
  let score := score + Math.min 15 ((tokenCount / 20) * 15)
  -- NFT ownership (max 10 points)
  let score :=
    if nftCount.gt 10 then score + 10
    else if nftCount.gt 5 then score + 7
    else if nftCount.gt 0 then score + 5
    else score
  Math.round (Math.min 100 score)

/-- A rank band: display colour, label and tier letter. -/
structure Rank where
  color : String
  label : String
  tier : String
  deriving DecidableEq, Repr

/-- The source's `calculateRank`. -/
def calculateRank (builderScore : JsNum) : Rank :=
  if builderScore.ge 90 then
    { color := "gold", label := "Legend", tier := "S" }
  else if builderScore.ge 75 then
    { color := "purple", label := "Master", tier := "A" }
  else if builderScore.ge 60 then
    { color := "blue", label := "Expert", tier := "B" }
  else if builderScore.ge 40 then
    { color := "green", label := "Builder", tier := "C" }
  else
    { color := "gray", label := "Explorer", tier := "D" }

/-- The object `calculateXP` returns. -/
structure XPState where
  totalXP : JsNum
  level : JsNum
  currentLevelXP : JsNum
  nextLevelXP : JsNum
  deriving DecidableEq

/-- The source's `calculateXP`. -/
def calculateXP (txCount activeDays totalOutEth : JsNum) : XPState :=
  let totalXP : JsNum := 0
  -- Base XP from transactions
  let totalXP := totalXP + txCount * 10
  -- Bonus for active days
  let totalXP := totalXP + activeDays * 50
  -- Bonus for volume
  let totalXP := totalXP + Math.floor (totalOutEth * 100)
  -- Calculate level (every 1000 XP = 1 level)
  let level := Math.floor (totalXP / 1000) + 1
  let currentLevelXP := (level - 1) * 1000
  let nextLevelXP := level * 1000
  { totalXP := totalXP, level := level, currentLevelXP := currentLevelXP,
    nextLevelXP := nextLevelXP }

/-- The source's `generateBadges` entries. -/
structure Badge where
  icon : String
  label : String
  deriving DecidableEq, Repr

/-- JavaScript `badges.push(b)` under a condition. -/
def pushIf (cond : Bool) (b : Badge) (badges : List Badge) : List Badge :=
  if cond then badges ++ [b] else badges

/-- The source's `generateBadges`. -/
def generateBadges (txCount activeDays totalOutEth tokenCount nftCount : JsNum) : List Badge :=
  let badges : List Badge := []
  let badges := pushIf (txCount.gt 100) { icon := "üî•", label := "Power User" } badges
  let badges := pushIf (activeDays.gt 180) { icon := "‚è∞", label := "Long-term Builder" } badges
  let badges := pushIf (totalOutEth.gt 10) { icon := "üíé", label := "High Volume" } badges
  let badges := pushIf (tokenCount.gt 10) { icon := "ü™ô", label := "Token Collector" } badges
  let badges := pushIf (nftCount.gt 5) { icon := "üé®", label := "NFT Enthusiast" } badges
  let badges := pushIf (txCount.gt 50 && activeDays.gt 30)
    { icon := "‚≠ê", label := "Active Builder" } badges
  badges

/-! ## JavaScript strings

A JavaScript string is modelled by a Lean `String`; its `length` counts UTF-16
code units.  `toLowerCase` lowers the letters `A` to `Z` and leaves every other
character as it is, where the engine lowers every cased letter: the two agree
on ASCII text, and a hexadecimal address is ASCII text. -/

/-- The UTF-16 code units of one character. -/
def utf16 (c : Char) : List Nat :=
  if c.toNat < 0x10000 then [c.toNat]
  else [0xD800 + (c.toNat - 0x10000) / 0x400, 0xDC00 + (c.toNat - 0x10000) % 0x400]

/-- The UTF-16 code units of a list of characters. -/
def utf16s : List Char → List Nat
  | [] => []
  | c :: cs => utf16 c ++ utf16s cs

/-- The code units of a string. -/
def jsUnits (s : String) : List Nat := utf16s s.toList

/-- JavaScript `s.length`. -/
def jsLength (s : String) : Nat := (jsUnits s).length

/-- JavaScript `s.startsWith(p)`. -/
def startsWith (s p : String) : Bool := p.toList.isPrefixOf s.toList

/-- JavaScript `s.includes(sub)`. -/
def includes (s sub : String) : Bool := s.toList.tails.any (fun t => sub.toList.isPrefixOf t)

/-- JavaScript `s.toLowerCase()`. -/
def toLowerCase (s : String) : String := String.mk (s.toList.map Char.toLower)

/-- Truthiness of a string: every string but the empty one. -/
def truthy (s : String) : Bool := decide (s ≠ "")

/-- Truthiness of a field that may be missing. -/
def truthyField : Option String → Bool
  | some s => truthy s
  | none => false

/-- JavaScript `x || fallback` on a string field that may be missing. -/
def orElse (x : Option String) (fallback : String) : String :=
  match x with
  | some s => if truthy s then s else fallback
  | none => fallback

/-- The source's `shortenAddress`, as code units. -/
def shortenAddress (address : String) : List Nat :=
  if !truthy address || decide (jsLength address < 10) then jsUnits address
  else (jsUnits address).take 6 ++ jsUnits "..." ++
    (jsUnits address).drop (jsLength address - 4)

/-! ## Records of the block explorer

One record type serves the three lists; `from_` and `to_` are the fields
`from` and `to`.  A text field is `none` when the record lacks it.  A numeric field holds what `Number` makes of the field's
text, `none` when the field is missing or empty (`tx.value || 0`); `timeStamp`
holds what `parseInt` makes of its text, `none` when it is missing or empty. -/

/-- A transaction or transfer record. -/
structure Record where
  from_ : Option String := none
  to_ : Option String := none
  value : Option JsNum := none
  gasUsed : Option JsNum := none
  gasPrice : Option JsNum := none
  timeStamp : Option JsNum := none
  contractAddress : Option String := none
  tokenName : Option String := none
  tokenSymbol : Option String := none
  tokenID : Option String := none
  deriving DecidableEq

/-- JavaScript `Number(field || 0)`. -/
def numberOrZero : Option JsNum → JsNum
  | some x => x
  | none => 0

/-- JavaScript `parseInt(tx.timeStamp)`: `NaN` for a missing field. -/
def parseIntField : Option JsNum → JsNum
  | some x => x
  | none => JsNum.nan

/-! ## Dates

A `Date` is its time value in milliseconds, `none` for an invalid date.  A
function that may throw returns an `Except` whose error is the message of the
error thrown.  The
ISO string of a valid date is represented by its time value, and the local
calendar date of `toDateString` by the number of the local day. -/

/-- JavaScript `new Date(v)`. -/
def newDate : JsNum → Option ℤ
  | JsNum.nan => none
  | JsNum.fin q =>
    if |q| ≤ 8640000000000000 then some (if 0 ≤ q then ⌊q⌋ else ⌈q⌉) else none

/-- JavaScript `date.toISOString()`: a `RangeError` for an invalid date. -/
def toISOString : Option ℤ → Except String ℤ
  | some ms => .ok ms
  | none => .error "Invalid time value"

/-- JavaScript `date.toDateString()` in the time zone whose offset from UTC at
the instant `ms` is `tz ms` milliseconds; `none` is the text "Invalid Date". -/
def toDateString (tz : ℤ → ℤ) : Option ℤ → Option ℤ
  | some ms => some (Int.fdiv (ms + tz ms) 86400000)
  | none => none

/-- JavaScript `set.add(x)` on a `Set` kept in insertion order. -/
def setAdd {α : Type} [DecidableEq α] (s : List α) (x : α) : List α :=
  if x ∈ s then s else s ++ [x]

/-- JavaScript `new Set(xs)`. -/
def newSet {α : Type} [DecidableEq α] (xs : List α) : List α := xs.foldl setAdd []

/-- The source's `calculateActiveDays`. -/
def calculateActiveDays (tz : ℤ → ℤ) (transactions : List Record) : Nat :=
  if transactions.length = 0 then 0
  else
    let dates := transactions.foldl (fun (dates : List (Option ℤ)) tx =>
      match tx.timeStamp with
      | some ts => setAdd dates (toDateString tz (newDate (ts * 1000)))
      | none => dates) []
    dates.length

/-- An entry of the timeline. -/
structure TimelineEvent where
  icon : String
  label : String
  date : ℤ
  deriving DecidableEq

/-- The source's `generateTimeline`.  The records of a list are distinct
objects, so `lastTx !== firstTx` holds exactly when the list has more than one
record. -/
def generateTimeline (transactions : List Record) : Except String (List TimelineEvent) :=
  match transactions.head?, transactions.getLast? with
  | some firstTx, some lastTx =>
    let timeline : List TimelineEvent := []
    match toISOString (newDate (parseIntField firstTx.timeStamp * 1000)) with
    | .error e => .error e
    | .ok d1 =>
      let timeline := timeline ++ [{ icon := "üöÄ", label := "First Transaction", date := d1 }]
      if transactions.length ≠ 1 then
        match toISOString (newDate (parseIntField lastTx.timeStamp * 1000)) with
        | .error e => .error e
        | .ok d2 =>
          .ok (timeline ++ [{ icon := "‚ö°", label := "Latest Transaction", date := d2 }])
      else
        .ok timeline
  | _, _ => .ok []

/-! ## The outside world

The run of an asynchronous function is modelled by explicit state passing: the
state is the list of the events so far (requests sent, waits, name lookups),
and the outcome of a request, of `Math.random()` and of the name lookup may
depend on everything that happened before. -/

/-- What the module does to the outside world. -/
inductive Event where
  | request (url : String)
  | wait (ms : JsNum)
  | nameLookup (address : String)
  deriving DecidableEq

/-- The `result` field of a response body: an array of records, or any other
value, of which only the truthiness matters. -/
inductive JsResult where
  | array (records : List Record)
  | other (isTruthy : Bool)
  deriving DecidableEq

/-- Truthiness of a `result` field: an array is truthy, also when empty. -/
def JsResult.truthy : JsResult → Bool
  | JsResult.array _ => true
  | JsResult.other b => b

/-- The body of a response (`response.data`). -/
structure Body where
  status : Option String
  message : Option String
  result : JsResult
  deriving DecidableEq

/-- The outcome of one `axios.get`: it rejects (transport failure, timeout or
an HTTP status other than 200, by `validateStatus`), or it resolves with a
response whose `data` is `none` when it is falsy. -/
inductive Attempt where
  | throws (message : String)
  | response (data : Option Body)
  deriving DecidableEq

/-- The object `lookupNames` resolves with. -/
structure Names where
  ens : Option String
  baseName : Option String
  deriving DecidableEq

/-- The environment of a run: the configured credential, the network, the
random source, the name-resolution collaborator and the local time zone. -/
structure Env where
  API_KEY : Option String
  axiosGet : List Event → String → Attempt
  random : List Event → ℚ
  lookupNames : List Event → String → Except String Names
  timeZone : ℤ → ℤ

/-- The constant `BASE_URL`. -/
def BASE_URL : String := "https://api.etherscan.io/v2/api"

/-- The backoff delay `baseDelay * Math.pow(2, i) + Math.random() * 100`. -/
def backoffDelay (env : Env) (baseDelay : JsNum) (i : Nat) (tr : List Event) : JsNum :=
  baseDelay * Math.pow2 i + JsNum.fin (env.random tr) * 100

/-- The loop of `fetchWithRetry`: `fuel` iterations remain, `i` is the loop
counter and `tr` the events so far. -/
def fetchLoop (env : Env) (url : String) (retries : Nat) (baseDelay : JsNum) :
    Nat → Nat → List Event → Except String Body × List Event
  | 0, _, tr => (.error "API request failed after retries", tr)
  | fuel + 1, i, tr =>
    let tr1 := tr ++ [Event.request url]
    -- the `catch (err)` block
    let onCatch (errMessage : String) : Except String Body × List Event :=
      if i + 1 = retries then
        (.error (if truthy errMessage then errMessage else "API request failed after retries"), tr1)
      else
        fetchLoop env url retries baseDelay fuel (i + 1)
          (tr1 ++ [Event.wait (backoffDelay env baseDelay i tr1)])
    match env.axiosGet tr url with
    | Attempt.throws errMessage => onCatch errMessage
    | Attempt.response none => fetchLoop env url retries baseDelay fuel (i + 1) tr1
    | Attempt.response (some data) =>
      if data.status = some "1" ∧ data.result.truthy = true then
        (.ok data, tr1)
      else if data.status = some "0" then
        let errorMsg := orElse data.message "API returned error status"
        if includes errorMsg "Invalid API Key" then
          -- thrown inside the `try`, so the `catch` block of the loop receives it
          onCatch errorMsg
        else if i + 1 < retries then
          fetchLoop env url retries baseDelay fuel (i + 1)
            (tr1 ++ [Event.wait (backoffDelay env baseDelay i tr1)])
        else
          (.ok data, tr1)
      else
        fetchLoop env url retries baseDelay fuel (i + 1) tr1

/-- The source's `fetchWithRetry(url, retries, baseDelay)`. -/
def fetchWithRetry (env : Env) (url : String) (retries : Nat) (baseDelay : JsNum)
    (tr : List Event) : Except String Body × List Event :=
  fetchLoop env url retries baseDelay retries 0 tr

/-- JavaScript `Array.isArray(data?.result) ? data.result : []`. -/
def resultArray (data : Body) : List Record :=
  match data.result with
  | JsResult.array records => records
  | JsResult.other _ => []

/-- The request target of one record category. -/
def requestUrl (action offset address key : String) : String :=
  BASE_URL ++ "?chainId=8453&module=account&action=" ++ action ++ "&address=" ++ address ++
    "&page=1&offset=" ++ offset ++ "&sort=asc&apikey=" ++ key

/-- The source's `getTransactions`. -/
def getTransactions (env : Env) (address : String) (tr : List Event) :
    Except String (List Record) × List Event :=
  if !truthyField env.API_KEY then
    (.error "VITE_ETHERSCAN_API_KEY is not set in environment variables", tr)
  else
    let url := requestUrl "txlist" "500" address (env.API_KEY.getD "")
    match fetchWithRetry env url 5 200 tr with
    | (.ok data, tr1) => (.ok (resultArray data), tr1)
    | (.error e, tr1) => (.error e, tr1)

/-- The source's `getTokenTransfers`. -/
def getTokenTransfers (env : Env) (address : String) (tr : List Event) :
    List Record × List Event :=
  if !truthyField env.API_KEY then
    ([], tr)
  else
    let url := requestUrl "tokentx" "1000" address (env.API_KEY.getD "")
    match fetchWithRetry env url 5 200 tr with
    | (.ok data, tr1) => (resultArray data, tr1)
    | (.error _, tr1) => ([], tr1)

/-- The source's `getNFTTransfers`. -/
def getNFTTransfers (env : Env) (address : String) (tr : List Event) :
    List Record × List Event :=
  if !truthyField env.API_KEY then
    ([], tr)
  else
    let url := requestUrl "tokennfttx" "1000" address (env.API_KEY.getD "")
    match fetchWithRetry env url 5 200 tr with
    | (.ok data, tr1) => (resultArray data, tr1)
    | (.error _, tr1) => ([], tr1)

/-! ## The orchestrator -/

/-- The `identityStats` object; `noActivity` is `false` where the source leaves
the property out. -/
structure IdentityStats where
  address : String
  shortenedAddress : List Nat
  firstTxDate : Option ℤ
  txCount : Nat
  totalInEth : JsNum
  totalOutEth : JsNum
  totalGasEth : JsNum
  activeDays : Nat
  builderScore : JsNum
  noActivity : Bool
  deriving DecidableEq

/-- An entry of `tokens`. -/
structure FormattedToken where
  name : String
  symbol : String
  balance : Nat
  logo : Option String
  deriving DecidableEq

/-- An entry of `nfts`. -/
structure FormattedNFT where
  name : String
  collection : String
  image : Option String
  deriving DecidableEq

/-- The success object of `getIdentityData`, without its `ok: true`. -/
structure IdentityData where
  identityStats : IdentityStats
  tokenCount : Nat
  nftCount : Nat
  tokens : List FormattedToken
  nfts : List FormattedNFT
  rank : Rank
  badges : List Badge
  timeline : List TimelineEvent
  xp : XPState
  ens : Option String
  baseName : Option String
  message : Option String
  deriving DecidableEq

/-- What `getIdentityData` resolves with: `{ ok: false, reason }` or the
success object. -/
inductive IdentityResult where
  | failure (reason : String)
  | success (data : IdentityData)
  deriving DecidableEq

/-- A number from a length or a set size. -/
def JsNum.ofNat (n : Nat) : JsNum := JsNum.fin n

/-- JavaScript `field?.toLowerCase() === address.toLowerCase()`. -/
def sameAddress (field : Option String) (address : String) : Bool :=
  match field with
  | some s => decide (toLowerCase s = toLowerCase address)
  | none => false

/-- The `uniqueTokens` / `uniqueNFTs` set of the activity path. -/
def uniqueContracts (transfers : List Record) : List String :=
  transfers.foldl (fun (unique : List String) tx =>
    match tx.contractAddress with
    | some c => if truthy c then setAdd unique (toLowerCase c) else unique
    | none => unique) []

/-- The count of the no-activity path:
`xs.length ? new Set(xs.map(t => t.contractAddress?.toLowerCase())).size : 0`. -/
def countContractsNoActivity (transfers : List Record) : Nat :=
  if transfers.length ≠ 0 then
    (newSet (transfers.map (fun t => t.contractAddress.map toLowerCase))).length
  else 0

/-- JavaScript `transfers.find(tx => tx.contractAddress?.toLowerCase() === contractAddress)`. -/
def findTransfer (transfers : List Record) (contractAddress : String) : Option Record :=
  transfers.find? (fun tx => decide (tx.contractAddress.map toLowerCase = some contractAddress))

/-- The `formattedTokens` of the activity path. -/
def formatTokens (uniqueTokens : List String) (tokenTransfers : List Record) :
    List FormattedToken :=
  (uniqueTokens.take 10).map (fun contractAddress =>
    let tokenTx := findTransfer tokenTransfers contractAddress
    { name := orElse (tokenTx.bind (fun t => t.tokenName)) "Unknown Token",
      symbol := orElse (tokenTx.bind (fun t => t.tokenSymbol)) "?",
      balance := 0,
      logo := none })

/-- The `formattedNFTs` of the activity path. -/
def formatNFTs (uniqueNFTs : List String) (nftTransfers : List Record) : List FormattedNFT :=
  ((List.range (uniqueNFTs.take 9).length).zip (uniqueNFTs.take 9)).map (fun p =>
    let idx := p.1
    let nftTx := findTransfer nftTransfers p.2
    { name := orElse (nftTx.bind (fun t => t.tokenName))
        ("NFT #" ++ orElse (nftTx.bind (fun t => t.tokenID)) (toString idx)),
      collection := orElse (nftTx.bind (fun t => t.tokenName)) "Unknown Collection",
      image := none })

/-- The guarded name lookup `try { names = await lookupNames(address) ... } catch { }`. -/
def lookupNamesGuarded (env : Env) (address : String) (tr : List Event) :
    Names × List Event :=
  match env.lookupNames tr address with
  | .ok names => (names, tr ++ [Event.nameLookup address])
  | .error _ => ({ ens := none, baseName := none }, tr ++ [Event.nameLookup address])

/-- The success object of the no-activity path, before the name lookup. -/
def noActivityData (address : String) (tokenTransfers nftTransfers : List Record)
    (names : Names) : IdentityData :=
  { identityStats :=
      { txCount := 0, firstTxDate := none, totalInEth := 0, totalOutEth := 0,
        totalGasEth := 0, activeDays := 0, builderScore := 0, noActivity := true,
        address := address, shortenedAddress := shortenAddress address },
    tokenCount := countContractsNoActivity tokenTransfers,
    nftCount := countContractsNoActivity nftTransfers,
    tokens := [],
    nfts := [],
    rank := calculateRank 0,
    badges := [],
    timeline := [],
    xp := calculateXP 0 0 0,
    ens := names.ens,
    baseName := names.baseName,
    message := some "Sorry, it seems you don't have any transactions on Base!" }

/-- The `firstTxDate` of the activity path:
`firstTx.timeStamp ? new Date(parseInt(firstTx.timeStamp) * 1000).toISOString() : null`. -/
def firstTxDateOf (firstTx : Record) : Except String (Option ℤ) :=
  match firstTx.timeStamp with
  | some ts =>
    match toISOString (newDate (ts * 1000)) with
    | .error e => .error e
    | .ok d => .ok (some d)
  | none => .ok none

/-- The aggregation of the activity path, up to the name lookup, for a list
`safeTransactions` whose first record is `firstTx`; it fails where the source
throws (`toISOString` of an invalid date). -/
def activityData (tz : ℤ → ℤ) (address : String) (firstTx : Record)
    (safeTransactions tokenTransfers nftTransfers : List Record) :
    Except String (Names → IdentityData) :=
  let txCount := safeTransactions.length
  let totalIn := (safeTransactions.filter (fun tx => sameAddress tx.to_ address)).foldl
    (fun sum tx => sum + numberOrZero tx.value / JsNum.fin (10 ^ 18)) 0
  let totalOut := (safeTransactions.filter (fun tx => sameAddress tx.from_ address)).foldl
    (fun sum tx => sum + numberOrZero tx.value / JsNum.fin (10 ^ 18)) 0
  let totalGas := safeTransactions.foldl
    (fun sum tx =>
      sum + numberOrZero tx.gasUsed * numberOrZero tx.gasPrice / JsNum.fin (10 ^ 18)) 0
  let activeDays := calculateActiveDays tz safeTransactions
  match firstTxDateOf firstTx with
  | .error e => .error e
  | .ok firstTxDate =>
    let uniqueTokens := uniqueContracts tokenTransfers
    let uniqueNFTs := uniqueContracts nftTransfers
    let tokenCount := uniqueTokens.length
    let nftCount := uniqueNFTs.length
    let builderScore := calculateBuilderScore (JsNum.ofNat txCount) (JsNum.ofNat activeDays)
      totalOut (JsNum.ofNat tokenCount) (JsNum.ofNat nftCount)
    let rank := calculateRank builderScore
    let xp := calculateXP (JsNum.ofNat txCount) (JsNum.ofNat activeDays) totalOut
    let badges := generateBadges (JsNum.ofNat txCount) (JsNum.ofNat activeDays) totalOut
      (JsNum.ofNat tokenCount) (JsNum.ofNat nftCount)
    match generateTimeline safeTransactions with
    | .error e => .error e
    | .ok timeline =>
      let formattedTokens := formatTokens uniqueTokens tokenTransfers
      let formattedNFTs := formatNFTs uniqueNFTs nftTransfers
      .ok (fun names =>
        { identityStats :=
            { address := address, shortenedAddress := shortenAddress address,
              firstTxDate := firstTxDate, txCount := txCount, totalInEth := totalIn,
              totalOutEth := totalOut, totalGasEth := totalGas, activeDays := activeDays,
              builderScore := builderScore, noActivity := false },
          tokenCount := tokenCount,
          nftCount := nftCount,
          tokens := formattedTokens,
          nfts := formattedNFTs,
          rank := rank,
          badges := badges,
          timeline := timeline,
          xp := xp,
          ens := names.ens,
          baseName := names.baseName,
          message := none })

/-- The `try` block of `getIdentityData`: the result it returns, or the message
of the error it throws, with the events of the run. -/
def getIdentityDataTry (env : Env) (address : String) :
    Except String IdentityResult × List Event :=
  -- Validate address
  if !truthy address || !startsWith address "0x" || decide (jsLength address ≠ 42) then
    (.ok (IdentityResult.failure "INVALID_ADDRESS"), [])
  -- Check API key
  else if !truthyField env.API_KEY then
    (.ok (IdentityResult.failure "API_KEY_MISSING"), [])
  else
    match getTransactions env address [] with
    | (.error e, tr) => (.error e, tr)
    | (.ok transactions, tr) =>
      let tokens := getTokenTransfers env address tr
      let nfts := getNFTTransfers env address (tokens.2 ++ [Event.wait 150])
      let tokenTransfers := tokens.1
      let nftTransfers := nfts.1
      let safeTransactions := transactions
      match safeTransactions with
      | [] =>
        -- no transactions were returned
        let names := lookupNamesGuarded env address nfts.2
        (.ok (IdentityResult.success
          (noActivityData address tokenTransfers nftTransfers names.1)), names.2)
      | firstTx :: _ =>
        match activityData env.timeZone address firstTx safeTransactions tokenTransfers
          nftTransfers with
        | .error e => (.error e, nfts.2)
        | .ok build =>
          let names := lookupNamesGuarded env address nfts.2
          (.ok (IdentityResult.success (build names.1)), names.2)

/-- The `catch (error)` block of `getIdentityData`: the reason for an error
with the given message. -/
def failureReason (message : String) : String :=
  if includes message "API_KEY" then "API_KEY_MISSING"
  else if includes message "INVALID_ADDRESS" then "INVALID_ADDRESS"
  else orElse (some message) "UNKNOWN_ERROR"

/-- The source's `getIdentityData`: the result, with the events of the run. -/
def getIdentityData (env : Env) (address : String) : IdentityResult × List Event :=
  match getIdentityDataTry env address with
  | (.ok result, tr) => (result, tr)
  | (.error message, tr) => (IdentityResult.failure (failureReason message), tr)

/-! ## Binary64 arithmetic

The numbers of the engine are binary64 doubles: every sum, product, difference
and quotient is the double nearest to the exact result, a tie going to the
double with the even significand.  This section puts that rounding on top of
the exact operations and embeds once more, with it, the two computations whose
results show it: `calculateXP` (the product `totalOutEth * 100`) and the three
totals of `getIdentityData` (the running sums).  A double is a rational number
`m * 2^e` with `|m| < 2^53` and `-1074 ≤ e`; results beyond the largest double
are not turned into an infinity. -/

/-- The integer nearest to `x`, the even one of the two when `x` lies half-way. -/
def roundHalfEven (x : ℚ) : ℤ :=
  if x - ⌊x⌋ < 1 / 2 then ⌊x⌋
  else if 1 / 2 < x - ⌊x⌋ then ⌊x⌋ + 1
  else if ⌊x⌋ % 2 = 0 then ⌊x⌋
  else ⌊x⌋ + 1

/-- The exponent `e` of the spacing `2^e` of the doubles around `q`: 52 below the
binary exponent of `q`, and -1074 in the subnormal range. -/
def spacingExponent (q : ℚ) : ℤ := max (Int.log 2 |q| - 52) (-1074)

/-- The double nearest to the rational number `q`. -/
def nearestDouble (q : ℚ) : ℚ :=
  roundHalfEven (q / 2 ^ spacingExponent q) * 2 ^ spacingExponent q

/-- The double nearest to a number computed exactly. -/
def Binary64.nearest : JsNum → JsNum
  | JsNum.fin q => JsNum.fin (nearestDouble q)
  | JsNum.nan => JsNum.nan

/-- JavaScript `x + y` on doubles. -/
def Binary64.add (x y : JsNum) : JsNum := Binary64.nearest (x + y)

/-- JavaScript `x * y` on doubles. -/
def Binary64.mul (x y : JsNum) : JsNum := Binary64.nearest (x * y)

/-- JavaScript `x - y` on doubles. -/
def Binary64.sub (x y : JsNum) : JsNum := Binary64.nearest (x - y)

/-- JavaScript `x / y` on doubles, for the non-zero divisors the module uses. -/
def Binary64.div (x y : JsNum) : JsNum := Binary64.nearest (x / y)

/-- The source's `calculateXP`, on doubles. -/
def Binary64.calculateXP (txCount activeDays totalOutEth : JsNum) : XPState :=
  let totalXP : JsNum := 0
  -- Base XP from transactions
  let totalXP := Binary64.add totalXP (Binary64.mul txCount 10)
  -- Bonus for active days
  let totalXP := Binary64.add totalXP (Binary64.mul activeDays 50)
  -- Bonus for volume
  let totalXP := Binary64.add totalXP (Math.floor (Binary64.mul totalOutEth 100))
  -- Calculate level (every 1000 XP = 1 level)
  let level := Binary64.add (Math.floor (Binary64.div totalXP 1000)) 1
  let currentLevelXP := Binary64.mul (Binary64.sub level 1) 1000
  let nextLevelXP := Binary64.mul level 1000
  { totalXP := totalXP, level := level, currentLevelXP := currentLevelXP,
    nextLevelXP := nextLevelXP }

/-- JavaScript `field?.toLowerCase() === address.toLowerCase()`, for the
`toLowerCase` of the engine, given as `toLower`. -/
def sameAddressBy (toLower : String → String) (field : Option String) (address : String) :
    Bool :=
  match field with
  | some s => decide (toLower s = toLower address)
  | none => false

/-- The `totalIn` of `getIdentityData`, on doubles. -/
def Binary64.totalIn (toLower : String → String) (address : String)
    (safeTransactions : List Record) : JsNum :=
  (safeTransactions.filter (fun tx => sameAddressBy toLower tx.to_ address)).foldl
    (fun sum tx =>
      Binary64.add sum (Binary64.div (numberOrZero tx.value) (JsNum.fin (10 ^ 18)))) 0

/-- The `totalOut` of `getIdentityData`, on doubles. -/
def Binary64.totalOut (toLower : String → String) (address : String)
    (safeTransactions : List Record) : JsNum :=
  (safeTransactions.filter (fun tx => sameAddressBy toLower tx.from_ address)).foldl
    (fun sum tx =>
      Binary64.add sum (Binary64.div (numberOrZero tx.value) (JsNum.fin (10 ^ 18)))) 0

/-- The `totalGas` of `getIdentityData`, on doubles. -/
def Binary64.totalGas (safeTransactions : List Record) : JsNum :=
  safeTransactions.foldl
    (fun sum tx =>
      Binary64.add sum
        (Binary64.div (Binary64.mul (numberOrZero tx.gasUsed) (numberOrZero tx.gasPrice))
          (JsNum.fin (10 ^ 18)))) 0

/-! ## Definitions used to state the properties -/

/-- The outbound-value tier of the specification. -/
def outboundTier (totalOutEth : ℚ) : ℚ :=
  if totalOutEth > 10 then 20
  else if totalOutEth > 1 then 15
  else if totalOutEth > 1 / 10 then 10
  else if totalOutEth > 0 then 5
  else 0

/-- The NFT-ownership tier of the specification. -/
def nftTier (nftCount : ℚ) : ℚ :=
  if nftCount > 10 then 10
  else if nftCount > 5 then 7
  else if nftCount > 0 then 5
  else 0

/-- The builder score as the specification writes it: the five capped
components added, clamped at 100 and rounded to the nearest integer. -/
def builderScoreFormula (txCount activeDays totalOutEth tokenCount nftCount : ℚ) : ℤ :=
  round (min 100 (min 30 (txCount / 100 * 30) + min 25 (activeDays / 365 * 25)
    + outboundTier totalOutEth + min 15 (tokenCount / 20 * 15) + nftTier nftCount))

/-- The validation of `getIdentityData` lets an address through exactly when it
starts with "0x" and has length 42. -/
def passesValidation (address : String) : Bool :=
  startsWith address "0x" && decide (jsLength address = 42)

/-- A hexadecimal digit. -/
def isHexDigit (c : Char) : Bool :=
  c.isDigit || (decide ('a' ≤ c) && decide (c ≤ 'f')) || (decide ('A' ≤ c) && decide (c ≤ 'F'))

/-- The address shape of the specification: 42 characters, the prefix "0x"
followed by 40 hexadecimal digits. -/
def hasAddressShape (s : String) : Bool :=
  decide (jsLength s = 42) && startsWith s "0x" && (s.toList.drop 2).all isHexDigit

/-- A well-formed address. -/
def sampleAddress : String := "0x1234567890abcdef1234567890abcdef12345678"

/-- A string of 42 characters that starts with "0x" and is not hexadecimal. -/
def sampleNonHexAddress : String := "0xzzzzzzzzzzzzzzzzzzzzzzzzzzzzzzzzzzzzzzzz"

/-- A success body with an empty result array. -/
def emptySuccessBody : Body :=
  { status := some "1", message := some "OK", result := JsResult.array [] }

/-- An environment with a credential in which every request is answered by a
success body with no records and the name lookup finds nothing. -/
def quietEnv : Env :=
  { API_KEY := some "KEY",
    axiosGet := fun _ _ => Attempt.response (some emptySuccessBody),
    random := fun _ => 0,
    lookupNames := fun _ _ => .ok { ens := none, baseName := none },
    timeZone := fun _ => 0 }

/-- The environment `quietEnv` without a credential. -/
def noKeyEnv : Env := { quietEnv with API_KEY := none }

/-- The number of requests among the events of a run. -/
def requestCount (tr : List Event) : Nat :=
  (tr.filter (fun e => match e with
    | Event.request _ => true
    | _ => false)).length

/-- The body of a rate-limit response of the block explorer: status "0", and a
text where the records would be. -/
def rateLimitBody : Body :=
  { status := some "0", message := some "NOTOK", result := JsResult.other true }

/-- An environment in which every request is answered by a rate-limit body. -/
def rateLimitedEnv : Env :=
  { quietEnv with axiosGet := fun _ _ => Attempt.response (some rateLimitBody) }

/-- An environment in which every request fails at the transport level with
the given message. -/
def failingEnv (message : String) : Env :=
  { quietEnv with axiosGet := fun _ _ => Attempt.throws message }

/-- The labels of the six badge rules, in rule order, each kept when its flag
is set. -/
def badgeLabels (powerUser longTerm highVolume tokenCollector nftEnthusiast
    activeBuilder : Bool) : List String :=
  (if powerUser then ["Power User"] else [])
    ++ (if longTerm then ["Long-term Builder"] else [])
    ++ (if highVolume then ["High Volume"] else [])
    ++ (if tokenCollector then ["Token Collector"] else [])
    ++ (if nftEnthusiast then ["NFT Enthusiast"] else [])
    ++ (if activeBuilder then ["Active Builder"] else [])

/-- The label and the date of each event of a timeline. -/
def labelsAndDates (timeline : Except String (List TimelineEvent)) :
    Except String (List (String × ℤ)) :=
  match timeline with
  | .ok events => .ok (events.map (fun e => (e.label, e.date)))
  | .error e => .error e

/-- The number of distinct values of `toDateString` over the records that have
a `timeStamp`, in the time zone `tz`. -/
def distinctLocalDates (tz : ℤ → ℤ) (transactions : List Record) : Nat :=
  ((transactions.filterMap (fun tx =>
    tx.timeStamp.map (fun ts => toDateString tz (newDate (ts * 1000))))).toFinset).card

/-- Two transactions, at 23:00 UTC of one day and at 01:00 UTC of the next. -/
def sampleNightTransactions : List Record :=
  [{ timeStamp := some (JsNum.fin 82800) }, { timeStamp := some (JsNum.fin 90000) }]

/-- The token transfers that a run of `getIdentityData` fetches. -/
def fetchedTokenTransfers (env : Env) (address : String) : List Record :=
  (getTokenTransfers env address (getTransactions env address []).2).1

/-- The NFT transfers that a run of `getIdentityData` fetches. -/
def fetchedNFTTransfers (env : Env) (address : String) : List Record :=
  (getNFTTransfers env address
    ((getTokenTransfers env address (getTransactions env address []).2).2
      ++ [Event.wait 150])).1

/-- A transaction sent by `sampleAddress`: 2.5 units of value. -/
def sampleOutTransaction : Record :=
  { from_ := some sampleAddress,
    to_ := some "0x000000000000000000000000000000000000dead",
    value := some (JsNum.fin 2500000000000000000),
    gasUsed := some (JsNum.fin 21000),
    gasPrice := some (JsNum.fin 1000000000),
    timeStamp := some (JsNum.fin 1700000000) }

/-- A transaction received by `sampleAddress`, written in upper case: 1 unit of
value. -/
def sampleInTransaction : Record :=
  { from_ := some "0x000000000000000000000000000000000000dead",
    to_ := some "0x1234567890ABCDEF1234567890ABCDEF12345678",
    value := some (JsNum.fin 1000000000000000000),
    gasUsed := some (JsNum.fin 21000),
    gasPrice := some (JsNum.fin 2000000000),
    timeStamp := some (JsNum.fin 1700086400) }

/-- An environment that answers every request with the given transaction list
and finds no name. -/
def recordsEnv (records : List Record) : Env :=
  { quietEnv with
    axiosGet := fun _ _ => Attempt.response
      (some { status := some "1", message := some "OK", result := JsResult.array records }) }

/-- An environment whose first request is answered by an empty success body and
every later request by the given transfer records. -/
def transfersEnv (transfers : List Record) : Env :=
  { quietEnv with
    axiosGet := fun tr _ =>
      match tr with
      | [] => Attempt.response (some emptySuccessBody)
      | _ :: _ => Attempt.response
          (some { status := some "1", message := some "OK",
                  result := JsResult.array transfers }) }

/-- The number of waits among the events of a run. -/
def waitCount (tr : List Event) : Nat :=
  (tr.filter (fun e => match e with
    | Event.wait _ => true
    | _ => false)).length

/-- A status-"0" body whose message reports an invalid credential. -/
def invalidKeyBody : Body :=
  { status := some "0", message := some "Invalid API Key", result := JsResult.other true }

/-- An environment in which every request is answered by `invalidKeyBody`. -/
def invalidKeyEnv : Env :=
  { quietEnv with axiosGet := fun _ _ => Attempt.response (some invalidKeyBody) }

/-- An environment whose first request is answered by `invalidKeyBody` and every
later request by an empty success body. -/
def invalidKeyOnceEnv : Env :=
  { quietEnv with
    axiosGet := fun tr _ =>
      match tr with
      | [] => Attempt.response (some invalidKeyBody)
      | _ :: _ => Attempt.response (some emptySuccessBody) }

/-- A transaction record without a `timeStamp`. -/
def missingTimestampRecord : Record :=
  { from_ := some sampleAddress,
    to_ := some "0x000000000000000000000000000000000000dead",
    value := some (JsNum.fin 1000000000000000000),
    gasUsed := some (JsNum.fin 21000),
    gasPrice := some (JsNum.fin 1000000000) }

/-- A transaction record whose `timeStamp` is a text that `parseInt` cannot
read. -/
def unparseableTimestampRecord : Record :=
  { missingTimestampRecord with timeStamp := some JsNum.nan }

/-- A transaction sent by `sampleAddress` whose `value` and `gasPrice` are texts
that `Number` cannot read. -/
def unparseableValueRecord : Record :=
  { from_ := some sampleAddress,
    to_ := some "0x000000000000000000000000000000000000dead",
    value := some JsNum.nan,
    gasUsed := some (JsNum.fin 21000),
    gasPrice := some JsNum.nan,
    timeStamp := some (JsNum.fin 1700000000) }

/-- A "no data" body of the block explorer: status "0" and an empty array. -/
def noDataBody : Body :=
  { status := some "0", message := some "No transactions found", result := JsResult.array [] }

/-- An environment in which every request is answered by `noDataBody`. -/
def noDataEnv : Env :=
  { quietEnv with axiosGet := fun _ _ => Attempt.response (some noDataBody) }

/-- A body that is neither a success body nor a status-"0" body. -/
def oddBody : Body :=
  { status := some "2", message := none, result := JsResult.other false }

/-- An environment in which every request is answered by `oddBody`. -/
def oddEnv : Env :=
  { quietEnv with axiosGet := fun _ _ => Attempt.response (some oddBody) }

/-- The environment `env` with a name lookup that always throws. -/
def withFailingLookup (env : Env) (message : String) : Env :=
  { env with lookupNames := fun _ _ => .error message }

/-- A result with its names removed: `ens = null` and `baseName = null`. -/
def withoutNames : IdentityResult → IdentityResult
  | IdentityResult.success data =>
    IdentityResult.success { data with ens := none, baseName := none }
  | IdentityResult.failure reason => IdentityResult.failure reason

/-- The environment `quietEnv` with a name lookup that finds two names. -/
def namedEnv : Env :=
  { quietEnv with
    lookupNames := fun _ _ => .ok { ens := some "alice.eth", baseName := some "alice.base" } }

/-- A transfer record without a `contractAddress`. -/
def namelessTransfer : Record := { tokenName := some "Token", tokenSymbol := some "TKN" }

/-- An environment whose first request, the one for the transaction list, is
answered by the given transactions and every later request by the given
transfer records. -/
def activeTransfersEnv (transactions transfers : List Record) : Env :=
  { quietEnv with
    axiosGet := fun tr _ =>
      match tr with
      | [] => Attempt.response
          (some { status := some "1", message := some "OK",
                  result := JsResult.array transactions })
      | _ :: _ => Attempt.response
          (some { status := some "1", message := some "OK",
                  result := JsResult.array transfers }) }

/-- The height of a tier letter: D is 0, C is 1, B is 2, A is 3 and S is 4. -/
def tierLevel (tier : String) : Nat :=
  if tier = "S" then 4
  else if tier = "A" then 3
  else if tier = "B" then 2
  else if tier = "C" then 1
  else 0

/-- The `validateAddress` of `components/AddressInput.jsx`: the error text, or
`none` for `null`. -/
def validateAddress (addr : String) : Option String :=
  if !truthy addr then
    some "Address is required"
  else if !startsWith addr "0x" then
    some "Address must start with 0x"
  else if jsLength addr ≠ 42 then
    some "Address must be 42 characters long"
  else
    none

/-- The check of `handleSubmit` in `App.jsx`: whether it stops with "Invalid
address format". -/
def handleSubmitRejects (wallet : String) : Bool :=
  !startsWith wallet "0x" || decide (jsLength wallet ≠ 42)

/-- The sum of a list of numbers accumulated on doubles from left to right,
starting at 0. -/
def doubleSum (xs : List ℚ) : ℚ := xs.foldl (fun sum x => nearestDouble (sum + x)) 0

/-- The double written `0.03`. -/
def threeHundredths : ℚ := 1080863910568919 / 36028797018963968

/-- Three transactions sent by the sample address, of 0.05, 9.9 and 0.05 ether. -/
def roundingTransactions : List Record :=
  [{ from_ := some sampleAddress, value := some (JsNum.fin 50000000000000000) },
   { from_ := some sampleAddress, value := some (JsNum.fin 9900000000000000000) },
   { from_ := some sampleAddress, value := some (JsNum.fin 50000000000000000) }]

/-- The value of a numeric field that holds a finite number, and 0 for a field
that is missing. -/
def finiteOrZero : Option JsNum → ℚ
  | some (JsNum.fin v) => v
  | _ => 0

/-! ## Evaluation lemmas for the number model -/

namespace JsNum
theorem ofNat_lit (n : ℕ) : (OfNat.ofNat n : JsNum) = fin (n : ℚ) := rfl
@[simp] theorem fin_add (a b : ℚ) : fin a + fin b = fin (a + b) := rfl
@[simp] theorem fin_mul (a b : ℚ) : fin a * fin b = fin (a * b) := rfl
@[simp] theorem fin_sub (a b : ℚ) : fin a - fin b = fin (a - b) := rfl
@[simp] theorem fin_div (a b : ℚ) : fin a / fin b = fin (a / b) := rfl
@[simp] theorem gt_fin (a b : ℚ) : (fin a).gt (fin b) = decide (b < a) := rfl
@[simp] theorem ge_fin (a b : ℚ) : (fin a).ge (fin b) = decide (b ≤ a) := rfl
end JsNum

@[simp] theorem Math.min_fin (a b : ℚ) :
    Math.min (JsNum.fin a) (JsNum.fin b) = JsNum.fin (Min.min a b) := rfl
@[simp] theorem Math.round_fin (a : ℚ) :
    Math.round (JsNum.fin a) = JsNum.fin (⌊a + 1 / 2⌋ : ℤ) := rfl
@[simp] theorem Math.floor_fin (a : ℚ) :
    Math.floor (JsNum.fin a) = JsNum.fin (⌊a⌋ : ℤ) := rfl

/-! ## The builder score against its formula -/

theorem outboundTier_cases (o : ℚ) :
    10 < o ∨ (¬ 10 < o ∧ 1 < o) ∨ (¬ 10 < o ∧ ¬ 1 < o ∧ 1 / 10 < o) ∨
      (¬ 10 < o ∧ ¬ 1 < o ∧ ¬ 1 / 10 < o ∧ 0 < o) ∨
      (¬ 10 < o ∧ ¬ 1 < o ∧ ¬ 1 / 10 < o ∧ ¬ 0 < o) := by
  by_cases h1 : 10 < o
  · exact Or.inl h1
  by_cases h2 : 1 < o
  · exact Or.inr (Or.inl ⟨h1, h2⟩)
  by_cases h3 : 1 / 10 < o
  · exact Or.inr (Or.inr (Or.inl ⟨h1, h2, h3⟩))
  by_cases h4 : 0 < o
  · exact Or.inr (Or.inr (Or.inr (Or.inl ⟨h1, h2, h3, h4⟩)))
  · exact Or.inr (Or.inr (Or.inr (Or.inr ⟨h1, h2, h3, h4⟩)))

theorem nftTier_cases (n : ℚ) :
    10 < n ∨ (¬ 10 < n ∧ 5 < n) ∨ (¬ 10 < n ∧ ¬ 5 < n ∧ 0 < n) ∨
      (¬ 10 < n ∧ ¬ 5 < n ∧ ¬ 0 < n) := by
  by_cases h1 : 10 < n
  · exact Or.inl h1
  by_cases h2 : 5 < n
  · exact Or.inr (Or.inl ⟨h1, h2⟩)
  by_cases h3 : 0 < n
  · exact Or.inr (Or.inr (Or.inl ⟨h1, h2, h3⟩))
  · exact Or.inr (Or.inr (Or.inr ⟨h1, h2, h3⟩))

theorem calculateBuilderScore_fin (t a o k n : ℚ) :
    calculateBuilderScore (JsNum.fin t) (JsNum.fin a) (JsNum.fin o) (JsNum.fin k) (JsNum.fin n)
      = JsNum.fin (builderScoreFormula t a o k n) := by
  rcases outboundTier_cases o with h | ⟨h1, h⟩ | ⟨h1, h2, h⟩ | ⟨h1, h2, h3, h⟩ | ⟨h1, h2, h3, h⟩ <;>
  rcases nftTier_cases n with g | ⟨g1, g⟩ | ⟨g1, g2, g⟩ | ⟨g1, g2, g⟩ <;>
  simp only [calculateBuilderScore, builderScoreFormula, outboundTier, nftTier, round_eq,
    JsNum.ofNat_lit, JsNum.fin_div, JsNum.fin_mul, JsNum.fin_add, Math.min_fin, Math.round_fin,
    JsNum.gt_fin, decide_eq_true_eq, gt_iff_lt, Nat.cast_ofNat, Nat.cast_zero, Nat.cast_one, zero_add, add_zero,
    if_true, if_false, *]

/-- C1: for all finite inputs, in particular all non-negative ones,
`calculateBuilderScore` returns the rounded, clamped sum of the five capped
components of the specification; the transaction component is 0 at
`txCount = 0` and 30 at `txCount = 100`, so the score is 0 and 30 there when
the other four inputs are zero. -/
theorem calculateBuilderScore_eq_formula (txCount activeDays totalOutEth tokenCount nftCount : ℚ) :
    calculateBuilderScore (JsNum.fin txCount) (JsNum.fin activeDays) (JsNum.fin totalOutEth)
        (JsNum.fin tokenCount) (JsNum.fin nftCount)
      = JsNum.fin (round (min 100 (min 30 (txCount / 100 * 30) + min 25 (activeDays / 365 * 25)
          + outboundTier totalOutEth + min 15 (tokenCount / 20 * 15) + nftTier nftCount)) : ℤ)
    ∧ Math.min 30 ((JsNum.fin 0 / 100) * 30) = JsNum.fin 0
    ∧ Math.min 30 ((JsNum.fin 100 / 100) * 30) = JsNum.fin 30
    ∧ calculateBuilderScore (JsNum.fin 0) (JsNum.fin 0) (JsNum.fin 0) (JsNum.fin 0) (JsNum.fin 0)
        = JsNum.fin 0
    ∧ calculateBuilderScore (JsNum.fin 100) (JsNum.fin 0) (JsNum.fin 0) (JsNum.fin 0)
        (JsNum.fin 0) = JsNum.fin 30 := by
  refine ⟨calculateBuilderScore_fin _ _ _ _ _, ?_, ?_, ?_, ?_⟩
  · simp only [JsNum.ofNat_lit, JsNum.fin_div, JsNum.fin_mul, Math.min_fin]
    norm_num
  · simp only [JsNum.ofNat_lit, JsNum.fin_div, JsNum.fin_mul, Math.min_fin]
    norm_num
  · rw [calculateBuilderScore_fin]
    simp only [builderScoreFormula, outboundTier, nftTier, round_eq]
    norm_num
  · rw [calculateBuilderScore_fin]
    simp only [builderScoreFormula, outboundTier, nftTier, round_eq]
    norm_num

theorem outboundTier_nonneg (o : ℚ) : 0 ≤ outboundTier o := by
  unfold outboundTier
  split_ifs <;> norm_num

theorem nftTier_nonneg (n : ℚ) : 0 ≤ nftTier n := by
  unfold nftTier
  split_ifs <;> norm_num

theorem builderScoreFormula_le (t a o k n : ℚ) : builderScoreFormula t a o k n ≤ 100 := by
  unfold builderScoreFormula
  rw [round_eq]
  have h : min 100 (min 30 (t / 100 * 30) + min 25 (a / 365 * 25) + outboundTier o
      + min 15 (k / 20 * 15) + nftTier n) ≤ (100 : ℚ) := min_le_left _ _
  have h2 : (⌊min 100 (min 30 (t / 100 * 30) + min 25 (a / 365 * 25) + outboundTier o
      + min 15 (k / 20 * 15) + nftTier n) + 1 / 2⌋ : ℤ) < 101 := by
    rw [Int.floor_lt]
    push_cast
    linarith
  omega

theorem builderScoreFormula_nonneg (t a o k n : ℚ) (ht : 0 ≤ t) (ha : 0 ≤ a) (hk : 0 ≤ k) :
    0 ≤ builderScoreFormula t a o k n := by
  unfold builderScoreFormula
  rw [round_eq, Int.le_floor]
  have h1 : 0 ≤ min 30 (t / 100 * 30) := le_min (by norm_num) (by positivity)
  have h2 : 0 ≤ min 25 (a / 365 * 25) := le_min (by norm_num) (by positivity)
  have h3 : 0 ≤ min 15 (k / 20 * 15) := le_min (by norm_num) (by positivity)
  have h4 := outboundTier_nonneg o
  have h5 := nftTier_nonneg n
  have h6 : (0 : ℚ) ≤ min 100 (min 30 (t / 100 * 30) + min 25 (a / 365 * 25) + outboundTier o
      + min 15 (k / 20 * 15) + nftTier n) := le_min (by norm_num) (by linarith)
  push_cast
  linarith

/-- C2: for non-negative `txCount`, `activeDays` and `tokenCount` (and any
finite `totalOutEth` and `nftCount`, whose tiers are never negative) the value
`calculateBuilderScore` returns is an integer between 0 and 100. -/
theorem calculateBuilderScore_range (txCount activeDays totalOutEth tokenCount nftCount : ℚ)
    (htx : 0 ≤ txCount) (hdays : 0 ≤ activeDays) (htok : 0 ≤ tokenCount) :
    ∃ s : ℤ, calculateBuilderScore (JsNum.fin txCount) (JsNum.fin activeDays)
        (JsNum.fin totalOutEth) (JsNum.fin tokenCount) (JsNum.fin nftCount) = JsNum.fin (s : ℚ)
      ∧ 0 ≤ s ∧ s ≤ 100 :=
  ⟨builderScoreFormula txCount activeDays totalOutEth tokenCount nftCount,
    calculateBuilderScore_fin _ _ _ _ _,
    builderScoreFormula_nonneg _ _ _ _ _ htx hdays htok,
    builderScoreFormula_le _ _ _ _ _⟩

/-- C2 at the inputs of a profile with 150 transactions on 10 days. -/
theorem calculateBuilderScore_range_witness :
    ∃ s : ℤ, calculateBuilderScore (JsNum.fin 150) (JsNum.fin 10) (JsNum.fin (5 / 2))
        (JsNum.fin 3) (JsNum.fin 0) = JsNum.fin (s : ℚ) ∧ 0 ≤ s ∧ s ≤ 100 :=
  calculateBuilderScore_range 150 10 (5 / 2) 3 0 (by norm_num) (by norm_num) (by norm_num)

/-! ## Rank bands -/

theorem calculateRank_fin (s : ℤ) :
    calculateRank (JsNum.fin (s : ℚ)) =
      if 90 ≤ s then { color := "gold", label := "Legend", tier := "S" }
      else if 75 ≤ s then { color := "purple", label := "Master", tier := "A" }
      else if 60 ≤ s then { color := "blue", label := "Expert", tier := "B" }
      else if 40 ≤ s then { color := "green", label := "Builder", tier := "C" }
      else { color := "gray", label := "Explorer", tier := "D" } := by
  simp only [calculateRank, JsNum.ofNat_lit, JsNum.ge_fin, decide_eq_true_eq]
  have e90 : ((90 : ℕ) : ℚ) ≤ (s : ℚ) ↔ 90 ≤ s := by norm_cast
  have e75 : ((75 : ℕ) : ℚ) ≤ (s : ℚ) ↔ 75 ≤ s := by norm_cast
  have e60 : ((60 : ℕ) : ℚ) ≤ (s : ℚ) ↔ 60 ≤ s := by norm_cast
  have e40 : ((40 : ℕ) : ℚ) ≤ (s : ℚ) ↔ 40 ≤ s := by norm_cast
  simp only [e90, e75, e60, e40]

/-- C3: for every integer score `calculateRank` returns exactly one of the five
bands, each on its own interval of scores, with the boundaries at 90, 75, 60
and 40. -/
theorem calculateRank_bands (score : ℤ) :
    (calculateRank (JsNum.fin (score : ℚ)) = { color := "gold", label := "Legend", tier := "S" }
        ↔ 90 ≤ score)
    ∧ (calculateRank (JsNum.fin (score : ℚ))
          = { color := "purple", label := "Master", tier := "A" } ↔ 75 ≤ score ∧ score < 90)
    ∧ (calculateRank (JsNum.fin (score : ℚ))
          = { color := "blue", label := "Expert", tier := "B" } ↔ 60 ≤ score ∧ score < 75)
    ∧ (calculateRank (JsNum.fin (score : ℚ))
          = { color := "green", label := "Builder", tier := "C" } ↔ 40 ≤ score ∧ score < 60)
    ∧ (calculateRank (JsNum.fin (score : ℚ))
          = { color := "gray", label := "Explorer", tier := "D" } ↔ score < 40)
    ∧ (calculateRank (JsNum.fin 90)).tier = "S"
    ∧ (calculateRank (JsNum.fin 89)).tier = "A" ∧ (calculateRank (JsNum.fin 75)).tier = "A"
    ∧ (calculateRank (JsNum.fin 74)).tier = "B" ∧ (calculateRank (JsNum.fin 60)).tier = "B"
    ∧ (calculateRank (JsNum.fin 59)).tier = "C" ∧ (calculateRank (JsNum.fin 40)).tier = "C"
    ∧ (calculateRank (JsNum.fin 39)).tier = "D" := by
  have h90 := calculateRank_fin 90
  have h89 := calculateRank_fin 89
  have h75 := calculateRank_fin 75
  have h74 := calculateRank_fin 74
  have h60 := calculateRank_fin 60
  have h59 := calculateRank_fin 59
  have h40 := calculateRank_fin 40
  have h39 := calculateRank_fin 39
  norm_num at h90 h89 h75 h74 h60 h59 h40 h39
  rw [calculateRank_fin score, h90, h89, h75, h74, h60, h59, h40, h39]
  refine ⟨?_, ?_, ?_, ?_, ?_, rfl, rfl, rfl, rfl, rfl, rfl, rfl, rfl⟩ <;>
    split_ifs <;> simp <;> omega

/-! ## Experience points -/

theorem calculateXP_fin (t a o : ℚ) :
    calculateXP (JsNum.fin t) (JsNum.fin a) (JsNum.fin o) =
      { totalXP := JsNum.fin (t * 10 + a * 50 + (⌊o * 100⌋ : ℤ)),
        level := JsNum.fin ((⌊(t * 10 + a * 50 + (⌊o * 100⌋ : ℤ)) / 1000⌋ : ℤ) + 1),
        currentLevelXP :=
          JsNum.fin (((⌊(t * 10 + a * 50 + (⌊o * 100⌋ : ℤ)) / 1000⌋ : ℤ) + 1 - 1) * 1000),
        nextLevelXP :=
          JsNum.fin (((⌊(t * 10 + a * 50 + (⌊o * 100⌋ : ℤ)) / 1000⌋ : ℤ) + 1) * 1000) } := by
  simp only [calculateXP, JsNum.ofNat_lit, JsNum.fin_mul, JsNum.fin_add, JsNum.fin_sub,
    JsNum.fin_div, Math.floor_fin, Nat.cast_ofNat, Nat.cast_zero, Nat.cast_one, zero_add]

/-- C5: for a transaction count, a count of active days and a non-negative
outbound value, the state `calculateXP` returns has a non-negative integer
`totalXP`, a level of at least 1, and `currentLevelXP <= totalXP < nextLevelXP`. -/
theorem calculateXP_invariant (txCount activeDays : ℕ) (totalOutEth : ℚ)
    (hout : 0 ≤ totalOutEth) :
    ∃ totalXP level : ℤ, ∃ currentLevelXP nextLevelXP : ℚ,
      calculateXP (JsNum.fin txCount) (JsNum.fin activeDays) (JsNum.fin totalOutEth) =
          { totalXP := JsNum.fin totalXP,
            level := JsNum.fin level,
            currentLevelXP := JsNum.fin currentLevelXP,
            nextLevelXP := JsNum.fin nextLevelXP }
      ∧ 0 ≤ totalXP ∧ 1 ≤ level
      ∧ currentLevelXP ≤ totalXP ∧ (totalXP : ℚ) < nextLevelXP := by
  have hfloor : (0 : ℤ) ≤ ⌊totalOutEth * 100⌋ := Int.floor_nonneg.mpr (by positivity)
  obtain ⟨X, hXdef⟩ : ∃ X : ℤ, X = (txCount : ℤ) * 10 + (activeDays : ℤ) * 50
      + ⌊totalOutEth * 100⌋ := ⟨_, rfl⟩
  have hX : 0 ≤ X := by rw [hXdef]; positivity
  have hcast : ((txCount : ℚ) * 10 + (activeDays : ℚ) * 50 + (⌊totalOutEth * 100⌋ : ℤ))
      = (X : ℚ) := by
    rw [hXdef]
    push_cast
    ring
  have hXq : (0 : ℚ) ≤ (X : ℚ) := by exact_mod_cast hX
  refine ⟨X, ⌊(X : ℚ) / 1000⌋ + 1, (((⌊(X : ℚ) / 1000⌋ + 1 : ℤ) : ℚ) - 1) * 1000,
    ((⌊(X : ℚ) / 1000⌋ + 1 : ℤ) : ℚ) * 1000, ?_, hX, ?_, ?_, ?_⟩
  · rw [calculateXP_fin, hcast]
    push_cast
    rfl
  · have : (0 : ℤ) ≤ ⌊(X : ℚ) / 1000⌋ :=
      Int.floor_nonneg.mpr (div_nonneg hXq (by norm_num))
    omega
  · have := Int.floor_le ((X : ℚ) / 1000)
    rw [le_div_iff₀ (by norm_num)] at this
    push_cast
    linarith
  · have := Int.lt_floor_add_one ((X : ℚ) / 1000)
    rw [div_lt_iff₀ (by norm_num)] at this
    push_cast
    linarith

/-- C5 at 150 transactions on 10 days with an outbound value of 2.5. -/
theorem calculateXP_invariant_witness :
    ∃ totalXP level : ℤ, ∃ currentLevelXP nextLevelXP : ℚ,
      calculateXP (JsNum.fin (150 : ℕ)) (JsNum.fin (10 : ℕ)) (JsNum.fin (5 / 2)) =
          { totalXP := JsNum.fin totalXP,
            level := JsNum.fin level,
            currentLevelXP := JsNum.fin currentLevelXP,
            nextLevelXP := JsNum.fin nextLevelXP }
      ∧ 0 ≤ totalXP ∧ 1 ≤ level
      ∧ currentLevelXP ≤ totalXP ∧ (totalXP : ℚ) < nextLevelXP :=
  calculateXP_invariant 150 10 (5 / 2) (by norm_num)

/-! ## The orchestrator: validation, credential check and the no-activity path -/

theorem truthy_of_jsLength_pos (s : String) (h : 0 < jsLength s) : truthy s = true := by
  unfold truthy
  rw [decide_eq_true_eq]
  rintro rfl
  simp [jsLength, jsUnits, utf16s] at h

theorem validation_eq (address : String) :
    (!truthy address || !startsWith address "0x" || decide (jsLength address ≠ 42))
      = !passesValidation address := by
  unfold passesValidation
  by_cases h : jsLength address = 42
  · have ht : truthy address = true := truthy_of_jsLength_pos address (by omega)
    simp [h, ht]
  · simp [h]

theorem getIdentityDataTry_valid (env : Env) (address : String)
    (h : passesValidation address = true) (hkey : truthyField env.API_KEY = true) :
    getIdentityDataTry env address =
      match getTransactions env address [] with
      | (.error e, tr) => (.error e, tr)
      | (.ok transactions, tr) =>
        let tokens := getTokenTransfers env address tr
        let nfts := getNFTTransfers env address (tokens.2 ++ [Event.wait 150])
        match transactions with
        | [] =>
          let names := lookupNamesGuarded env address nfts.2
          (.ok (IdentityResult.success (noActivityData address tokens.1 nfts.1 names.1)), names.2)
        | firstTx :: _ =>
          match activityData env.timeZone address firstTx transactions tokens.1 nfts.1 with
          | .error e => (.error e, nfts.2)
          | .ok build =>
            let names := lookupNamesGuarded env address nfts.2
            (.ok (IdentityResult.success (build names.1)), names.2) := by
  simp only [getIdentityDataTry, validation_eq, h, hkey, Bool.not_true, Bool.false_eq_true,
    if_false]

theorem getIdentityData_invalid (env : Env) (address : String)
    (h : passesValidation address = false) :
    getIdentityData env address = (IdentityResult.failure "INVALID_ADDRESS", []) := by
  simp only [getIdentityData, getIdentityDataTry, validation_eq, h, Bool.not_false, if_true]

theorem getIdentityData_noKey (env : Env) (address : String)
    (h : passesValidation address = true) (hkey : truthyField env.API_KEY = false) :
    getIdentityData env address = (IdentityResult.failure "API_KEY_MISSING", []) := by
  simp only [getIdentityData, getIdentityDataTry, validation_eq, h, hkey, Bool.not_true,
    Bool.not_false, Bool.false_eq_true, if_false, if_true]

theorem getIdentityData_fetch_empty (env : Env) (address : String) (tr : List Event)
    (h : passesValidation address = true) (hkey : truthyField env.API_KEY = true)
    (hfetch : getTransactions env address [] = (.ok [], tr)) :
    getIdentityData env address =
      (IdentityResult.success (noActivityData address (getTokenTransfers env address tr).1
          (getNFTTransfers env address
            ((getTokenTransfers env address tr).2 ++ [Event.wait 150])).1
          (lookupNamesGuarded env address (getNFTTransfers env address
            ((getTokenTransfers env address tr).2 ++ [Event.wait 150])).2).1),
        (lookupNamesGuarded env address (getNFTTransfers env address
            ((getTokenTransfers env address tr).2 ++ [Event.wait 150])).2).2) := by
  simp only [getIdentityData, getIdentityDataTry_valid env address h hkey, hfetch]

theorem getIdentityData_fetch_error (env : Env) (address : String) (tr : List Event)
    (message : String)
    (h : passesValidation address = true) (hkey : truthyField env.API_KEY = true)
    (hfetch : getTransactions env address [] = (.error message, tr)) :
    getIdentityData env address = (IdentityResult.failure (failureReason message), tr) := by
  simp only [getIdentityData, getIdentityDataTry_valid env address h hkey, hfetch]

theorem calculateRank_zero :
    calculateRank 0 = { color := "gray", label := "Explorer", tier := "D" } := by
  have h := calculateRank_fin 0
  norm_num at h
  exact h

theorem calculateXP_zero :
    calculateXP 0 0 0 =
      { totalXP := JsNum.fin 0, level := JsNum.fin 1, currentLevelXP := JsNum.fin 0,
        nextLevelXP := JsNum.fin 1000 } := by
  have h := calculateXP_fin 0 0 0
  norm_num at h
  exact h

theorem passesValidation_of (address : String) (hstart : startsWith address "0x" = true)
    (hlen : jsLength address = 42) : passesValidation address = true := by
  simp [passesValidation, hstart, hlen]

theorem sampleAddress_valid :
    startsWith sampleAddress "0x" = true ∧ jsLength sampleAddress = 42 := by
  constructor <;> decide

theorem quietEnv_fetch :
    getTransactions quietEnv sampleAddress [] =
      (.ok [], [Event.request (requestUrl "txlist" "500" sampleAddress "KEY")]) := by
  rfl

/-- C6: for an address that passes validation, with a credential configured,
when the transaction fetch returns an empty list `getIdentityData` returns a
success result with `noActivity = true`, `txCount = 0`, `builderScore = 0`,
rank tier D, `totalXP = 0`, `level = 1`, no badge and an empty timeline,
whatever the token and NFT fetches return. -/
theorem getIdentityData_noActivity (env : Env) (address : String) (tr : List Event)
    (hstart : startsWith address "0x" = true) (hlen : jsLength address = 42)
    (hkey : truthyField env.API_KEY = true)
    (hfetch : getTransactions env address [] = (.ok [], tr)) :
    ∃ data : IdentityData,
      (getIdentityData env address).1 = IdentityResult.success data
      ∧ data.identityStats.noActivity = true
      ∧ data.identityStats.txCount = 0
      ∧ data.identityStats.builderScore = JsNum.fin 0
      ∧ data.rank.tier = "D"
      ∧ data.xp.totalXP = JsNum.fin 0
      ∧ data.xp.level = JsNum.fin 1
      ∧ data.badges = []
      ∧ data.timeline = [] := by
  refine ⟨_, congrArg Prod.fst (getIdentityData_fetch_empty env address tr
    (passesValidation_of address hstart hlen) hkey hfetch), rfl, rfl, ?_, ?_, ?_, ?_, rfl, rfl⟩
  · simp [noActivityData, JsNum.ofNat_lit]
  · simp [noActivityData, calculateRank_zero]
  · simp [noActivityData, calculateXP_zero]
  · simp [noActivityData, calculateXP_zero]

/-- C6 in an environment whose requests all return an empty success body. -/
theorem getIdentityData_noActivity_witness :
    ∃ data : IdentityData,
      (getIdentityData quietEnv sampleAddress).1 = IdentityResult.success data
      ∧ data.identityStats.noActivity = true
      ∧ data.identityStats.txCount = 0
      ∧ data.identityStats.builderScore = JsNum.fin 0
      ∧ data.rank.tier = "D"
      ∧ data.xp.totalXP = JsNum.fin 0
      ∧ data.xp.level = JsNum.fin 1
      ∧ data.badges = []
      ∧ data.timeline = [] :=
  getIdentityData_noActivity quietEnv sampleAddress _ sampleAddress_valid.1 sampleAddress_valid.2
    rfl quietEnv_fetch

/-- C7, as stated, fails: a string of 42 characters that starts with "0x" and
contains no hexadecimal digit after it is not rejected; the transaction
request is sent for it and the result is a success. -/
theorem getIdentityData_accepts_non_hex :
    hasAddressShape sampleNonHexAddress = false
    ∧ (∃ data : IdentityData,
        (getIdentityData quietEnv sampleNonHexAddress).1 = IdentityResult.success data)
    ∧ (getIdentityData quietEnv sampleNonHexAddress).2.head? =
        some (Event.request (requestUrl "txlist" "500" sampleNonHexAddress "KEY")) := by
  refine ⟨by decide, ⟨_, rfl⟩, rfl⟩

/-- C7, amended: every input that does not start with "0x" or whose length is
not 42 is rejected with the reason INVALID_ADDRESS before any request, wait or
name lookup; the characters after the prefix are not examined. -/
theorem getIdentityData_rejects_bad_shape (env : Env) (address : String)
    (hshape : startsWith address "0x" = false ∨ jsLength address ≠ 42) :
    getIdentityData env address = (IdentityResult.failure "INVALID_ADDRESS", []) := by
  apply getIdentityData_invalid
  rcases hshape with h | h
  · simp [passesValidation, h]
  · simp [passesValidation, h]

/-- C7, amended, at a string that is too short. -/
theorem getIdentityData_rejects_bad_shape_witness :
    getIdentityData quietEnv "0x1234" = (IdentityResult.failure "INVALID_ADDRESS", []) :=
  getIdentityData_rejects_bad_shape quietEnv "0x1234" (Or.inr (by decide))

/-- C8: with no credential configured, for every address that passes
validation `getIdentityData` returns the reason API_KEY_MISSING and the run
has no event: no request, no wait and no name lookup. -/
theorem getIdentityData_missing_key (env : Env) (address : String)
    (hstart : startsWith address "0x" = true) (hlen : jsLength address = 42)
    (hkey : truthyField env.API_KEY = false) :
    getIdentityData env address = (IdentityResult.failure "API_KEY_MISSING", []) :=
  getIdentityData_noKey env address (passesValidation_of address hstart hlen) hkey

/-- C8 at a well-formed address in an environment without a credential. -/
theorem getIdentityData_missing_key_witness :
    getIdentityData noKeyEnv sampleAddress = (IdentityResult.failure "API_KEY_MISSING", []) :=
  getIdentityData_missing_key noKeyEnv sampleAddress sampleAddress_valid.1
    sampleAddress_valid.2 rfl

/-! ## Error-status responses -/

theorem fetchLoop_error_status (env : Env) (url : String) (retries : Nat) (baseDelay : JsNum)
    (hstatus : ∀ tr, ∃ body, env.axiosGet tr url = Attempt.response (some body)
      ∧ body.status = some "0"
      ∧ includes (orElse body.message "API returned error status") "Invalid API Key" = false
      ∧ resultArray body = []) :
    ∀ fuel i tr, i + fuel = retries → 0 < fuel →
      ∃ body tr1, fetchLoop env url retries baseDelay fuel i tr = (.ok body, tr1)
        ∧ resultArray body = [] := by
  intro fuel
  induction fuel with
  | zero => intro i tr _ h; omega
  | succ fuel ih =>
    intro i tr hsum _
    obtain ⟨body, hget, hst, hcred, hres⟩ := hstatus tr
    have h1 : ¬ ((some "0" : Option String) = some "1" ∧ body.result.truthy = true) :=
      fun h => absurd h.1 (by decide)
    by_cases hlast : i + 1 < retries
    · obtain ⟨b, t, hb, hr⟩ := ih (i + 1)
        (tr ++ [Event.request url] ++
          [Event.wait (backoffDelay env baseDelay i (tr ++ [Event.request url]))])
        (by omega) (by omega)
      refine ⟨b, t, ?_, hr⟩
      rw [← hb]
      simp only [fetchLoop, hget, hst, h1, hcred, hlast, if_true, if_false,
        Bool.false_eq_true]
    · refine ⟨body, tr ++ [Event.request url], ?_, hres⟩
      simp only [fetchLoop, hget, hst, h1, hcred, hlast, if_true, if_false,
        Bool.false_eq_true]

theorem getTransactions_error_status (env : Env) (address : String)
    (hkey : truthyField env.API_KEY = true)
    (hstatus : ∀ tr, ∃ body,
      env.axiosGet tr (requestUrl "txlist" "500" address (env.API_KEY.getD ""))
        = Attempt.response (some body)
      ∧ body.status = some "0"
      ∧ includes (orElse body.message "API returned error status") "Invalid API Key" = false
      ∧ resultArray body = []) :
    ∃ tr, getTransactions env address [] = (.ok [], tr) := by
  obtain ⟨body, tr, hb, hr⟩ := fetchLoop_error_status env _ 5 200 hstatus 5 0 [] rfl (by norm_num)
  refine ⟨tr, ?_⟩
  simp only [getTransactions, hkey, fetchWithRetry, hb, hr, Bool.not_true, Bool.false_eq_true,
    if_false]

/-- C9, as stated, fails: when every attempt is answered by a rate-limit body
(status "0", no credential error) the transaction fetch uses its five
attempts and `getIdentityData` returns the no-activity success result. -/
theorem getIdentityData_rate_limited_succeeds :
    (∀ tr url, rateLimitedEnv.axiosGet tr url = Attempt.response (some rateLimitBody))
    ∧ rateLimitBody.status = some "0"
    ∧ includes (orElse rateLimitBody.message "API returned error status") "Invalid API Key"
        = false
    ∧ requestCount (getTransactions rateLimitedEnv sampleAddress []).2 = 5
    ∧ ∃ data : IdentityData,
        (getIdentityData rateLimitedEnv sampleAddress).1 = IdentityResult.success data
        ∧ data.identityStats.noActivity = true := by
  refine ⟨fun _ _ => rfl, rfl, by decide, rfl, _, rfl, rfl⟩

/-- C9, amended: when every attempt of the transaction fetch is answered by a
status-"0" body whose message is not a credential error and whose result holds
no records, the fetch does not fail and `getIdentityData` returns the
no-activity success result. -/
theorem getIdentityData_error_status_noActivity (env : Env) (address : String)
    (hstart : startsWith address "0x" = true) (hlen : jsLength address = 42)
    (hkey : truthyField env.API_KEY = true)
    (hstatus : ∀ tr, ∃ body,
      env.axiosGet tr (requestUrl "txlist" "500" address (env.API_KEY.getD ""))
        = Attempt.response (some body)
      ∧ body.status = some "0"
      ∧ includes (orElse body.message "API returned error status") "Invalid API Key" = false
      ∧ resultArray body = []) :
    (∃ tr, getTransactions env address [] = (.ok [], tr))
    ∧ ∃ data : IdentityData,
        (getIdentityData env address).1 = IdentityResult.success data
        ∧ data.identityStats.noActivity = true := by
  obtain ⟨tr, htr⟩ := getTransactions_error_status env address hkey hstatus
  exact ⟨⟨tr, htr⟩, _, congrArg Prod.fst (getIdentityData_fetch_empty env address tr
    (passesValidation_of address hstart hlen) hkey htr), rfl⟩

/-- C9, amended, in an environment that answers every request with a
rate-limit body. -/
theorem getIdentityData_error_status_noActivity_witness :
    (∃ tr, getTransactions rateLimitedEnv sampleAddress [] = (.ok [], tr))
    ∧ ∃ data : IdentityData,
        (getIdentityData rateLimitedEnv sampleAddress).1 = IdentityResult.success data
        ∧ data.identityStats.noActivity = true :=
  getIdentityData_error_status_noActivity rateLimitedEnv sampleAddress sampleAddress_valid.1
    sampleAddress_valid.2 rfl (fun _ => ⟨rateLimitBody, rfl, rfl, by decide, rfl⟩)

/-! ## Failure reasons -/

theorem toISOString_error (d : Option ℤ) (e : String) (h : toISOString d = .error e) :
    e = "Invalid time value" := by
  cases d with
  | none => simpa [toISOString] using h.symm
  | some ms => simp [toISOString] at h

theorem generateTimeline_error (transactions : List Record) (e : String)
    (h : generateTimeline transactions = .error e) : e = "Invalid time value" := by
  unfold generateTimeline at h
  split at h
  · rename_i firstTx lastTx _ _
    cases h1 : toISOString (newDate (parseIntField firstTx.timeStamp * 1000)) with
    | error e1 =>
      have := toISOString_error _ _ h1
      simp only [h1] at h
      cases h
      exact this
    | ok d1 =>
      simp only [h1] at h
      split at h
      · cases h2 : toISOString (newDate (parseIntField lastTx.timeStamp * 1000)) with
        | error e2 =>
          have := toISOString_error _ _ h2
          simp only [h2] at h
          cases h
          exact this
        | ok d2 =>
          simp only [h2] at h
          cases h
      · cases h
  · cases h

theorem firstTxDateOf_error (firstTx : Record) (e : String)
    (h : firstTxDateOf firstTx = .error e) : e = "Invalid time value" := by
  unfold firstTxDateOf at h
  cases hts : firstTx.timeStamp with
  | none =>
    simp only [hts] at h
    cases h
  | some ts =>
    simp only [hts] at h
    cases h2 : toISOString (newDate (ts * 1000)) with
    | error e2 =>
      have := toISOString_error _ _ h2
      simp only [h2] at h
      cases h
      exact this
    | ok d =>
      simp only [h2] at h
      cases h

theorem activityData_error (tz : ℤ → ℤ) (address : String) (firstTx : Record)
    (txs tokens nfts : List Record) (e : String)
    (h : activityData tz address firstTx txs tokens nfts = .error e) :
    e = "Invalid time value" := by
  unfold activityData at h
  cases h1 : firstTxDateOf firstTx with
  | error e1 =>
    have := firstTxDateOf_error _ _ h1
    simp only [h1] at h
    cases h
    exact this
  | ok d =>
    simp only [h1] at h
    cases h2 : generateTimeline txs with
    | error e2 =>
      have := generateTimeline_error _ _ h2
      simp only [h2] at h
      cases h
      exact this
    | ok tl =>
      simp only [h2] at h
      cases h

theorem failureReason_cases (message : String) :
    failureReason message = "API_KEY_MISSING" ∨ failureReason message = "INVALID_ADDRESS"
      ∨ failureReason message = "UNKNOWN_ERROR" ∨ failureReason message = message := by
  unfold failureReason
  by_cases h1 : includes message "API_KEY" = true
  · simp [h1]
  by_cases h2 : includes message "INVALID_ADDRESS" = true
  · simp [h1, h2]
  by_cases h3 : truthy message = true
  · simp [h1, h2, h3, orElse]
  · simp [h1, h2, h3, orElse]

theorem failureReason_plain (message : String) (hkey : includes message "API_KEY" = false)
    (haddr : includes message "INVALID_ADDRESS" = false) (hne : message ≠ "") :
    failureReason message = message := by
  simp [failureReason, orElse, truthy, hkey, haddr, hne]

/-- C10, as stated, fails: two transaction fetches that fail at the transport
level with different messages give two different reasons, each the message
itself, so the reason is no fixed code. -/
theorem getIdentityData_reason_is_message :
    (getTransactions (failingEnv "Network Error") sampleAddress []).1
        = .error "Network Error"
    ∧ (getIdentityData (failingEnv "Network Error") sampleAddress).1
        = IdentityResult.failure "Network Error"
    ∧ (getTransactions (failingEnv "timeout of 15000ms exceeded") sampleAddress []).1
        = .error "timeout of 15000ms exceeded"
    ∧ (getIdentityData (failingEnv "timeout of 15000ms exceeded") sampleAddress).1
        = IdentityResult.failure "timeout of 15000ms exceeded"
    ∧ ¬ ∃ code : String,
        (getIdentityData (failingEnv "Network Error") sampleAddress).1
          = IdentityResult.failure code
        ∧ (getIdentityData (failingEnv "timeout of 15000ms exceeded") sampleAddress).1
          = IdentityResult.failure code := by
  have h1 : (getIdentityData (failingEnv "Network Error") sampleAddress).1
      = IdentityResult.failure "Network Error" := by decide
  have h2 : (getIdentityData (failingEnv "timeout of 15000ms exceeded") sampleAddress).1
      = IdentityResult.failure "timeout of 15000ms exceeded" := by decide
  refine ⟨rfl, h1, rfl, h2, ?_⟩
  rintro ⟨code, hc1, hc2⟩
  rw [h1] at hc1
  rw [h2] at hc2
  injection hc1 with e1
  injection hc2 with e2
  rw [← e1] at e2
  exact absurd e2 (by decide)

/-- C10, amended: when the transaction fetch throws, the reason is computed
from the message of the error alone, and it is that message itself whenever
the message is not empty and contains neither "API_KEY" nor "INVALID_ADDRESS";
every reason of a failure result is INVALID_ADDRESS, API_KEY_MISSING,
UNKNOWN_ERROR, the message of the error the transaction fetch threw, or the
message of the date error of the aggregation. -/
theorem getIdentityData_failure_reason (env : Env) (address : String) :
    (∀ message : String, startsWith address "0x" = true → jsLength address = 42 →
        truthyField env.API_KEY = true →
        (getTransactions env address []).1 = .error message →
        getIdentityData env address
          = (IdentityResult.failure (failureReason message), (getTransactions env address []).2))
    ∧ (∀ message : String, includes message "API_KEY" = false →
        includes message "INVALID_ADDRESS" = false → message ≠ "" →
        failureReason message = message)
    ∧ (∀ reason : String, (getIdentityData env address).1 = IdentityResult.failure reason →
        reason = "INVALID_ADDRESS" ∨ reason = "API_KEY_MISSING" ∨ reason = "UNKNOWN_ERROR"
          ∨ (getTransactions env address []).1 = .error reason
          ∨ reason = "Invalid time value") := by
  refine ⟨?_, failureReason_plain, ?_⟩
  · intro message hstart hlen hkey hfetch
    exact getIdentityData_fetch_error env address _ message
      (passesValidation_of address hstart hlen) hkey (Prod.ext hfetch rfl)
  · intro reason hres
    cases hv : passesValidation address with
    | false =>
      rw [getIdentityData_invalid env address hv] at hres
      injection hres with e
      exact Or.inl e.symm
    | true =>
      cases hk : truthyField env.API_KEY with
      | false =>
        rw [getIdentityData_noKey env address hv hk] at hres
        injection hres with e
        exact Or.inr (Or.inl e.symm)
      | true =>
        simp only [getIdentityData, getIdentityDataTry_valid env address hv hk] at hres
        rcases hfetch : getTransactions env address [] with ⟨r, tr⟩
        rw [hfetch] at hres
        cases r with
        | error message =>
          simp only at hres
          injection hres with e
          rcases failureReason_cases message with h | h | h | h
          · exact Or.inr (Or.inl (by rw [← e, h]))
          · exact Or.inl (by rw [← e, h])
          · exact Or.inr (Or.inr (Or.inl (by rw [← e, h])))
          · refine Or.inr (Or.inr (Or.inr (Or.inl ?_)))
            rw [← e, h]
        | ok transactions =>
          cases transactions with
          | nil =>
            simp only at hres
            cases hres
          | cons firstTx rest =>
            simp only at hres
            cases hact : activityData env.timeZone address firstTx (firstTx :: rest)
                (getTokenTransfers env address tr).1
                (getNFTTransfers env address
                  ((getTokenTransfers env address tr).2 ++ [Event.wait 150])).1 with
            | error e1 =>
              rw [hact] at hres
              simp only at hres
              injection hres with e
              have hmsg := activityData_error _ _ _ _ _ _ _ hact
              refine Or.inr (Or.inr (Or.inr (Or.inr ?_)))
              rw [← e, hmsg]
              decide
            | ok build =>
              rw [hact] at hres
              simp only at hres
              cases hres

/-- C10, amended, for a transaction fetch that fails with "Network Error". -/
theorem getIdentityData_failure_reason_witness :
    getIdentityData (failingEnv "Network Error") sampleAddress
      = (IdentityResult.failure (failureReason "Network Error"),
          (getTransactions (failingEnv "Network Error") sampleAddress []).2) :=
  (getIdentityData_failure_reason (failingEnv "Network Error") sampleAddress).1 "Network Error"
    sampleAddress_valid.1 sampleAddress_valid.2 rfl rfl

/-! ## Scenario A -/

/-- C20: `calculateBuilderScore(150, 10, 2.5, 3, 0)` is 48, its components are
30, 10/365*25, 15, 2.25 and 0, and `calculateRank(48)` is tier C, "Builder". -/
theorem scenarioA_score_and_rank :
    calculateBuilderScore (JsNum.fin 150) (JsNum.fin 10) (JsNum.fin (5 / 2)) (JsNum.fin 3)
        (JsNum.fin 0) = JsNum.fin 48
    ∧ calculateBuilderScore (JsNum.fin 150) (JsNum.fin 10) (JsNum.fin (5 / 2)) (JsNum.fin 3)
        (JsNum.fin 0)
        = Math.round (Math.min 100
            (JsNum.fin 30 + JsNum.fin (10 / 365 * 25) + JsNum.fin 15 + JsNum.fin (9 / 4)
              + JsNum.fin 0))
    ∧ Math.min 30 ((JsNum.fin 150 / 100) * 30) = JsNum.fin 30
    ∧ Math.min 25 ((JsNum.fin 10 / 365) * 25) = JsNum.fin (10 / 365 * 25)
    ∧ outboundTier (5 / 2) = 15
    ∧ Math.min 15 ((JsNum.fin 3 / 20) * 15) = JsNum.fin (9 / 4)
    ∧ nftTier 0 = 0
    ∧ calculateRank (JsNum.fin 48) = { color := "green", label := "Builder", tier := "C" } := by
  have hscore : calculateBuilderScore (JsNum.fin 150) (JsNum.fin 10) (JsNum.fin (5 / 2))
      (JsNum.fin 3) (JsNum.fin 0) = JsNum.fin 48 := by
    rw [calculateBuilderScore_fin]
    simp only [builderScoreFormula, outboundTier, nftTier, round_eq]
    norm_num
  have hrank := calculateRank_fin 48
  norm_num at hrank
  refine ⟨hscore, ?_, ?_, ?_, ?_, ?_, ?_, hrank⟩
  · rw [hscore]
    simp only [JsNum.ofNat_lit, JsNum.fin_add, Math.min_fin, Math.round_fin]
    norm_num
  · simp only [JsNum.ofNat_lit, JsNum.fin_div, JsNum.fin_mul, Math.min_fin]
    norm_num
  · simp only [JsNum.ofNat_lit, JsNum.fin_div, JsNum.fin_mul, Math.min_fin]
    norm_num
  · simp only [outboundTier]
    norm_num
  · simp only [JsNum.ofNat_lit, JsNum.fin_div, JsNum.fin_mul, Math.min_fin]
    norm_num
  · simp only [nftTier]
    norm_num

/-! ## Monotonicity of the experience points -/

/-- C19: raising `txCount`, `activeDays` or `totalOutEth` (the others kept or
raised too) never lowers the `totalXP` nor the `level` that `calculateXP`
returns. -/
theorem calculateXP_monotone (txCount txCount2 activeDays activeDays2 totalOutEth
    totalOutEth2 : ℚ) (htx : txCount ≤ txCount2) (hdays : activeDays ≤ activeDays2)
    (hout : totalOutEth ≤ totalOutEth2) :
    ∃ xp xp2 level level2 : ℚ,
      (calculateXP (JsNum.fin txCount) (JsNum.fin activeDays) (JsNum.fin totalOutEth)).totalXP
          = JsNum.fin xp
      ∧ (calculateXP (JsNum.fin txCount2) (JsNum.fin activeDays2)
          (JsNum.fin totalOutEth2)).totalXP = JsNum.fin xp2
      ∧ xp ≤ xp2
      ∧ (calculateXP (JsNum.fin txCount) (JsNum.fin activeDays) (JsNum.fin totalOutEth)).level
          = JsNum.fin level
      ∧ (calculateXP (JsNum.fin txCount2) (JsNum.fin activeDays2)
          (JsNum.fin totalOutEth2)).level = JsNum.fin level2
      ∧ level ≤ level2 := by
  have hfloor : (⌊totalOutEth * 100⌋ : ℤ) ≤ ⌊totalOutEth2 * 100⌋ :=
    Int.floor_mono (by linarith)
  have hfloorq : ((⌊totalOutEth * 100⌋ : ℤ) : ℚ) ≤ ((⌊totalOutEth2 * 100⌋ : ℤ) : ℚ) := by
    exact_mod_cast hfloor
  have hxp : txCount * 10 + activeDays * 50 + ((⌊totalOutEth * 100⌋ : ℤ) : ℚ)
      ≤ txCount2 * 10 + activeDays2 * 50 + ((⌊totalOutEth2 * 100⌋ : ℤ) : ℚ) := by linarith
  have hlevel : (⌊(txCount * 10 + activeDays * 50 + ((⌊totalOutEth * 100⌋ : ℤ) : ℚ)) / 1000⌋ : ℤ)
      ≤ ⌊(txCount2 * 10 + activeDays2 * 50 + ((⌊totalOutEth2 * 100⌋ : ℤ) : ℚ)) / 1000⌋ :=
    Int.floor_mono (by linarith)
  refine ⟨txCount * 10 + activeDays * 50 + ((⌊totalOutEth * 100⌋ : ℤ) : ℚ),
    txCount2 * 10 + activeDays2 * 50 + ((⌊totalOutEth2 * 100⌋ : ℤ) : ℚ),
    ((⌊(txCount * 10 + activeDays * 50 + ((⌊totalOutEth * 100⌋ : ℤ) : ℚ)) / 1000⌋ : ℤ) : ℚ) + 1,
    ((⌊(txCount2 * 10 + activeDays2 * 50 + ((⌊totalOutEth2 * 100⌋ : ℤ) : ℚ)) / 1000⌋ : ℤ) : ℚ)
      + 1, ?_, ?_, hxp, ?_, ?_, ?_⟩
  · rw [calculateXP_fin]
  · rw [calculateXP_fin]
  · rw [calculateXP_fin]
  · rw [calculateXP_fin]
  · have : ((⌊(txCount * 10 + activeDays * 50 + ((⌊totalOutEth * 100⌋ : ℤ) : ℚ)) / 1000⌋ : ℤ) : ℚ)
        ≤ ((⌊(txCount2 * 10 + activeDays2 * 50 + ((⌊totalOutEth2 * 100⌋ : ℤ) : ℚ)) / 1000⌋ : ℤ)
          : ℚ) := by exact_mod_cast hlevel
    linarith

/-- C19 from 150 transactions on 10 days to 151 transactions on 10 days. -/
theorem calculateXP_monotone_witness :
    ∃ xp xp2 level level2 : ℚ,
      (calculateXP (JsNum.fin 150) (JsNum.fin 10) (JsNum.fin (5 / 2))).totalXP = JsNum.fin xp
      ∧ (calculateXP (JsNum.fin 151) (JsNum.fin 10) (JsNum.fin (5 / 2))).totalXP
          = JsNum.fin xp2
      ∧ xp ≤ xp2
      ∧ (calculateXP (JsNum.fin 150) (JsNum.fin 10) (JsNum.fin (5 / 2))).level
          = JsNum.fin level
      ∧ (calculateXP (JsNum.fin 151) (JsNum.fin 10) (JsNum.fin (5 / 2))).level
          = JsNum.fin level2
      ∧ level ≤ level2 :=
  calculateXP_monotone 150 151 10 10 (5 / 2) (5 / 2) (by norm_num) (by norm_num) (by norm_num)

/-! ## Badges -/

theorem pushIf_labels (cond : Bool) (b : Badge) (badges : List Badge) :
    (pushIf cond b badges).map (fun x => x.label)
      = badges.map (fun x => x.label) ++ (if cond then [b.label] else []) := by
  cases cond <;> simp [pushIf]

theorem generateBadges_labels (txCount activeDays totalOutEth tokenCount nftCount : JsNum) :
    (generateBadges txCount activeDays totalOutEth tokenCount nftCount).map (fun b => b.label)
      = badgeLabels (txCount.gt 100) (activeDays.gt 180) (totalOutEth.gt 10)
          (tokenCount.gt 10) (nftCount.gt 5) (txCount.gt 50 && activeDays.gt 30) := by
  simp only [generateBadges, pushIf_labels, badgeLabels, List.map_nil, List.nil_append]

theorem badgeLabels_spec (b1 b2 b3 b4 b5 b6 b7 : Bool) :
    ("Power User" ∈ badgeLabels b1 b2 b3 b4 b5 (b6 && b7) ↔ b1 = true)
    ∧ ("Long-term Builder" ∈ badgeLabels b1 b2 b3 b4 b5 (b6 && b7) ↔ b2 = true)
    ∧ ("High Volume" ∈ badgeLabels b1 b2 b3 b4 b5 (b6 && b7) ↔ b3 = true)
    ∧ ("Token Collector" ∈ badgeLabels b1 b2 b3 b4 b5 (b6 && b7) ↔ b4 = true)
    ∧ ("NFT Enthusiast" ∈ badgeLabels b1 b2 b3 b4 b5 (b6 && b7) ↔ b5 = true)
    ∧ ("Active Builder" ∈ badgeLabels b1 b2 b3 b4 b5 (b6 && b7) ↔ (b6 = true ∧ b7 = true))
    ∧ (badgeLabels b1 b2 b3 b4 b5 (b6 && b7)).Sublist
        ["Power User", "Long-term Builder", "High Volume", "Token Collector",
          "NFT Enthusiast", "Active Builder"]
    ∧ (badgeLabels b1 b2 b3 b4 b5 (b6 && b7)).Nodup
    ∧ (badgeLabels b1 b2 b3 b4 b5 (b6 && b7)).length ≤ 6 := by
  revert b1 b2 b3 b4 b5 b6 b7
  decide

/-- C17: for all inputs the labels of the list `generateBadges` returns contain
each of the six labels exactly when its rule holds (`>` is the comparison of
JavaScript, false on `NaN`); the labels follow the rule order, none occurs
twice, there are at most six, and the inputs 101, 181, 11, 11, 6 earn all six. -/
theorem generateBadges_rules (txCount activeDays totalOutEth tokenCount nftCount : JsNum) :
    ("Power User" ∈ (generateBadges txCount activeDays totalOutEth tokenCount nftCount).map
        (fun b => b.label) ↔ txCount.gt 100 = true)
    ∧ ("Long-term Builder" ∈ (generateBadges txCount activeDays totalOutEth tokenCount
        nftCount).map (fun b => b.label) ↔ activeDays.gt 180 = true)
    ∧ ("High Volume" ∈ (generateBadges txCount activeDays totalOutEth tokenCount nftCount).map
        (fun b => b.label) ↔ totalOutEth.gt 10 = true)
    ∧ ("Token Collector" ∈ (generateBadges txCount activeDays totalOutEth tokenCount
        nftCount).map (fun b => b.label) ↔ tokenCount.gt 10 = true)
    ∧ ("NFT Enthusiast" ∈ (generateBadges txCount activeDays totalOutEth tokenCount
        nftCount).map (fun b => b.label) ↔ nftCount.gt 5 = true)
    ∧ ("Active Builder" ∈ (generateBadges txCount activeDays totalOutEth tokenCount
        nftCount).map (fun b => b.label) ↔ (txCount.gt 50 = true ∧ activeDays.gt 30 = true))
    ∧ ((generateBadges txCount activeDays totalOutEth tokenCount nftCount).map
        (fun b => b.label)).Sublist
        ["Power User", "Long-term Builder", "High Volume", "Token Collector",
          "NFT Enthusiast", "Active Builder"]
    ∧ ((generateBadges txCount activeDays totalOutEth tokenCount nftCount).map
        (fun b => b.label)).Nodup
    ∧ (generateBadges txCount activeDays totalOutEth tokenCount nftCount).length ≤ 6
    ∧ (generateBadges (JsNum.fin 101) (JsNum.fin 181) (JsNum.fin 11) (JsNum.fin 11)
        (JsNum.fin 6)).map (fun b => b.label)
        = ["Power User", "Long-term Builder", "High Volume", "Token Collector",
            "NFT Enthusiast", "Active Builder"] := by
  have h := badgeLabels_spec (txCount.gt 100) (activeDays.gt 180) (totalOutEth.gt 10)
    (tokenCount.gt 10) (nftCount.gt 5) (txCount.gt 50) (activeDays.gt 30)
  rw [← generateBadges_labels txCount activeDays totalOutEth tokenCount nftCount] at h
  obtain ⟨h1, h2, h3, h4, h5, h6, h7, h8, h9⟩ := h
  refine ⟨h1, h2, h3, h4, h5, h6, h7, h8, ?_, ?_⟩
  · simpa using h9
  · rw [generateBadges_labels]
    simp only [JsNum.ofNat_lit, JsNum.gt_fin]
    norm_num [badgeLabels]

/-! ## Timeline -/

theorem newDate_seconds (n : ℤ) (h : |n| ≤ 8640000000000) :
    newDate (parseIntField (some (JsNum.fin n)) * 1000) = some (n * 1000) := by
  have h1 : |((n : ℚ) * 1000)| ≤ 8640000000000000 := by
    have : |(n : ℚ)| ≤ 8640000000000 := by exact_mod_cast h
    rw [abs_mul]
    norm_num
    linarith
  have h2 : ((n : ℚ) * 1000) = ((n * 1000 : ℤ) : ℚ) := by push_cast; ring
  simp only [parseIntField, JsNum.ofNat_lit, JsNum.fin_mul, newDate, Nat.cast_ofNat, h1,
    if_true]
  rw [h2, Int.floor_intCast, Int.ceil_intCast]
  simp

/-- C18: `generateTimeline` returns no event for an empty list; one event,
"First Transaction" at the record's timestamp, for a list of one record; and
for a list of two or more records the two events "First Transaction" at the
timestamp of the first record and "Latest Transaction" at the timestamp of the
last one, whatever the records between them and whatever the order or equality
of the two timestamps.  A timestamp is `n` seconds and its date is taken in
milliseconds, within the range of dates. -/
theorem generateTimeline_events :
    generateTimeline [] = .ok []
    ∧ (∀ (r : Record) (n : ℤ), r.timeStamp = some (JsNum.fin n) → |n| ≤ 8640000000000 →
        labelsAndDates (generateTimeline [r]) = .ok [("First Transaction", n * 1000)])
    ∧ (∀ (first last : Record) (middle : List Record) (n1 n2 : ℤ),
        first.timeStamp = some (JsNum.fin n1) → |n1| ≤ 8640000000000 →
        last.timeStamp = some (JsNum.fin n2) → |n2| ≤ 8640000000000 →
        labelsAndDates (generateTimeline (first :: (middle ++ [last])))
          = .ok [("First Transaction", n1 * 1000), ("Latest Transaction", n2 * 1000)]) := by
  refine ⟨rfl, ?_, ?_⟩
  · intro r n hr hn
    have hd := newDate_seconds n hn
    rw [← hr] at hd
    simp [generateTimeline, hd, toISOString, labelsAndDates]
  · intro first last middle n1 n2 h1 hn1 h2 hn2
    have hd1 := newDate_seconds n1 hn1
    have hd2 := newDate_seconds n2 hn2
    rw [← h1] at hd1
    rw [← h2] at hd2
    have hlast : (first :: (middle ++ [last])).getLast? = some last := by
      rw [← List.cons_append, List.getLast?_append]
      simp
    have hlen : (first :: (middle ++ [last])).length ≠ 1 := by simp
    simp only [generateTimeline, List.head?_cons, hlast, hd1, hd2, toISOString, hlen,
      labelsAndDates, ne_eq, not_false_eq_true, if_true]
    simp

/-- C18 for one record and for three records whose timestamps are not in order. -/
theorem generateTimeline_events_witness :
    labelsAndDates (generateTimeline [{ timeStamp := some (JsNum.fin (1700000000 : ℤ)) }])
        = .ok [("First Transaction", 1700000000 * 1000)]
    ∧ labelsAndDates (generateTimeline
        ({ timeStamp := some (JsNum.fin (1700000000 : ℤ)) } ::
          ([{ timeStamp := some (JsNum.fin (1800000000 : ℤ)) }]
            ++ [{ timeStamp := some (JsNum.fin (1600000000 : ℤ)) }])))
        = .ok [("First Transaction", 1700000000 * 1000),
            ("Latest Transaction", 1600000000 * 1000)] :=
  ⟨generateTimeline_events.2.1 _ 1700000000 rfl (by norm_num),
    generateTimeline_events.2.2 _ _ _ 1700000000 1600000000 rfl (by norm_num) rfl
      (by norm_num)⟩
/-! ## Sets kept in insertion order -/

theorem setAdd_nodup {α : Type} [DecidableEq α] (s : List α) (x : α) (h : s.Nodup) :
    (setAdd s x).Nodup := by
  unfold setAdd
  split_ifs with hx
  · exact h
  · exact List.Nodup.append h (List.nodup_singleton x) (by simpa using hx)

theorem setAdd_toFinset {α : Type} [DecidableEq α] (s : List α) (x : α) :
    (setAdd s x).toFinset = s.toFinset ∪ {x} := by
  unfold setAdd
  split_ifs with hx
  · ext y
    simp only [List.mem_toFinset, Finset.mem_union, Finset.mem_singleton]
    constructor
    · exact fun h => Or.inl h
    · rintro (h | rfl)
      · exact h
      · exact hx
  · ext y
    simp [List.mem_append]

theorem foldl_setAdd_nodup {α : Type} [DecidableEq α] (xs : List α) :
    ∀ acc : List α, acc.Nodup → (xs.foldl setAdd acc).Nodup := by
  induction xs with
  | nil => intro acc h; exact h
  | cons x xs ih => intro acc h; exact ih _ (setAdd_nodup acc x h)

theorem foldl_setAdd_toFinset {α : Type} [DecidableEq α] (xs : List α) :
    ∀ acc : List α, (xs.foldl setAdd acc).toFinset = acc.toFinset ∪ xs.toFinset := by
  induction xs with
  | nil => intro acc; simp
  | cons x xs ih =>
    intro acc
    rw [List.foldl_cons, ih, setAdd_toFinset, List.toFinset_cons]
    ext y
    simp only [Finset.mem_union, Finset.mem_singleton, Finset.mem_insert, List.mem_toFinset]
    tauto

theorem newSet_length {α : Type} [DecidableEq α] (xs : List α) :
    (newSet xs).length = xs.toFinset.card := by
  unfold newSet
  rw [← List.toFinset_card_of_nodup (foldl_setAdd_nodup xs [] List.nodup_nil),
    foldl_setAdd_toFinset]
  simp

/-! ## Active days -/

theorem activeDays_foldl (tz : ℤ → ℤ) (transactions : List Record) :
    ∀ acc : List (Option ℤ),
      transactions.foldl (fun (dates : List (Option ℤ)) tx =>
        match tx.timeStamp with
        | some ts => setAdd dates (toDateString tz (newDate (ts * 1000)))
        | none => dates) acc
      = (transactions.filterMap (fun tx =>
          tx.timeStamp.map (fun ts => toDateString tz (newDate (ts * 1000))))).foldl
            setAdd acc := by
  induction transactions with
  | nil => intro acc; rfl
  | cons tx rest ih =>
    intro acc
    cases hts : tx.timeStamp with
    | none => simp only [List.foldl_cons, hts, ih, List.filterMap_cons, Option.map_none']
    | some ts =>
      simp only [List.foldl_cons, hts, ih, List.filterMap_cons, Option.map_some']

theorem calculateActiveDays_eq (tz : ℤ → ℤ) (transactions : List Record) :
    calculateActiveDays tz transactions = distinctLocalDates tz transactions := by
  unfold calculateActiveDays distinctLocalDates
  split_ifs with h
  · have : transactions = [] := List.length_eq_zero.mp h
    subst this
    rfl
  · simp only [activeDays_foldl]
    exact newSet_length _

/-- C16, as stated, fails: for two transactions at 23:00 UTC and at 01:00 UTC
of the next day `calculateActiveDays` is 2 on a machine in the zone UTC and 1
on a machine in the zone UTC+2. -/
theorem calculateActiveDays_depends_on_zone :
    calculateActiveDays (fun _ => 0) sampleNightTransactions = 2
    ∧ calculateActiveDays (fun _ => 7200000) sampleNightTransactions = 1 := by
  constructor
  · rw [calculateActiveDays_eq]
    simp only [distinctLocalDates, sampleNightTransactions, List.filterMap_cons,
      List.filterMap_nil, Option.map_some', JsNum.ofNat_lit, JsNum.fin_mul, newDate,
      toDateString]
    norm_num
    decide
  · rw [calculateActiveDays_eq]
    simp only [distinctLocalDates, sampleNightTransactions, List.filterMap_cons,
      List.filterMap_nil, Option.map_some', JsNum.ofNat_lit, JsNum.fin_mul, newDate,
      toDateString]
    norm_num
    decide

/-- C16, amended: `calculateActiveDays` returns the number of distinct values
of `toDateString`, the calendar date in the local time zone of the machine
that runs it, over the records that have a `timeStamp`, and 0 for an empty
list. -/
theorem calculateActiveDays_local_dates (tz : ℤ → ℤ) (transactions : List Record) :
    calculateActiveDays tz transactions
        = ((transactions.filterMap (fun tx =>
            tx.timeStamp.map (fun ts => toDateString tz (newDate (ts * 1000))))).toFinset).card
    ∧ calculateActiveDays tz [] = 0 :=
  ⟨calculateActiveDays_eq tz transactions, rfl⟩

/-! ## The success results of the orchestrator -/

theorem getIdentityData_success_cases (env : Env) (address : String) (data : IdentityData)
    (h : (getIdentityData env address).1 = IdentityResult.success data) :
    ((getTransactions env address []).1 = .ok []
      ∧ ∃ names, data = noActivityData address (fetchedTokenTransfers env address)
          (fetchedNFTTransfers env address) names)
    ∨ (∃ firstTx rest build names,
        (getTransactions env address []).1 = .ok (firstTx :: rest)
        ∧ activityData env.timeZone address firstTx (firstTx :: rest)
            (fetchedTokenTransfers env address) (fetchedNFTTransfers env address) = .ok build
        ∧ data = build names) := by
  cases hv : passesValidation address with
  | false =>
    rw [getIdentityData_invalid env address hv] at h
    cases h
  | true =>
    cases hk : truthyField env.API_KEY with
    | false =>
      rw [getIdentityData_noKey env address hv hk] at h
      cases h
    | true =>
      simp only [getIdentityData, getIdentityDataTry_valid env address hv hk] at h
      unfold fetchedTokenTransfers fetchedNFTTransfers
      rcases hfetch : getTransactions env address [] with ⟨r, tr⟩
      rw [hfetch] at h
      cases r with
      | error message =>
        simp only at h
        cases h
      | ok transactions =>
        cases transactions with
        | nil =>
          simp only at h
          injection h with e
          exact Or.inl ⟨rfl, _, e.symm⟩
        | cons firstTx rest =>
          simp only at h
          cases hact : activityData env.timeZone address firstTx (firstTx :: rest)
              (getTokenTransfers env address tr).1
              (getNFTTransfers env address
                ((getTokenTransfers env address tr).2 ++ [Event.wait 150])).1 with
          | error e1 =>
            rw [hact] at h
            simp only at h
            cases h
          | ok build =>
            rw [hact] at h
            simp only at h
            injection h with e
            exact Or.inr ⟨firstTx, rest, build, _, rfl, hact, e.symm⟩

theorem activityData_fields (tz : ℤ → ℤ) (address : String) (firstTx : Record)
    (txs tokens nfts : List Record) (build : Names → IdentityData)
    (h : activityData tz address firstTx txs tokens nfts = .ok build) (names : Names) :
    (build names).tokenCount = (uniqueContracts tokens).length
    ∧ (build names).nftCount = (uniqueContracts nfts).length
    ∧ (build names).identityStats.totalInEth
        = (txs.filter (fun tx => sameAddress tx.to_ address)).foldl
            (fun sum tx => sum + numberOrZero tx.value / JsNum.fin (10 ^ 18)) 0
    ∧ (build names).identityStats.totalOutEth
        = (txs.filter (fun tx => sameAddress tx.from_ address)).foldl
            (fun sum tx => sum + numberOrZero tx.value / JsNum.fin (10 ^ 18)) 0
    ∧ (build names).identityStats.totalGasEth
        = txs.foldl (fun sum tx =>
            sum + numberOrZero tx.gasUsed * numberOrZero tx.gasPrice / JsNum.fin (10 ^ 18)) 0
    ∧ (build names).identityStats.builderScore
        = calculateBuilderScore (JsNum.ofNat txs.length)
            (JsNum.ofNat (calculateActiveDays tz txs))
            (build names).identityStats.totalOutEth
            (JsNum.ofNat (uniqueContracts tokens).length)
            (JsNum.ofNat (uniqueContracts nfts).length)
    ∧ (build names).xp
        = calculateXP (JsNum.ofNat txs.length) (JsNum.ofNat (calculateActiveDays tz txs))
            (build names).identityStats.totalOutEth := by
  unfold activityData at h
  cases h1 : firstTxDateOf firstTx with
  | error e1 =>
    simp only [h1] at h
    cases h
  | ok d =>
    simp only [h1] at h
    cases h2 : generateTimeline txs with
    | error e2 =>
      simp only [h2] at h
      cases h
    | ok tl =>
      simp only [h2] at h
      injection h with e
      subst e
      exact ⟨rfl, rfl, rfl, rfl, rfl, rfl, rfl⟩

/-! ## Runs of the activity path -/

theorem firstTxDateOf_seconds (r : Record) (n : ℤ) (h : r.timeStamp = some (JsNum.fin n))
    (hn : |n| ≤ 8640000000000) : firstTxDateOf r = .ok (some (n * 1000)) := by
  have hd := newDate_seconds n hn
  simp only [parseIntField] at hd
  simp only [firstTxDateOf, h, hd, toISOString]

theorem generateTimeline_seconds (first last : Record) (rest : List Record) (n1 n2 : ℤ)
    (hlast : (first :: rest).getLast? = some last)
    (h1 : first.timeStamp = some (JsNum.fin n1)) (hn1 : |n1| ≤ 8640000000000)
    (h2 : last.timeStamp = some (JsNum.fin n2)) (hn2 : |n2| ≤ 8640000000000) :
    ∃ timeline, generateTimeline (first :: rest) = .ok timeline := by
  have hd1 := newDate_seconds n1 hn1
  have hd2 := newDate_seconds n2 hn2
  rw [← h1] at hd1
  rw [← h2] at hd2
  by_cases hlen : (first :: rest).length ≠ 1
  · cases hg : generateTimeline (first :: rest) with
    | ok timeline => exact ⟨timeline, rfl⟩
    | error e =>
      simp only [generateTimeline, List.head?_cons, hlast, hd1, hd2, toISOString,
        hlen, ne_eq, not_false_eq_true, if_true] at hg
      cases hg
  · cases hg : generateTimeline (first :: rest) with
    | ok timeline => exact ⟨timeline, rfl⟩
    | error e =>
      simp only [generateTimeline, List.head?_cons, hlast, hd1, toISOString,
        hlen, if_false] at hg
      cases hg

theorem activityData_ok (tz : ℤ → ℤ) (address : String) (firstTx : Record)
    (txs tokens nfts : List Record) (d : Option ℤ) (timeline : List TimelineEvent)
    (hd : firstTxDateOf firstTx = .ok d) (htl : generateTimeline txs = .ok timeline) :
    ∃ build, activityData tz address firstTx txs tokens nfts = .ok build := by
  cases hact : activityData tz address firstTx txs tokens nfts with
  | ok build => exact ⟨build, rfl⟩
  | error e =>
    simp only [activityData, hd, htl] at hact
    cases hact

theorem getIdentityData_activity (env : Env) (address : String) (firstTx : Record)
    (rest : List Record) (tr : List Event) (build : Names → IdentityData)
    (h : passesValidation address = true) (hkey : truthyField env.API_KEY = true)
    (hfetch : getTransactions env address [] = (.ok (firstTx :: rest), tr))
    (hact : activityData env.timeZone address firstTx (firstTx :: rest)
      (getTokenTransfers env address tr).1
      (getNFTTransfers env address
        ((getTokenTransfers env address tr).2 ++ [Event.wait 150])).1 = .ok build) :
    ∃ names, (getIdentityData env address).1 = IdentityResult.success (build names) := by
  refine ⟨(lookupNamesGuarded env address (getNFTTransfers env address
    ((getTokenTransfers env address tr).2 ++ [Event.wait 150])).2).1, ?_⟩
  simp only [getIdentityData, getIdentityDataTry_valid env address h hkey, hfetch, hact]

theorem recordsEnv_success (first last : Record) (rest : List Record) (n1 n2 : ℤ)
    (hlast : (first :: rest).getLast? = some last)
    (h1 : first.timeStamp = some (JsNum.fin n1)) (hn1 : |n1| ≤ 8640000000000)
    (h2 : last.timeStamp = some (JsNum.fin n2)) (hn2 : |n2| ≤ 8640000000000) :
    ∃ data, (getIdentityData (recordsEnv (first :: rest)) sampleAddress).1
      = IdentityResult.success data := by
  obtain ⟨timeline, htl⟩ := generateTimeline_seconds first last rest n1 n2 hlast h1 hn1 h2 hn2
  obtain ⟨build, hact⟩ := activityData_ok (recordsEnv (first :: rest)).timeZone sampleAddress
    first (first :: rest)
    (getTokenTransfers (recordsEnv (first :: rest)) sampleAddress
      [Event.request (requestUrl "txlist" "500" sampleAddress "KEY")]).1
    (getNFTTransfers (recordsEnv (first :: rest)) sampleAddress
      ((getTokenTransfers (recordsEnv (first :: rest)) sampleAddress
        [Event.request (requestUrl "txlist" "500" sampleAddress "KEY")]).2
          ++ [Event.wait 150])).1
    _ timeline (firstTxDateOf_seconds first n1 h1 hn1) htl
  obtain ⟨names, hres⟩ := getIdentityData_activity (recordsEnv (first :: rest)) sampleAddress
    first rest _ build (by decide) rfl rfl hact
  exact ⟨_, hres⟩

/-! ## Defects of the retry loop and of the aggregation -/

/-- C11: the code does not do what the claim says.  When every attempt is
answered by a status-"0" body whose message is "Invalid API Key",
`fetchWithRetry` sends all five requests and waits four times before it fails
with that message; when only the first attempt is answered so, it waits, sends
a second request and returns its body. -/
theorem fetchWithRetry_retries_invalid_key :
    (fetchWithRetry invalidKeyEnv (requestUrl "txlist" "500" sampleAddress "KEY") 5 200 []).1
        = .error "Invalid API Key"
    ∧ requestCount
        (fetchWithRetry invalidKeyEnv (requestUrl "txlist" "500" sampleAddress "KEY")
          5 200 []).2 = 5
    ∧ waitCount
        (fetchWithRetry invalidKeyEnv (requestUrl "txlist" "500" sampleAddress "KEY")
          5 200 []).2 = 4
    ∧ (fetchWithRetry invalidKeyOnceEnv (requestUrl "txlist" "500" sampleAddress "KEY")
          5 200 []).1 = .ok emptySuccessBody
    ∧ requestCount
        (fetchWithRetry invalidKeyOnceEnv (requestUrl "txlist" "500" sampleAddress "KEY")
          5 200 []).2 = 2
    ∧ waitCount
        (fetchWithRetry invalidKeyOnceEnv (requestUrl "txlist" "500" sampleAddress "KEY")
          5 200 []).2 = 1 := by
  refine ⟨rfl, rfl, rfl, rfl, rfl, rfl⟩

/-- C12: the code does not do what the claim says.  For a list of one
transaction without a `timeStamp`, and for one whose `timeStamp` cannot be
read, `getIdentityData` returns a failure with the message of the date error. -/
theorem getIdentityData_fails_on_missing_timestamp :
    (getIdentityData (recordsEnv [missingTimestampRecord]) sampleAddress).1
        = IdentityResult.failure "Invalid time value"
    ∧ (getIdentityData (recordsEnv [unparseableTimestampRecord]) sampleAddress).1
        = IdentityResult.failure "Invalid time value"
    ∧ firstTxDateOf missingTimestampRecord = .ok none
    ∧ generateTimeline [missingTimestampRecord] = .error "Invalid time value" := by
  refine ⟨by decide, by decide, rfl, rfl⟩

/-- C13: the code does not do what the claim says.  For one transaction whose
`value` and `gasPrice` cannot be read as numbers the result is a success whose
`totalOutEth`, `totalGasEth`, `totalXP` and `level` are `NaN`. -/
theorem getIdentityData_nan_totals :
    ∃ data : IdentityData,
      (getIdentityData (recordsEnv [unparseableValueRecord]) sampleAddress).1
        = IdentityResult.success data
      ∧ data.identityStats.totalOutEth = JsNum.nan
      ∧ data.identityStats.totalGasEth = JsNum.nan
      ∧ data.xp.totalXP = JsNum.nan
      ∧ data.xp.level = JsNum.nan := by
  obtain ⟨data, hres⟩ := recordsEnv_success unparseableValueRecord unparseableValueRecord []
    1700000000 1700000000 rfl rfl (by norm_num) rfl (by norm_num)
  rcases getIdentityData_success_cases _ _ data hres with ⟨hempty, _⟩ |
    ⟨f, r, build, names, hfetch, hact, hdata⟩
  · cases hempty
  · have htx : (getTransactions (recordsEnv [unparseableValueRecord]) sampleAddress []).1
        = .ok [unparseableValueRecord] := rfl
    rw [htx] at hfetch
    injection hfetch with e
    injection e with e1 e2
    subst e1
    subst e2
    obtain ⟨_, _, _, hout, hgas, _, hxp⟩ := activityData_fields _ _ _ _ _ _ _ hact names
    rw [← hdata] at hout hgas hxp
    have hout2 : data.identityStats.totalOutEth = JsNum.nan := by
      rw [hout]
      decide
    have hgas2 : data.identityStats.totalGasEth = JsNum.nan := by
      rw [hgas]
      rfl
    refine ⟨data, hres, hout2, hgas2, ?_, ?_⟩
    · rw [hxp, hout2]
      rfl
    · rw [hxp, hout2]
      rfl

/-! ## Counting the events of the retry loop -/

theorem requestCount_append (a b : List Event) :
    requestCount (a ++ b) = requestCount a + requestCount b := by
  simp [requestCount, List.filter_append]

theorem waitCount_append (a b : List Event) :
    waitCount (a ++ b) = waitCount a + waitCount b := by
  simp [waitCount, List.filter_append]

theorem requestCount_request (url : String) : requestCount [Event.request url] = 1 := rfl

theorem requestCount_wait (ms : JsNum) : requestCount [Event.wait ms] = 0 := rfl

theorem waitCount_request (url : String) : waitCount [Event.request url] = 0 := rfl

theorem waitCount_wait (ms : JsNum) : waitCount [Event.wait ms] = 1 := rfl

theorem fetchLoop_counts (env : Env) (url : String) (retries : Nat) (baseDelay : JsNum) :
    ∀ fuel i tr, i + fuel = retries →
      requestCount (fetchLoop env url retries baseDelay fuel i tr).2 ≤ requestCount tr + fuel
      ∧ waitCount (fetchLoop env url retries baseDelay fuel i tr).2
          ≤ waitCount tr + (fuel - 1) := by
  intro fuel
  induction fuel with
  | zero =>
    intro i tr _
    simp [fetchLoop]
  | succ fuel ih =>
    intro i tr hsum
    have hstop : requestCount (tr ++ [Event.request url]) ≤ requestCount tr + (fuel + 1)
        ∧ waitCount (tr ++ [Event.request url]) ≤ waitCount tr + (fuel + 1 - 1) := by
      simp only [requestCount_append, waitCount_append, requestCount_request, waitCount_request]
      omega
    have hnext : requestCount (fetchLoop env url retries baseDelay fuel (i + 1)
          (tr ++ [Event.request url])).2 ≤ requestCount tr + (fuel + 1)
        ∧ waitCount (fetchLoop env url retries baseDelay fuel (i + 1)
          (tr ++ [Event.request url])).2 ≤ waitCount tr + (fuel + 1 - 1) := by
      have h := ih (i + 1) (tr ++ [Event.request url]) (by omega)
      simp only [requestCount_append, waitCount_append, requestCount_request,
        waitCount_request] at h
      omega
    have hwait : i + 1 ≠ retries →
        requestCount (fetchLoop env url retries baseDelay fuel (i + 1)
          (tr ++ [Event.request url]
            ++ [Event.wait (backoffDelay env baseDelay i (tr ++ [Event.request url]))])).2
            ≤ requestCount tr + (fuel + 1)
        ∧ waitCount (fetchLoop env url retries baseDelay fuel (i + 1)
          (tr ++ [Event.request url]
            ++ [Event.wait (backoffDelay env baseDelay i (tr ++ [Event.request url]))])).2
            ≤ waitCount tr + (fuel + 1 - 1) := by
      intro hne
      have h := ih (i + 1) (tr ++ [Event.request url]
        ++ [Event.wait (backoffDelay env baseDelay i (tr ++ [Event.request url]))]) (by omega)
      simp only [requestCount_append, waitCount_append, requestCount_request,
        waitCount_request, requestCount_wait, waitCount_wait] at h
      omega
    cases hget : env.axiosGet tr url with
    | throws m =>
      by_cases hlast : i + 1 = retries
      · simp only [fetchLoop, hget, hlast, if_true]
        exact hstop
      · simp only [fetchLoop, hget, hlast, if_false]
        exact hwait hlast
    | response d =>
      cases d with
      | none =>
        simp only [fetchLoop, hget]
        exact hnext
      | some data =>
        by_cases hok : data.status = some "1" ∧ data.result.truthy = true
        · simp only [fetchLoop, hget, hok, and_self, if_true]
          exact hstop
        · by_cases hzero : data.status = some "0"
          · by_cases hcred : includes (orElse data.message "API returned error status")
                "Invalid API Key" = true
            · by_cases hlast : i + 1 = retries
              · simp only [fetchLoop, hget, hok, hzero, hcred, hlast, if_true, if_false]
                exact hstop
              · simp only [fetchLoop, hget, hok, hzero, hcred, hlast, if_true, if_false]
                exact hwait hlast
            · by_cases hlt : i + 1 < retries
              · simp only [fetchLoop, hget, hok, hzero, hcred, hlt, if_true, if_false]
                exact hwait (by omega)
              · simp only [fetchLoop, hget, hok, hzero, hcred, hlt, if_true, if_false]
                exact hstop
          · simp only [fetchLoop, hget, hok, hzero, if_false]
            exact hnext

/-! ## Single steps of the retry loop -/

theorem fetchLoop_success (env : Env) (url : String) (retries : Nat) (baseDelay : JsNum)
    (fuel i : Nat) (tr : List Event) (data : Body)
    (hget : env.axiosGet tr url = Attempt.response (some data))
    (hstatus : data.status = some "1") (hresult : data.result.truthy = true) :
    fetchLoop env url retries baseDelay (fuel + 1) i tr = (.ok data, tr ++ [Event.request url]) := by
  simp only [fetchLoop, hget, hstatus, hresult, and_self, if_true]

theorem fetchLoop_throw_wait (env : Env) (url : String) (retries : Nat) (baseDelay : JsNum)
    (fuel i : Nat) (tr : List Event) (m : String)
    (hget : env.axiosGet tr url = Attempt.throws m) (hne : i + 1 ≠ retries) :
    fetchLoop env url retries baseDelay (fuel + 1) i tr
      = fetchLoop env url retries baseDelay fuel (i + 1)
          (tr ++ [Event.request url]
            ++ [Event.wait (backoffDelay env baseDelay i (tr ++ [Event.request url]))]) := by
  simp only [fetchLoop, hget, hne, if_false]

theorem fetchLoop_status_wait (env : Env) (url : String) (retries : Nat) (baseDelay : JsNum)
    (fuel i : Nat) (tr : List Event) (data : Body)
    (hget : env.axiosGet tr url = Attempt.response (some data))
    (hstatus : data.status = some "0")
    (hcred : includes (orElse data.message "API returned error status") "Invalid API Key"
      = false)
    (hlt : i + 1 < retries) :
    fetchLoop env url retries baseDelay (fuel + 1) i tr
      = fetchLoop env url retries baseDelay fuel (i + 1)
          (tr ++ [Event.request url]
            ++ [Event.wait (backoffDelay env baseDelay i (tr ++ [Event.request url]))]) := by
  have h1 : ¬ ((some "0" : Option String) = some "1" ∧ data.result.truthy = true) :=
    fun h => absurd h.1 (by decide)
  simp only [fetchLoop, hget, hstatus, h1, hcred, hlt, if_true, if_false, Bool.false_eq_true]

theorem fetchLoop_status_last (env : Env) (url : String) (retries : Nat) (baseDelay : JsNum)
    (fuel i : Nat) (tr : List Event) (data : Body)
    (hget : env.axiosGet tr url = Attempt.response (some data))
    (hstatus : data.status = some "0")
    (hcred : includes (orElse data.message "API returned error status") "Invalid API Key"
      = false)
    (hlt : ¬ i + 1 < retries) :
    fetchLoop env url retries baseDelay (fuel + 1) i tr = (.ok data, tr ++ [Event.request url]) := by
  have h1 : ¬ ((some "0" : Option String) = some "1" ∧ data.result.truthy = true) :=
    fun h => absurd h.1 (by decide)
  simp only [fetchLoop, hget, hstatus, h1, hcred, hlt, if_true, if_false, Bool.false_eq_true]

theorem fetchLoop_throw_last (env : Env) (url : String) (retries : Nat) (baseDelay : JsNum)
    (fuel i : Nat) (tr : List Event) (m : String)
    (hget : env.axiosGet tr url = Attempt.throws m) (hlast : i + 1 = retries) :
    fetchLoop env url retries baseDelay (fuel + 1) i tr
      = (.error (if truthy m = true then m else "API request failed after retries"),
          tr ++ [Event.request url]) := by
  simp only [fetchLoop, hget, hlast, if_true]

theorem backoffDelay_fin (env : Env) (b : ℚ) (i : Nat) (tr : List Event) :
    backoffDelay env (JsNum.fin b) i tr = JsNum.fin (b * 2 ^ i + env.random tr * 100) := by
  simp only [backoffDelay, Math.pow2, JsNum.ofNat_lit, JsNum.fin_mul, JsNum.fin_add,
    Nat.cast_ofNat]

theorem getTransactions_key (env : Env) (address : String) (tr : List Event)
    (hkey : truthyField env.API_KEY = true) :
    getTransactions env address tr
      = (match (fetchWithRetry env (requestUrl "txlist" "500" address (env.API_KEY.getD ""))
            5 200 tr).1 with
          | .ok data => .ok (resultArray data)
          | .error e => .error e,
         (fetchWithRetry env (requestUrl "txlist" "500" address (env.API_KEY.getD ""))
            5 200 tr).2) := by
  simp only [getTransactions, hkey, Bool.not_true, Bool.false_eq_true, if_false]
  rcases fetchWithRetry env (requestUrl "txlist" "500" address (env.API_KEY.getD ""))
    5 200 tr with ⟨r, t⟩
  cases r <;> rfl

theorem getTransactions_noKey (env : Env) (address : String) (tr : List Event)
    (hkey : truthyField env.API_KEY = false) :
    getTransactions env address tr
      = (.error "VITE_ETHERSCAN_API_KEY is not set in environment variables", tr) := by
  simp only [getTransactions, hkey, Bool.not_false, if_true]

/-- C24: `fetchWithRetry` sends at most `retries` requests and waits at most
`retries - 1` times (5 requests for `getTransactions`, which uses the
defaults); it stops at the first success body; and after an attempt `i` that
is not the last and ended in a transport failure or in a status-"0" response
without a credential error, it waits `baseDelay * 2^i + jitter` before the
next request, with `0 <= jitter < 100` when `Math.random()` is in `[0, 1)`. -/
theorem fetchWithRetry_bounded (env : Env) (url : String) (retries : Nat) (baseDelay : JsNum)
    (tr : List Event) :
    requestCount (fetchWithRetry env url retries baseDelay tr).2 ≤ requestCount tr + retries
    ∧ waitCount (fetchWithRetry env url retries baseDelay tr).2 ≤ waitCount tr + (retries - 1)
    ∧ (∀ address : String, requestCount (getTransactions env address tr).2 ≤ requestCount tr + 5
        ∧ waitCount (getTransactions env address tr).2 ≤ waitCount tr + 4)
    ∧ (∀ (fuel i : Nat) (tr1 : List Event) (data : Body),
        env.axiosGet tr1 url = Attempt.response (some data) →
        data.status = some "1" → data.result.truthy = true →
        fetchLoop env url retries baseDelay (fuel + 1) i tr1
          = (.ok data, tr1 ++ [Event.request url]))
    ∧ (∀ (fuel i : Nat) (tr1 : List Event), i + 1 < retries →
        ((∃ m, env.axiosGet tr1 url = Attempt.throws m)
          ∨ ∃ data, env.axiosGet tr1 url = Attempt.response (some data)
              ∧ data.status = some "0"
              ∧ includes (orElse data.message "API returned error status") "Invalid API Key"
                  = false) →
        fetchLoop env url retries baseDelay (fuel + 1) i tr1
          = fetchLoop env url retries baseDelay fuel (i + 1)
              (tr1 ++ [Event.request url]
                ++ [Event.wait (baseDelay * Math.pow2 i
                    + JsNum.fin (env.random (tr1 ++ [Event.request url])) * 100)]))
    ∧ (∀ (b : ℚ) (i : Nat) (tr1 : List Event), 0 ≤ env.random tr1 → env.random tr1 < 1 →
        ∃ jitter : ℚ, 0 ≤ jitter ∧ jitter < 100
          ∧ JsNum.fin b * Math.pow2 i + JsNum.fin (env.random tr1) * 100
              = JsNum.fin (b * 2 ^ i + jitter)) := by
  have hcounts := fetchLoop_counts env url retries baseDelay retries 0 tr (by omega)
  refine ⟨hcounts.1, hcounts.2, ?_, ?_, ?_, ?_⟩
  · intro address
    cases hkey : truthyField env.API_KEY with
    | false =>
      rw [getTransactions_noKey env address tr hkey]
      exact ⟨Nat.le_add_right _ _, Nat.le_add_right _ _⟩
    | true =>
      rw [getTransactions_key env address tr hkey]
      exact fetchLoop_counts env (requestUrl "txlist" "500" address (env.API_KEY.getD ""))
        5 200 5 0 tr (by omega)
  · intro fuel i tr1 data hget hs hr
    exact fetchLoop_success env url retries baseDelay fuel i tr1 data hget hs hr
  · intro fuel i tr1 hlt hcase
    rcases hcase with ⟨m, hget⟩ | ⟨data, hget, hs, hc⟩
    · exact fetchLoop_throw_wait env url retries baseDelay fuel i tr1 m hget (by omega)
    · exact fetchLoop_status_wait env url retries baseDelay fuel i tr1 data hget hs hc hlt
  · intro b i tr1 h0 h1
    refine ⟨env.random tr1 * 100, by positivity, by linarith, ?_⟩
    have := backoffDelay_fin env b i tr1
    simpa [backoffDelay] using this

/-- C24 for the jitter of the first wait when `Math.random()` returns 0. -/
theorem fetchWithRetry_bounded_witness :
    ∃ jitter : ℚ, 0 ≤ jitter ∧ jitter < 100
      ∧ JsNum.fin 200 * Math.pow2 0 + JsNum.fin (quietEnv.random []) * 100
          = JsNum.fin (200 * 2 ^ 0 + jitter) :=
  (fetchWithRetry_bounded quietEnv (requestUrl "txlist" "500" sampleAddress "KEY") 5 200
    []).2.2.2.2.2 200 0 [] (le_refl 0) (by norm_num [quietEnv])

/-! ## Exhausted retries -/

theorem fetchLoop_all_throw (env : Env) (url : String) (retries : Nat) (baseDelay : JsNum)
    (hall : ∀ tr, ∃ m, env.axiosGet tr url = Attempt.throws m) :
    ∀ fuel i tr, i + fuel = retries → 0 < fuel →
      ∃ trLast m, env.axiosGet trLast url = Attempt.throws m
        ∧ fetchLoop env url retries baseDelay fuel i tr
            = (.error (if truthy m = true then m else "API request failed after retries"),
                trLast ++ [Event.request url])
        ∧ requestCount (trLast ++ [Event.request url]) = requestCount tr + fuel := by
  intro fuel
  induction fuel with
  | zero => intro i tr _ h; omega
  | succ fuel ih =>
    intro i tr hsum _
    obtain ⟨m, hget⟩ := hall tr
    by_cases hlast : i + 1 = retries
    · refine ⟨tr, m, hget, fetchLoop_throw_last env url retries baseDelay fuel i tr m hget hlast,
        ?_⟩
      have : fuel = 0 := by omega
      rw [requestCount_append, requestCount_request, this]
    · obtain ⟨trLast, m2, hget2, hres, hcount⟩ := ih (i + 1)
        (tr ++ [Event.request url]
          ++ [Event.wait (backoffDelay env baseDelay i (tr ++ [Event.request url]))])
        (by omega) (by omega)
      refine ⟨trLast, m2, hget2, ?_, ?_⟩
      · rw [fetchLoop_throw_wait env url retries baseDelay fuel i tr m hget hlast, hres]
      · rw [hcount, requestCount_append, requestCount_append, requestCount_request,
          requestCount_wait]
        omega

/-- C25: when every attempt of `fetchWithRetry` ends in a transport failure,
all `retries` requests are sent and the call fails with the message of the
failure of the last attempt, when that message is not empty. -/
theorem fetchWithRetry_last_cause (env : Env) (url : String) (retries : Nat)
    (baseDelay : JsNum) (tr : List Event) (hretries : 0 < retries)
    (hall : ∀ tr1, ∃ m, env.axiosGet tr1 url = Attempt.throws m) :
    ∃ trLast m, env.axiosGet trLast url = Attempt.throws m
      ∧ (fetchWithRetry env url retries baseDelay tr).2 = trLast ++ [Event.request url]
      ∧ requestCount (fetchWithRetry env url retries baseDelay tr).2
          = requestCount tr + retries
      ∧ (m ≠ "" → (fetchWithRetry env url retries baseDelay tr).1 = .error m)
      ∧ (m = "" → (fetchWithRetry env url retries baseDelay tr).1
          = .error "API request failed after retries") := by
  obtain ⟨trLast, m, hget, hres, hcount⟩ :=
    fetchLoop_all_throw env url retries baseDelay hall retries 0 tr (by omega) hretries
  refine ⟨trLast, m, hget, ?_, ?_, ?_, ?_⟩
  · unfold fetchWithRetry
    rw [hres]
  · unfold fetchWithRetry
    rw [hres]
    exact hcount
  · intro hm
    unfold fetchWithRetry
    rw [hres]
    simp [truthy, hm]
  · intro hm
    unfold fetchWithRetry
    rw [hres]
    simp [truthy, hm]

/-- C25 when every request fails with "Network Error". -/
theorem fetchWithRetry_last_cause_witness :
    ∃ trLast m, (failingEnv "Network Error").axiosGet trLast
          (requestUrl "txlist" "500" sampleAddress "KEY") = Attempt.throws m
      ∧ (fetchWithRetry (failingEnv "Network Error")
          (requestUrl "txlist" "500" sampleAddress "KEY") 5 200 []).2
          = trLast ++ [Event.request (requestUrl "txlist" "500" sampleAddress "KEY")]
      ∧ requestCount (fetchWithRetry (failingEnv "Network Error")
          (requestUrl "txlist" "500" sampleAddress "KEY") 5 200 []).2 = requestCount [] + 5
      ∧ (m ≠ "" → (fetchWithRetry (failingEnv "Network Error")
          (requestUrl "txlist" "500" sampleAddress "KEY") 5 200 []).1 = .error m)
      ∧ (m = "" → (fetchWithRetry (failingEnv "Network Error")
          (requestUrl "txlist" "500" sampleAddress "KEY") 5 200 []).1
          = .error "API request failed after retries") :=
  fetchWithRetry_last_cause (failingEnv "Network Error")
    (requestUrl "txlist" "500" sampleAddress "KEY") 5 200 [] (by norm_num)
    (fun _ => ⟨"Network Error", rfl⟩)

theorem fetchLoop_status_zero (env : Env) (url : String) (retries : Nat) (baseDelay : JsNum)
    (hall : ∀ tr, ∃ body, env.axiosGet tr url = Attempt.response (some body)
      ∧ body.status = some "0"
      ∧ includes (orElse body.message "API returned error status") "Invalid API Key"
          = false) :
    ∀ fuel i tr, i + fuel = retries → 0 < fuel →
      ∃ trLast body, env.axiosGet trLast url = Attempt.response (some body)
        ∧ fetchLoop env url retries baseDelay fuel i tr
            = (.ok body, trLast ++ [Event.request url])
        ∧ requestCount (trLast ++ [Event.request url]) = requestCount tr + fuel := by
  intro fuel
  induction fuel with
  | zero => intro i tr _ h; omega
  | succ fuel ih =>
    intro i tr hsum _
    obtain ⟨body, hget, hst, hcred⟩ := hall tr
    by_cases hlt : i + 1 < retries
    · obtain ⟨trLast, b2, hget2, hres, hcount⟩ := ih (i + 1)
        (tr ++ [Event.request url]
          ++ [Event.wait (backoffDelay env baseDelay i (tr ++ [Event.request url]))])
        (by omega) (by omega)
      refine ⟨trLast, b2, hget2, ?_, ?_⟩
      · rw [fetchLoop_status_wait env url retries baseDelay fuel i tr body hget hst hcred hlt,
          hres]
      · rw [hcount, requestCount_append, requestCount_append, requestCount_request,
          requestCount_wait]
        omega
    · refine ⟨tr, body, hget,
        fetchLoop_status_last env url retries baseDelay fuel i tr body hget hst hcred hlt, ?_⟩
      have : fuel = 0 := by omega
      rw [requestCount_append, requestCount_request, this]

theorem fetchLoop_neither (env : Env) (url : String) (retries : Nat) (baseDelay : JsNum)
    (hall : ∀ tr, env.axiosGet tr url = Attempt.response none
      ∨ ∃ body, env.axiosGet tr url = Attempt.response (some body)
          ∧ ¬ (body.status = some "1" ∧ body.result.truthy = true)
          ∧ body.status ≠ some "0") :
    ∀ fuel i tr, fetchLoop env url retries baseDelay fuel i tr
      = (.error "API request failed after retries",
          tr ++ List.replicate fuel (Event.request url)) := by
  intro fuel
  induction fuel with
  | zero => intro i tr; simp [fetchLoop]
  | succ fuel ih =>
    intro i tr
    have hrep : tr ++ List.replicate (fuel + 1) (Event.request url)
        = tr ++ [Event.request url] ++ List.replicate fuel (Event.request url) := by
      rw [List.replicate_succ, List.append_assoc]
      rfl
    rcases hall tr with hget | ⟨body, hget, hok, hzero⟩
    · simp only [fetchLoop, hget, ih, hrep]
    · simp only [fetchLoop, hget, hok, hzero, if_false, ih, hrep]

theorem replicate_counts (url : String) (n : Nat) :
    requestCount (List.replicate n (Event.request url)) = n
    ∧ waitCount (List.replicate n (Event.request url)) = 0 := by
  induction n with
  | zero => exact ⟨rfl, rfl⟩
  | succ n ih =>
    have h : List.replicate (n + 1) (Event.request url)
        = [Event.request url] ++ List.replicate n (Event.request url) := by
      rw [List.replicate_succ]
      rfl
    rw [h, requestCount_append, waitCount_append, ih.1, ih.2]
    exact ⟨by rw [requestCount_request]; omega, by rw [waitCount_request]⟩

/-- C26: when every attempt receives a status-"0" body without a credential
error, `fetchWithRetry` sends its `retries` requests, does not throw and
returns the body of the last response unchanged; `getTransactions` then yields
the records of that body, the empty list when it holds none. -/
theorem fetchWithRetry_returns_no_data (env : Env) (url : String) (retries : Nat)
    (baseDelay : JsNum) (tr : List Event) (address : String) :
    (0 < retries →
      (∀ tr1, ∃ body, env.axiosGet tr1 url = Attempt.response (some body)
        ∧ body.status = some "0"
        ∧ includes (orElse body.message "API returned error status") "Invalid API Key"
            = false) →
      ∃ trLast body, env.axiosGet trLast url = Attempt.response (some body)
        ∧ fetchWithRetry env url retries baseDelay tr
            = (.ok body, trLast ++ [Event.request url])
        ∧ requestCount (trLast ++ [Event.request url]) = requestCount tr + retries)
    ∧ (truthyField env.API_KEY = true →
      (∀ tr1, ∃ body,
        env.axiosGet tr1 (requestUrl "txlist" "500" address (env.API_KEY.getD ""))
          = Attempt.response (some body)
        ∧ body.status = some "0"
        ∧ includes (orElse body.message "API returned error status") "Invalid API Key"
            = false) →
      ∃ trLast body,
        env.axiosGet trLast (requestUrl "txlist" "500" address (env.API_KEY.getD ""))
          = Attempt.response (some body)
        ∧ (getTransactions env address tr).1 = .ok (resultArray body)
        ∧ (resultArray body = [] → (getTransactions env address tr).1 = .ok [])) := by
  constructor
  · intro hretries hall
    exact fetchLoop_status_zero env url retries baseDelay hall retries 0 tr (by omega) hretries
  · intro hkey hall
    obtain ⟨trLast, body, hget, hres, _⟩ := fetchLoop_status_zero env
      (requestUrl "txlist" "500" address (env.API_KEY.getD "")) 5 200 hall 5 0 tr (by omega)
      (by omega)
    have hfst : (getTransactions env address tr).1 = .ok (resultArray body) := by
      rw [getTransactions_key env address tr hkey]
      unfold fetchWithRetry
      rw [hres]
    exact ⟨trLast, body, hget, hfst, fun h => by rw [hfst, h]⟩

/-- C26 when every request is answered by "No transactions found". -/
theorem fetchWithRetry_returns_no_data_witness :
    ∃ trLast body,
      noDataEnv.axiosGet trLast (requestUrl "txlist" "500" sampleAddress
          (noDataEnv.API_KEY.getD "")) = Attempt.response (some body)
      ∧ (getTransactions noDataEnv sampleAddress []).1 = .ok (resultArray body)
      ∧ (resultArray body = [] → (getTransactions noDataEnv sampleAddress []).1 = .ok []) :=
  (fetchWithRetry_returns_no_data noDataEnv (requestUrl "txlist" "500" sampleAddress "KEY")
    5 200 [] sampleAddress).2 rfl (fun _ => ⟨noDataBody, rfl, rfl, by decide⟩)

/-- C30: when every attempt receives a body that is neither a success body nor
a status-"0" body (or an empty body), `fetchWithRetry` sends exactly `retries`
requests one after the other, without any wait, and fails with "API request
failed after retries". -/
theorem fetchWithRetry_unrecognised_bodies (env : Env) (url : String) (retries : Nat)
    (baseDelay : JsNum) (tr : List Event)
    (hall : ∀ tr1, env.axiosGet tr1 url = Attempt.response none
      ∨ ∃ body, env.axiosGet tr1 url = Attempt.response (some body)
          ∧ ¬ (body.status = some "1" ∧ body.result.truthy = true)
          ∧ body.status ≠ some "0") :
    fetchWithRetry env url retries baseDelay tr
      = (.error "API request failed after retries",
          tr ++ List.replicate retries (Event.request url))
    ∧ requestCount (fetchWithRetry env url retries baseDelay tr).2 = requestCount tr + retries
    ∧ waitCount (fetchWithRetry env url retries baseDelay tr).2 = waitCount tr := by
  have h := fetchLoop_neither env url retries baseDelay hall retries 0 tr
  unfold fetchWithRetry
  rw [h]
  refine ⟨rfl, ?_, ?_⟩
  · rw [requestCount_append, (replicate_counts url retries).1]
  · rw [waitCount_append, (replicate_counts url retries).2]
    rfl

/-- C30 when every request is answered by a body of status "2". -/
theorem fetchWithRetry_unrecognised_bodies_witness :
    fetchWithRetry oddEnv (requestUrl "txlist" "500" sampleAddress "KEY") 5 200 []
      = (.error "API request failed after retries",
          [] ++ List.replicate 5
            (Event.request (requestUrl "txlist" "500" sampleAddress "KEY")))
    ∧ requestCount (fetchWithRetry oddEnv (requestUrl "txlist" "500" sampleAddress "KEY")
        5 200 []).2 = requestCount [] + 5
    ∧ waitCount (fetchWithRetry oddEnv (requestUrl "txlist" "500" sampleAddress "KEY")
        5 200 []).2 = waitCount [] :=
  fetchWithRetry_unrecognised_bodies oddEnv (requestUrl "txlist" "500" sampleAddress "KEY")
    5 200 [] (fun _ => Or.inr ⟨oddBody, rfl, by decide, by decide⟩)

/-! ## The optional fetches and the fail-fast path -/

theorem requestUrl_txlist_ne (address key : String) :
    requestUrl "txlist" "500" address key ≠ requestUrl "tokentx" "1000" address key
    ∧ requestUrl "txlist" "500" address key ≠ requestUrl "tokennfttx" "1000" address key := by
  constructor
  · intro h
    have h2 := congrArg String.data h
    simp [requestUrl, BASE_URL, String.data_append] at h2
  · intro h
    have h2 := congrArg String.data h
    simp [requestUrl, BASE_URL, String.data_append] at h2

theorem fetchLoop_events (env : Env) (url : String) (retries : Nat) (baseDelay : JsNum) :
    ∀ fuel i tr, ∀ e ∈ (fetchLoop env url retries baseDelay fuel i tr).2,
      e ∈ tr ∨ e = Event.request url ∨ ∃ ms, e = Event.wait ms := by
  intro fuel
  induction fuel with
  | zero =>
    intro i tr e he
    exact Or.inl (by simpa [fetchLoop] using he)
  | succ fuel ih =>
    intro i tr e
    have hstop : e ∈ tr ++ [Event.request url] →
        e ∈ tr ∨ e = Event.request url ∨ ∃ ms, e = Event.wait ms := by
      intro he
      rcases List.mem_append.mp he with h | h
      · exact Or.inl h
      · exact Or.inr (Or.inl (List.mem_singleton.mp h))
    have hnext : e ∈ (fetchLoop env url retries baseDelay fuel (i + 1)
          (tr ++ [Event.request url])).2 →
        e ∈ tr ∨ e = Event.request url ∨ ∃ ms, e = Event.wait ms := by
      intro he
      rcases ih (i + 1) _ e he with h | h | h
      · exact hstop h
      · exact Or.inr (Or.inl h)
      · exact Or.inr (Or.inr h)
    have hwait : e ∈ (fetchLoop env url retries baseDelay fuel (i + 1)
          (tr ++ [Event.request url]
            ++ [Event.wait (backoffDelay env baseDelay i (tr ++ [Event.request url]))])).2 →
        e ∈ tr ∨ e = Event.request url ∨ ∃ ms, e = Event.wait ms := by
      intro he
      rcases ih (i + 1) _ e he with h | h | h
      · rcases List.mem_append.mp h with h1 | h1
        · exact hstop h1
        · exact Or.inr (Or.inr ⟨_, List.mem_singleton.mp h1⟩)
      · exact Or.inr (Or.inl h)
      · exact Or.inr (Or.inr h)
    cases hget : env.axiosGet tr url with
    | throws m =>
      by_cases hlast : i + 1 = retries
      · simp only [fetchLoop, hget, hlast, if_true]
        exact hstop
      · simp only [fetchLoop, hget, hlast, if_false]
        exact hwait
    | response d =>
      cases d with
      | none =>
        simp only [fetchLoop, hget]
        exact hnext
      | some data =>
        by_cases hok : data.status = some "1" ∧ data.result.truthy = true
        · simp only [fetchLoop, hget, hok, and_self, if_true]
          exact hstop
        · by_cases hzero : data.status = some "0"
          · by_cases hcred : includes (orElse data.message "API returned error status")
                "Invalid API Key" = true
            · by_cases hlast : i + 1 = retries
              · simp only [fetchLoop, hget, hok, hzero, hcred, hlast, if_true, if_false]
                exact hstop
              · simp only [fetchLoop, hget, hok, hzero, hcred, hlast, if_true, if_false]
                exact hwait
            · by_cases hlt : i + 1 < retries
              · simp only [fetchLoop, hget, hok, hzero, hcred, hlt, if_true, if_false]
                exact hwait
              · simp only [fetchLoop, hget, hok, hzero, hcred, hlt, if_true, if_false]
                exact hstop
          · simp only [fetchLoop, hget, hok, hzero, if_false]
            exact hnext

theorem getTokenTransfers_key (env : Env) (address : String) (tr : List Event)
    (hkey : truthyField env.API_KEY = true) :
    getTokenTransfers env address tr
      = (match (fetchWithRetry env (requestUrl "tokentx" "1000" address (env.API_KEY.getD ""))
            5 200 tr).1 with
          | .ok data => resultArray data
          | .error _ => [],
         (fetchWithRetry env (requestUrl "tokentx" "1000" address (env.API_KEY.getD ""))
            5 200 tr).2) := by
  simp only [getTokenTransfers, hkey, Bool.not_true, Bool.false_eq_true, if_false]
  rcases fetchWithRetry env (requestUrl "tokentx" "1000" address (env.API_KEY.getD ""))
    5 200 tr with ⟨r, t⟩
  cases r <;> rfl

theorem getNFTTransfers_key (env : Env) (address : String) (tr : List Event)
    (hkey : truthyField env.API_KEY = true) :
    getNFTTransfers env address tr
      = (match (fetchWithRetry env (requestUrl "tokennfttx" "1000" address
            (env.API_KEY.getD "")) 5 200 tr).1 with
          | .ok data => resultArray data
          | .error _ => [],
         (fetchWithRetry env (requestUrl "tokennfttx" "1000" address (env.API_KEY.getD ""))
            5 200 tr).2) := by
  simp only [getNFTTransfers, hkey, Bool.not_true, Bool.false_eq_true, if_false]
  rcases fetchWithRetry env (requestUrl "tokennfttx" "1000" address (env.API_KEY.getD ""))
    5 200 tr with ⟨r, t⟩
  cases r <;> rfl

/-- C21: `getTokenTransfers` and `getNFTTransfers` always return a list: the
empty list, without any request, when no credential is configured; the empty
list when the fetch throws; and otherwise the `result` of the body when it is
an array and the empty list when it is not. -/
theorem optional_fetches_absorb (env : Env) (address : String) (tr : List Event) :
    (truthyField env.API_KEY = false →
      getTokenTransfers env address tr = ([], tr) ∧ getNFTTransfers env address tr = ([], tr))
    ∧ (∀ e : String, truthyField env.API_KEY = true →
        (fetchWithRetry env (requestUrl "tokentx" "1000" address (env.API_KEY.getD ""))
          5 200 tr).1 = .error e →
        (getTokenTransfers env address tr).1 = [])
    ∧ (∀ e : String, truthyField env.API_KEY = true →
        (fetchWithRetry env (requestUrl "tokennfttx" "1000" address (env.API_KEY.getD ""))
          5 200 tr).1 = .error e →
        (getNFTTransfers env address tr).1 = [])
    ∧ (∀ data : Body, truthyField env.API_KEY = true →
        (fetchWithRetry env (requestUrl "tokentx" "1000" address (env.API_KEY.getD ""))
          5 200 tr).1 = .ok data →
        (getTokenTransfers env address tr).1 = resultArray data)
    ∧ (∀ data : Body, truthyField env.API_KEY = true →
        (fetchWithRetry env (requestUrl "tokennfttx" "1000" address (env.API_KEY.getD ""))
          5 200 tr).1 = .ok data →
        (getNFTTransfers env address tr).1 = resultArray data)
    ∧ (∀ (data : Body) (isTruthy : Bool), data.result = JsResult.other isTruthy →
        resultArray data = [])
    ∧ (∀ (data : Body) (records : List Record), data.result = JsResult.array records →
        resultArray data = records) := by
  refine ⟨?_, ?_, ?_, ?_, ?_, ?_, ?_⟩
  · intro hkey
    simp only [getTokenTransfers, getNFTTransfers, hkey, Bool.not_false, if_true, and_self]
  · intro e hkey hf
    rw [getTokenTransfers_key env address tr hkey, hf]
  · intro e hkey hf
    rw [getNFTTransfers_key env address tr hkey, hf]
  · intro data hkey hf
    rw [getTokenTransfers_key env address tr hkey, hf]
  · intro data hkey hf
    rw [getNFTTransfers_key env address tr hkey, hf]
  · intro data b h
    simp only [resultArray, h]
  · intro data rs h
    simp only [resultArray, h]

/-- C21 when every request fails at the transport level and when no credential
is configured. -/
theorem optional_fetches_absorb_witness :
    (getTokenTransfers (failingEnv "Network Error") sampleAddress []).1 = []
    ∧ getTokenTransfers noKeyEnv sampleAddress [] = ([], [])
    ∧ getNFTTransfers noKeyEnv sampleAddress [] = ([], []) :=
  ⟨(optional_fetches_absorb (failingEnv "Network Error") sampleAddress []).2.1
      "Network Error" rfl rfl,
    ((optional_fetches_absorb noKeyEnv sampleAddress []).1 rfl).1,
    ((optional_fetches_absorb noKeyEnv sampleAddress []).1 rfl).2⟩

/-- C23: when the transaction fetch of `getIdentityData` throws, the result is
a failure and the run ends there: its events are those of the transaction
fetch, each a request for the transaction list or a wait, so no token or NFT
request is sent and no name lookup is started. -/
theorem required_source_fails_fast (env : Env) (address : String) (message : String)
    (tr : List Event)
    (hstart : startsWith address "0x" = true) (hlen : jsLength address = 42)
    (hkey : truthyField env.API_KEY = true)
    (hfetch : getTransactions env address [] = (.error message, tr)) :
    getIdentityData env address = (IdentityResult.failure (failureReason message), tr)
    ∧ (∀ e ∈ (getIdentityData env address).2,
        e = Event.request (requestUrl "txlist" "500" address (env.API_KEY.getD ""))
          ∨ ∃ ms, e = Event.wait ms)
    ∧ Event.request (requestUrl "tokentx" "1000" address (env.API_KEY.getD ""))
        ∉ (getIdentityData env address).2
    ∧ Event.request (requestUrl "tokennfttx" "1000" address (env.API_KEY.getD ""))
        ∉ (getIdentityData env address).2
    ∧ (∀ a : String, Event.nameLookup a ∉ (getIdentityData env address).2) := by
  have hres := getIdentityData_fetch_error env address tr message
    (passesValidation_of address hstart hlen) hkey hfetch
  have htr : tr = (fetchWithRetry env
      (requestUrl "txlist" "500" address (env.API_KEY.getD "")) 5 200 []).2 := by
    have h := congrArg Prod.snd hfetch
    rw [getTransactions_key env address [] hkey] at h
    exact h.symm
  have hevents : ∀ e ∈ tr,
      e = Event.request (requestUrl "txlist" "500" address (env.API_KEY.getD ""))
        ∨ ∃ ms, e = Event.wait ms := by
    intro e he
    rw [htr] at he
    rcases fetchLoop_events env _ 5 200 5 0 [] e he with h | h | h
    · cases h
    · exact Or.inl h
    · exact Or.inr h
  rw [hres]
  refine ⟨rfl, hevents, ?_, ?_, ?_⟩
  · intro hmem
    rcases hevents _ hmem with h | ⟨ms, h⟩
    · injection h with h1
      exact (requestUrl_txlist_ne address (env.API_KEY.getD "")).1 h1.symm
    · cases h
  · intro hmem
    rcases hevents _ hmem with h | ⟨ms, h⟩
    · injection h with h1
      exact (requestUrl_txlist_ne address (env.API_KEY.getD "")).2 h1.symm
    · cases h
  · intro a hmem
    rcases hevents _ hmem with h | ⟨ms, h⟩
    · cases h
    · cases h

/-- C23 when every request fails with "Network Error". -/
theorem required_source_fails_fast_witness :
    getIdentityData (failingEnv "Network Error") sampleAddress
        = (IdentityResult.failure (failureReason "Network Error"),
            (getTransactions (failingEnv "Network Error") sampleAddress []).2)
    ∧ (∀ a : String, Event.nameLookup a
        ∉ (getIdentityData (failingEnv "Network Error") sampleAddress).2) :=
  ⟨(required_source_fails_fast (failingEnv "Network Error") sampleAddress "Network Error"
      (getTransactions (failingEnv "Network Error") sampleAddress []).2
      sampleAddress_valid.1 sampleAddress_valid.2 rfl rfl).1,
    (required_source_fails_fast (failingEnv "Network Error") sampleAddress "Network Error"
      (getTransactions (failingEnv "Network Error") sampleAddress []).2
      sampleAddress_valid.1 sampleAddress_valid.2 rfl rfl).2.2.2.2⟩

/-! ## The name lookup -/

theorem fetchLoop_congr (env1 env2 : Env) (hget : env1.axiosGet = env2.axiosGet)
    (hrand : env1.random = env2.random) (url : String) (retries : Nat) (baseDelay : JsNum) :
    ∀ fuel i tr, fetchLoop env1 url retries baseDelay fuel i tr
      = fetchLoop env2 url retries baseDelay fuel i tr := by
  intro fuel
  induction fuel with
  | zero => intro i tr; rfl
  | succ fuel ih =>
    intro i tr
    simp only [fetchLoop, backoffDelay, hget, hrand, ih]

theorem withFailingLookup_fetches (env : Env) (message address : String) (tr : List Event) :
    getTransactions (withFailingLookup env message) address tr = getTransactions env address tr
    ∧ getTokenTransfers (withFailingLookup env message) address tr
        = getTokenTransfers env address tr
    ∧ getNFTTransfers (withFailingLookup env message) address tr
        = getNFTTransfers env address tr := by
  have h : ∀ url, fetchWithRetry (withFailingLookup env message) url 5 200 tr
      = fetchWithRetry env url 5 200 tr := fun url =>
    fetchLoop_congr (withFailingLookup env message) env rfl rfl url 5 200 5 0 tr
  have hk : (withFailingLookup env message).API_KEY = env.API_KEY := rfl
  refine ⟨?_, ?_, ?_⟩
  · simp only [getTransactions, h, hk]
  · simp only [getTokenTransfers, h, hk]
  · simp only [getNFTTransfers, h, hk]

theorem lookupNamesGuarded_failing (env : Env) (message address : String) (tr : List Event) :
    lookupNamesGuarded (withFailingLookup env message) address tr
      = ({ ens := none, baseName := none }, (lookupNamesGuarded env address tr).2) := by
  unfold lookupNamesGuarded
  cases env.lookupNames tr address <;> rfl

theorem activityData_names (tz : ℤ → ℤ) (address : String) (firstTx : Record)
    (txs tokens nfts : List Record) (build : Names → IdentityData)
    (h : activityData tz address firstTx txs tokens nfts = .ok build) (names : Names) :
    { build names with ens := none, baseName := none }
      = build { ens := none, baseName := none } := by
  unfold activityData at h
  cases h1 : firstTxDateOf firstTx with
  | error e1 =>
    simp only [h1] at h
    cases h
  | ok d =>
    simp only [h1] at h
    cases h2 : generateTimeline txs with
    | error e2 =>
      simp only [h2] at h
      cases h
    | ok tl =>
      simp only [h2] at h
      injection h with e
      subst e
      rfl

theorem getIdentityData_failing_lookup (env : Env) (message address : String) :
    getIdentityData (withFailingLookup env message) address
      = (withoutNames (getIdentityData env address).1, (getIdentityData env address).2) := by
  cases hv : passesValidation address with
  | false =>
    rw [getIdentityData_invalid env address hv, getIdentityData_invalid _ address hv]
    rfl
  | true =>
    cases hk : truthyField env.API_KEY with
    | false =>
      rw [getIdentityData_noKey env address hv hk,
        getIdentityData_noKey (withFailingLookup env message) address hv hk]
      rfl
    | true =>
      have hk2 : truthyField (withFailingLookup env message).API_KEY = true := hk
      have htz : (withFailingLookup env message).timeZone = env.timeZone := rfl
      simp only [getIdentityData, getIdentityDataTry_valid env address hv hk,
        getIdentityDataTry_valid (withFailingLookup env message) address hv hk2,
        (withFailingLookup_fetches env message address _).1,
        (withFailingLookup_fetches env message address _).2.1,
        (withFailingLookup_fetches env message address _).2.2,
        lookupNamesGuarded_failing, htz]
      rcases getTransactions env address [] with ⟨r, tr⟩
      cases r with
      | error e => rfl
      | ok transactions =>
        cases transactions with
        | nil => rfl
        | cons firstTx rest =>
          simp only
          cases hact : activityData env.timeZone address firstTx (firstTx :: rest)
              (getTokenTransfers env address tr).1
              (getNFTTransfers env address
                ((getTokenTransfers env address tr).2 ++ [Event.wait 150])).1 with
          | error e1 => rfl
          | ok build =>
            simp only [withoutNames]
            rw [activityData_names _ _ _ _ _ _ _ hact]

theorem withoutNames_success (r : IdentityResult) (data : IdentityData)
    (h : withoutNames r = IdentityResult.success data) :
    data.ens = none ∧ data.baseName = none := by
  cases r with
  | failure reason => cases h
  | success d =>
    simp only [withoutNames] at h
    injection h with e
    rw [← e]
    exact ⟨rfl, rfl⟩

/-- C22: a name lookup that throws changes nothing but the names: the run has
the same events, a failure stays the same failure, and a success result is the
same success result with `ens = null` and `baseName = null`. -/
theorem lookup_failure_absorbed (env : Env) (message address : String) :
    getIdentityData (withFailingLookup env message) address
        = (withoutNames (getIdentityData env address).1, (getIdentityData env address).2)
    ∧ (∀ data : IdentityData,
        (getIdentityData env address).1 = IdentityResult.success data →
        (getIdentityData (withFailingLookup env message) address).1
          = IdentityResult.success { data with ens := none, baseName := none })
    ∧ (∀ data : IdentityData,
        (getIdentityData (withFailingLookup env message) address).1
          = IdentityResult.success data →
        data.ens = none ∧ data.baseName = none) := by
  have h := getIdentityData_failing_lookup env message address
  refine ⟨h, ?_, ?_⟩
  · intro data hd
    rw [h, hd]
    rfl
  · intro data hd
    rw [h] at hd
    exact withoutNames_success _ data hd

/-- C22 for a lookup that would have found two names. -/
theorem lookup_failure_absorbed_witness :
    (getIdentityData (withFailingLookup namedEnv "lookup failed") sampleAddress).1
      = IdentityResult.success
          { noActivityData sampleAddress [] []
              { ens := some "alice.eth", baseName := some "alice.base" } with
            ens := none, baseName := none } :=
  (lookup_failure_absorbed namedEnv "lookup failed" sampleAddress).2.1 _ rfl

/-! ## The two ways of counting contracts -/

theorem activity_success (env : Env) (address : String) (first last : Record)
    (rest : List Record) (tr : List Event) (n1 n2 : ℤ)
    (hv : passesValidation address = true) (hkey : truthyField env.API_KEY = true)
    (hfetch : getTransactions env address [] = (.ok (first :: rest), tr))
    (hlast : (first :: rest).getLast? = some last)
    (h1 : first.timeStamp = some (JsNum.fin n1)) (hn1 : |n1| ≤ 8640000000000)
    (h2 : last.timeStamp = some (JsNum.fin n2)) (hn2 : |n2| ≤ 8640000000000) :
    ∃ data, (getIdentityData env address).1 = IdentityResult.success data
      ∧ data.tokenCount = (uniqueContracts (fetchedTokenTransfers env address)).length
      ∧ data.nftCount = (uniqueContracts (fetchedNFTTransfers env address)).length := by
  obtain ⟨timeline, htl⟩ := generateTimeline_seconds first last rest n1 n2 hlast h1 hn1 h2 hn2
  obtain ⟨build, hact⟩ := activityData_ok env.timeZone address first (first :: rest)
    (getTokenTransfers env address tr).1
    (getNFTTransfers env address ((getTokenTransfers env address tr).2 ++ [Event.wait 150])).1
    _ timeline (firstTxDateOf_seconds first n1 h1 hn1) htl
  obtain ⟨names, hres⟩ := getIdentityData_activity env address first rest tr build hv hkey
    hfetch hact
  obtain ⟨htok, hnft, _⟩ := activityData_fields _ _ _ _ _ _ _ hact names
  have htr : (getTransactions env address []).2 = tr := congrArg Prod.snd hfetch
  refine ⟨_, hres, ?_, ?_⟩
  · rw [htok]
    unfold fetchedTokenTransfers
    rw [htr]
  · rw [hnft]
    unfold fetchedNFTTransfers
    rw [htr]

/-- C27: the code does not do what the claim says.  For one token transfer and
one NFT transfer without a `contractAddress`, `getIdentityData` reports the
counts 1 and 1 when the transaction list is empty and 0 and 0 when it holds
one transaction. -/
theorem counts_differ_between_paths :
    fetchedTokenTransfers (transfersEnv [namelessTransfer]) sampleAddress = [namelessTransfer]
    ∧ fetchedTokenTransfers (activeTransfersEnv [sampleOutTransaction] [namelessTransfer])
        sampleAddress = [namelessTransfer]
    ∧ fetchedNFTTransfers (transfersEnv [namelessTransfer]) sampleAddress = [namelessTransfer]
    ∧ fetchedNFTTransfers (activeTransfersEnv [sampleOutTransaction] [namelessTransfer])
        sampleAddress = [namelessTransfer]
    ∧ (∃ data : IdentityData,
        (getIdentityData (transfersEnv [namelessTransfer]) sampleAddress).1
          = IdentityResult.success data
        ∧ data.identityStats.noActivity = true
        ∧ data.tokenCount = 1 ∧ data.nftCount = 1)
    ∧ (∃ data : IdentityData,
        (getIdentityData (activeTransfersEnv [sampleOutTransaction] [namelessTransfer])
          sampleAddress).1 = IdentityResult.success data
        ∧ data.tokenCount = 0 ∧ data.nftCount = 0) := by
  have h1 : fetchedTokenTransfers (activeTransfersEnv [sampleOutTransaction]
      [namelessTransfer]) sampleAddress = [namelessTransfer] := by decide
  have h2 : fetchedNFTTransfers (activeTransfersEnv [sampleOutTransaction]
      [namelessTransfer]) sampleAddress = [namelessTransfer] := by decide
  refine ⟨by decide, h1, by decide, h2, ⟨_, rfl, rfl, by decide, by decide⟩, ?_⟩
  obtain ⟨data, hres, htok, hnft⟩ := activity_success
    (activeTransfersEnv [sampleOutTransaction] [namelessTransfer]) sampleAddress
    sampleOutTransaction sampleOutTransaction [] _ 1700000000 1700000000 (by decide) rfl rfl
    rfl rfl (by norm_num) rfl (by norm_num)
  rw [h1] at htok
  rw [h2] at hnft
  exact ⟨data, hres, htok, hnft⟩

/-! ## Monotonicity of the builder score -/

theorem outboundTier_mono (o o2 : ℚ) (h : o ≤ o2) : outboundTier o ≤ outboundTier o2 := by
  unfold outboundTier
  split_ifs <;> first | (exfalso; linarith) | norm_num

theorem nftTier_mono (n n2 : ℚ) (h : n ≤ n2) : nftTier n ≤ nftTier n2 := by
  unfold nftTier
  split_ifs <;> first | (exfalso; linarith) | norm_num

theorem builderScoreFormula_mono (t t2 a a2 o o2 k k2 n n2 : ℚ) (ht : t ≤ t2) (ha : a ≤ a2)
    (ho : o ≤ o2) (hk : k ≤ k2) (hn : n ≤ n2) :
    builderScoreFormula t a o k n ≤ builderScoreFormula t2 a2 o2 k2 n2 := by
  unfold builderScoreFormula
  rw [round_eq, round_eq]
  apply Int.floor_mono
  have h1 : min 30 (t / 100 * 30) ≤ min 30 (t2 / 100 * 30) :=
    min_le_min (le_refl _) (by linarith)
  have h2 : min 25 (a / 365 * 25) ≤ min 25 (a2 / 365 * 25) :=
    min_le_min (le_refl _) (by linarith)
  have h3 := outboundTier_mono o o2 ho
  have h4 : min 15 (k / 20 * 15) ≤ min 15 (k2 / 20 * 15) :=
    min_le_min (le_refl _) (by linarith)
  have h5 := nftTier_mono n n2 hn
  have h6 : min 100 (min 30 (t / 100 * 30) + min 25 (a / 365 * 25) + outboundTier o
        + min 15 (k / 20 * 15) + nftTier n)
      ≤ min 100 (min 30 (t2 / 100 * 30) + min 25 (a2 / 365 * 25) + outboundTier o2
        + min 15 (k2 / 20 * 15) + nftTier n2) :=
    min_le_min (le_refl _) (by linarith)
  linarith

theorem tierLevel_mono (s s2 : ℤ) (h : s ≤ s2) :
    tierLevel (calculateRank (JsNum.fin s)).tier
      ≤ tierLevel (calculateRank (JsNum.fin s2)).tier := by
  rw [calculateRank_fin, calculateRank_fin]
  split_ifs <;> first | (exfalso; omega) | decide

/-- C28: raising any of the five inputs of `calculateBuilderScore` (the others
kept or raised too) never lowers the score, nor the tier that `calculateRank`
gives it, in the order D, C, B, A, S. -/
theorem calculateBuilderScore_monotone (txCount txCount2 activeDays activeDays2 totalOutEth
    totalOutEth2 tokenCount tokenCount2 nftCount nftCount2 : ℚ)
    (htx : txCount ≤ txCount2) (hdays : activeDays ≤ activeDays2)
    (hout : totalOutEth ≤ totalOutEth2) (htok : tokenCount ≤ tokenCount2)
    (hnft : nftCount ≤ nftCount2) :
    ∃ score score2 : ℤ,
      calculateBuilderScore (JsNum.fin txCount) (JsNum.fin activeDays) (JsNum.fin totalOutEth)
          (JsNum.fin tokenCount) (JsNum.fin nftCount) = JsNum.fin score
      ∧ calculateBuilderScore (JsNum.fin txCount2) (JsNum.fin activeDays2)
          (JsNum.fin totalOutEth2) (JsNum.fin tokenCount2) (JsNum.fin nftCount2)
          = JsNum.fin score2
      ∧ score ≤ score2
      ∧ tierLevel (calculateRank (JsNum.fin score)).tier
          ≤ tierLevel (calculateRank (JsNum.fin score2)).tier :=
  ⟨_, _, calculateBuilderScore_fin _ _ _ _ _, calculateBuilderScore_fin _ _ _ _ _,
    builderScoreFormula_mono _ _ _ _ _ _ _ _ _ _ htx hdays hout htok hnft,
    tierLevel_mono _ _
      (builderScoreFormula_mono _ _ _ _ _ _ _ _ _ _ htx hdays hout htok hnft)⟩

/-- C28 from the inputs of scenario A to the same inputs with 6 NFTs. -/
theorem calculateBuilderScore_monotone_witness :
    ∃ score score2 : ℤ,
      calculateBuilderScore (JsNum.fin 150) (JsNum.fin 10) (JsNum.fin (5 / 2))
          (JsNum.fin 3) (JsNum.fin 0) = JsNum.fin score
      ∧ calculateBuilderScore (JsNum.fin 150) (JsNum.fin 10) (JsNum.fin (5 / 2))
          (JsNum.fin 3) (JsNum.fin 6) = JsNum.fin score2
      ∧ score ≤ score2
      ∧ tierLevel (calculateRank (JsNum.fin score)).tier
          ≤ tierLevel (calculateRank (JsNum.fin score2)).tier :=
  calculateBuilderScore_monotone 150 150 10 10 (5 / 2) (5 / 2) 3 3 0 6 (le_refl _) (le_refl _)
    (le_refl _) (le_refl _) (by norm_num)

/-! ## The three address checks -/

/-- C29: `validateAddress` returns `null`, the check of `handleSubmit` passes,
and the validation of `getIdentityData` lets the string through (it is not
rejected with INVALID_ADDRESS before any event in every environment), each
exactly when the string starts with "0x" and has length 42. -/
theorem address_checks_agree (s : String) :
    (validateAddress s = none ↔ (startsWith s "0x" = true ∧ jsLength s = 42))
    ∧ (handleSubmitRejects s = false ↔ (startsWith s "0x" = true ∧ jsLength s = 42))
    ∧ ((!truthy s || !startsWith s "0x" || decide (jsLength s ≠ 42)) = false
        ↔ (startsWith s "0x" = true ∧ jsLength s = 42))
    ∧ ((¬ ∀ env : Env, getIdentityData env s = (IdentityResult.failure "INVALID_ADDRESS", []))
        ↔ (startsWith s "0x" = true ∧ jsLength s = 42)) := by
  have hpass : passesValidation s = true ↔ (startsWith s "0x" = true ∧ jsLength s = 42) := by
    simp [passesValidation]
  refine ⟨?_, ?_, ?_, ?_⟩
  · constructor
    · intro h
      unfold validateAddress at h
      split_ifs at h with h1 h2 h3
      simp only [Bool.not_eq_true', Bool.not_eq_false'] at h2
      exact ⟨by simpa using h2, by omega⟩
    · rintro ⟨h1, h2⟩
      have ht : truthy s = true := truthy_of_jsLength_pos s (by omega)
      simp [validateAddress, ht, h1, h2]
  · simp [handleSubmitRejects]
  · rw [validation_eq, ← hpass]
    simp
  · rw [← hpass]
    constructor
    · intro h
      by_contra hv
      have hv2 : passesValidation s = false := by simpa using hv
      exact h (fun env => getIdentityData_invalid env s hv2)
    · intro hv h
      have h1 := h noKeyEnv
      rw [getIdentityData_noKey noKeyEnv s hv rfl] at h1
      exact absurd h1 (by decide)

/-! ## Rounding to the nearest double -/

theorem roundHalfEven_intCast (k : ℤ) : roundHalfEven (k : ℚ) = k := by
  simp [roundHalfEven]

theorem roundHalfEven_nonneg (x : ℚ) (h : 0 ≤ x) : 0 ≤ roundHalfEven x := by
  have hf : (0 : ℤ) ≤ ⌊x⌋ := Int.floor_nonneg.mpr h
  unfold roundHalfEven
  split_ifs <;> omega

theorem roundHalfEven_sub_le (x : ℚ) : |(roundHalfEven x : ℚ) - x| ≤ 1 / 2 := by
  have h1 := Int.floor_le x
  have h2 := Int.lt_floor_add_one x
  unfold roundHalfEven
  rw [abs_le]
  split_ifs with a b c
  · constructor <;> linarith
  · push_cast
    constructor <;> linarith
  · constructor <;> linarith
  · push_cast
    constructor <;> linarith

theorem spacingExponent_of_bounds (q : ℚ) (L : ℤ) (h1 : (2 : ℚ) ^ L ≤ |q|)
    (h2 : |q| < (2 : ℚ) ^ (L + 1)) (hL : -1022 ≤ L) : spacingExponent q = L - 52 := by
  have hpos : (0 : ℚ) < |q| := lt_of_lt_of_le (by positivity) h1
  have hlog : Int.log 2 |q| = L := by
    apply le_antisymm
    · have := (Int.lt_zpow_iff_log_lt (b := 2) (by norm_num) hpos (x := L + 1)).mp
        (by exact_mod_cast h2)
      omega
    · exact (Int.zpow_le_iff_le_log (b := 2) (by norm_num) hpos).mp (by exact_mod_cast h1)
  unfold spacingExponent
  rw [hlog]
  omega

theorem nearestDouble_of_bounds (q : ℚ) (L m : ℤ) (h1 : (2 : ℚ) ^ L ≤ |q|)
    (h2 : |q| < (2 : ℚ) ^ (L + 1)) (hL : -1022 ≤ L)
    (hm : roundHalfEven (q / 2 ^ (L - 52)) = m) :
    nearestDouble q = m * 2 ^ (L - 52) := by
  unfold nearestDouble
  rw [spacingExponent_of_bounds q L h1 h2 hL, hm]

theorem nearestDouble_zero : nearestDouble 0 = 0 := by
  simp [nearestDouble, roundHalfEven]

theorem nearestDouble_nonneg (q : ℚ) (h : 0 ≤ q) : 0 ≤ nearestDouble q := by
  unfold nearestDouble
  have hpow : (0 : ℚ) < 2 ^ spacingExponent q := by positivity
  have hr : (0 : ℤ) ≤ roundHalfEven (q / 2 ^ spacingExponent q) :=
    roundHalfEven_nonneg _ (div_nonneg h hpow.le)
  have hrq : (0 : ℚ) ≤ (roundHalfEven (q / 2 ^ spacingExponent q) : ℚ) := by exact_mod_cast hr
  exact mul_nonneg hrq hpow.le

theorem nearestDouble_of_scaled (q : ℚ) (k : ℤ) (h : q / 2 ^ spacingExponent q = k) :
    nearestDouble q = q := by
  have hpow : (2 : ℚ) ^ spacingExponent q ≠ 0 := by positivity
  unfold nearestDouble
  rw [h, roundHalfEven_intCast, ← h]
  field_simp

theorem nearestDouble_intCast (n : ℤ) (h : |n| ≤ 2 ^ 53) : nearestDouble (n : ℚ) = n := by
  by_cases hn : n = 0
  · subst hn
    simpa using nearestDouble_zero
  have habs : (1 : ℚ) ≤ |(n : ℚ)| := by
    have : (1 : ℤ) ≤ |n| := Int.one_le_abs hn
    exact_mod_cast this
  have hpos : (0 : ℚ) < |(n : ℚ)| := lt_of_lt_of_le one_pos habs
  have hle : |(n : ℚ)| ≤ 2 ^ (53 : ℤ) := by
    have : ((|n| : ℤ) : ℚ) ≤ ((2 ^ 53 : ℤ) : ℚ) := by exact_mod_cast h
    rw [Int.cast_abs] at this
    norm_num at this ⊢
    exact this
  obtain ⟨L, hL⟩ : ∃ L : ℤ, L = Int.log 2 |(n : ℚ)| := ⟨_, rfl⟩
  have h1 : (2 : ℚ) ^ L ≤ |(n : ℚ)| := by
    rw [hL]
    exact_mod_cast Int.zpow_log_le_self (b := 2) (by norm_num) hpos
  have h0 : 0 ≤ L := by
    rw [hL]
    exact (Int.zpow_le_iff_le_log (b := 2) (by norm_num) hpos).mp (by simpa using habs)
  have h53 : L ≤ 53 := by
    have : (2 : ℚ) ^ L ≤ 2 ^ (53 : ℤ) := le_trans h1 hle
    exact (zpow_le_zpow_iff_right₀ (by norm_num)).mp this
  have he : spacingExponent (n : ℚ) = L - 52 := by
    unfold spacingExponent
    rw [← hL]
    omega
  rcases Int.lt_or_le L 53 with hlt | hge
  · obtain ⟨d, hd⟩ : ∃ d : ℕ, (d : ℤ) = 52 - L := ⟨(52 - L).toNat, by omega⟩
    apply nearestDouble_of_scaled _ (n * 2 ^ d)
    rw [he, show L - 52 = -(d : ℤ) by omega, zpow_neg, zpow_natCast]
    push_cast
    field_simp
  · have hL53 : L = 53 := le_antisymm h53 hge
    rw [hL53] at h1 he
    have hab : |(n : ℚ)| = 2 ^ (53 : ℤ) := le_antisymm hle h1
    have hn2 : (n : ℚ) = 2 ^ 53 ∨ (n : ℚ) = -2 ^ 53 := by
      rcases abs_cases (n : ℚ) with ⟨ha, _⟩ | ⟨ha, _⟩
      · left
        rw [← ha, hab]
        norm_num
      · right
        have : (n : ℚ) = -|(n : ℚ)| := by rw [ha]; ring
        rw [this, hab]
        norm_num
    rcases hn2 with hn2 | hn2
    · apply nearestDouble_of_scaled _ (2 ^ 52)
      rw [he, hn2]
      norm_num
    · apply nearestDouble_of_scaled _ (-2 ^ 52)
      rw [he, hn2]
      norm_num

theorem nearestDouble_error (q : ℚ) (hq : (2 : ℚ) ^ (-1022 : ℤ) ≤ |q|) :
    |nearestDouble q - q| ≤ |q| / 2 ^ 53 := by
  have hpos : (0 : ℚ) < |q| := lt_of_lt_of_le (by positivity) hq
  obtain ⟨L, hL⟩ : ∃ L : ℤ, L = Int.log 2 |q| := ⟨_, rfl⟩
  have h1 : (2 : ℚ) ^ L ≤ |q| := by
    rw [hL]
    exact_mod_cast Int.zpow_log_le_self (b := 2) (by norm_num) hpos
  have h0 : -1022 ≤ L := by
    rw [hL]
    exact (Int.zpow_le_iff_le_log (b := 2) (by norm_num) hpos).mp (by exact_mod_cast hq)
  have he : spacingExponent q = L - 52 := by
    unfold spacingExponent
    rw [← hL]
    omega
  have hpow : (0 : ℚ) < 2 ^ (L - 52) := by positivity
  have hr := roundHalfEven_sub_le (q / 2 ^ (L - 52))
  have hrew : nearestDouble q - q
      = ((roundHalfEven (q / 2 ^ (L - 52)) : ℚ) - q / 2 ^ (L - 52)) * 2 ^ (L - 52) := by
    unfold nearestDouble
    rw [he]
    field_simp
  have hsplit : (2 : ℚ) ^ L = 2 ^ (L - 52) * 2 ^ (52 : ℤ) := by
    rw [← zpow_add₀ (by norm_num : (2 : ℚ) ≠ 0)]
    congr 1
    omega
  rw [hrew, abs_mul, abs_of_pos hpow]
  have hstep : |(roundHalfEven (q / 2 ^ (L - 52)) : ℚ) - q / 2 ^ (L - 52)| * 2 ^ (L - 52)
      ≤ 1 / 2 * 2 ^ (L - 52) := mul_le_mul_of_nonneg_right hr hpow.le
  have hfin : (1 : ℚ) / 2 * 2 ^ (L - 52) ≤ |q| / 2 ^ 53 := by
    rw [le_div_iff₀ (by positivity)]
    have : (2 : ℚ) ^ (52 : ℤ) = 2 ^ 52 := by norm_num
    rw [hsplit, this] at h1
    linarith
  exact le_trans hstep hfin

theorem floor_nearestDouble_div (X : ℤ) (h0 : 0 ≤ X) (h : X < 2 ^ 53) :
    ⌊nearestDouble ((X : ℚ) / 1000)⌋ = ⌊(X : ℚ) / 1000⌋ := by
  obtain ⟨k, hk⟩ : ∃ k : ℤ, k = ⌊(X : ℚ) / 1000⌋ := ⟨_, rfl⟩
  rw [← hk]
  have hlo := Int.floor_le ((X : ℚ) / 1000)
  have hhi := Int.lt_floor_add_one ((X : ℚ) / 1000)
  rw [← hk] at hlo hhi
  rw [le_div_iff₀ (by norm_num)] at hlo
  rw [div_lt_iff₀ (by norm_num)] at hhi
  have hlo2 : k * 1000 ≤ X := by exact_mod_cast hlo
  have hhi2 : X < (k + 1) * 1000 := by exact_mod_cast hhi
  have hXq : (X : ℚ) < 2 ^ 53 := by exact_mod_cast h
  rcases eq_or_lt_of_le hlo2 with heq | hlt
  · have hy : (X : ℚ) / 1000 = (k : ℚ) := by
      rw [← heq]
      push_cast
      field_simp
    have hkb : |k| ≤ 2 ^ 53 := by
      rw [abs_le]
      constructor <;> omega
    rw [hy, nearestDouble_intCast k hkb]
    exact Int.floor_intCast k
  · have hX1 : k * 1000 + 1 ≤ X := hlt
    have hX1q : (k : ℚ) * 1000 + 1 ≤ X := by exact_mod_cast hX1
    have hX2 : X ≤ k * 1000 + 999 := by omega
    have hX2q : (X : ℚ) ≤ k * 1000 + 999 := by exact_mod_cast hX2
    have hXpos : (0 : ℚ) < X := by
      have : 0 < X := by omega
      exact_mod_cast this
    have hypos : (0 : ℚ) < (X : ℚ) / 1000 := by positivity
    have herr := nearestDouble_error ((X : ℚ) / 1000) (by
      rw [abs_of_pos hypos]
      have h1000 : (1 : ℚ) / 1000 ≤ (X : ℚ) / 1000 := by
        rw [div_le_div_iff₀ (by norm_num) (by norm_num)]
        have : (1 : ℤ) ≤ X := by omega
        have : (1 : ℚ) ≤ X := by exact_mod_cast this
        linarith
      refine le_trans ?_ h1000
      rw [zpow_neg, show (1 : ℚ) / 1000 = (1000 : ℚ)⁻¹ by norm_num]
      rw [inv_le_inv₀ (by positivity) (by norm_num)]
      norm_num)
    rw [abs_of_pos hypos, abs_le] at herr
    have hsmall : (X : ℚ) / 1000 / 2 ^ 53 < 1 / 1000 := by
      rw [div_div, div_lt_div_iff₀ (by positivity) (by norm_num)]
      linarith
    rw [Int.floor_eq_iff]
    constructor
    · have : (k : ℚ) + 1 / 1000 ≤ (X : ℚ) / 1000 := by
        rw [le_div_iff₀ (by norm_num)]
        linarith
      linarith [herr.1]
    · have : (X : ℚ) / 1000 ≤ (k : ℚ) + 999 / 1000 := by
        rw [div_le_iff₀ (by norm_num)]
        linarith
      linarith [herr.2]

theorem roundHalfEven_floor_le (x : ℚ) : ⌊x⌋ ≤ roundHalfEven x := by
  unfold roundHalfEven
  split_ifs <;> omega

theorem roundHalfEven_le_ceil (x : ℚ) : roundHalfEven x ≤ ⌈x⌉ := by
  have hfc : ⌊x⌋ ≤ ⌈x⌉ := Int.floor_le_ceil x
  unfold roundHalfEven
  split_ifs with a b c
  · exact hfc
  · have : (⌊x⌋ : ℚ) < x := by linarith
    have := Int.lt_ceil.mpr this
    omega
  · exact hfc
  · have : (⌊x⌋ : ℚ) < x := by linarith
    have := Int.lt_ceil.mpr this
    omega

theorem spacingExponent_nonpos (q : ℚ) (h : |q| < 2 ^ 53) : spacingExponent q ≤ 0 := by
  unfold spacingExponent
  by_cases hq : q = 0
  · subst hq
    simp
  · have hpos : (0 : ℚ) < |q| := abs_pos.mpr hq
    have := (Int.lt_zpow_iff_log_lt (b := 2) (by norm_num) hpos (x := 53)).mp
      (by exact_mod_cast h)
    omega

theorem nearestDouble_bracket (q : ℚ) (lo hi : ℤ) (h : |q| < 2 ^ 53) (hlo : (lo : ℚ) ≤ q)
    (hhi : q ≤ (hi : ℚ)) : (lo : ℚ) ≤ nearestDouble q ∧ nearestDouble q ≤ (hi : ℚ) := by
  have he := spacingExponent_nonpos q h
  obtain ⟨d, hd⟩ : ∃ d : ℕ, spacingExponent q = -(d : ℤ) :=
    ⟨(-spacingExponent q).toNat, by omega⟩
  have hpow : (0 : ℚ) < 2 ^ d := by positivity
  have hscaled : q / 2 ^ spacingExponent q = q * 2 ^ d := by
    rw [hd, zpow_neg, zpow_natCast]
    field_simp
  have hval : nearestDouble q = (roundHalfEven (q * 2 ^ d) : ℚ) / 2 ^ d := by
    unfold nearestDouble
    rw [hscaled, hd, zpow_neg, zpow_natCast]
    rfl
  rw [hval]
  constructor
  · rw [le_div_iff₀ hpow]
    have h1 : ((lo * 2 ^ d : ℤ) : ℚ) ≤ q * 2 ^ d := by
      push_cast
      exact mul_le_mul_of_nonneg_right hlo hpow.le
    have h2 : lo * 2 ^ d ≤ roundHalfEven (q * 2 ^ d) :=
      le_trans (Int.le_floor.mpr h1) (roundHalfEven_floor_le _)
    exact_mod_cast h2
  · rw [div_le_iff₀ hpow]
    have h1 : q * 2 ^ d ≤ ((hi * 2 ^ d : ℤ) : ℚ) := by
      push_cast
      exact mul_le_mul_of_nonneg_right hhi hpow.le
    have h2 : roundHalfEven (q * 2 ^ d) ≤ hi * 2 ^ d :=
      le_trans (roundHalfEven_le_ceil _) (Int.ceil_le.mpr h1)
    exact_mod_cast h2

theorem floor_nearestDouble_bracket (q : ℚ) (h : |q| < 2 ^ 53) :
    ⌊q⌋ ≤ ⌊nearestDouble q⌋ ∧ ⌊nearestDouble q⌋ ≤ ⌊q⌋ + 1 := by
  obtain ⟨hlo, hhi⟩ := nearestDouble_bracket q ⌊q⌋ ⌈q⌉ h (Int.floor_le q) (Int.le_ceil q)
  constructor
  · exact Int.le_floor.mpr hlo
  · have h1 : ⌊nearestDouble q⌋ ≤ ⌈q⌉ := by
      have : ((⌊nearestDouble q⌋ : ℤ) : ℚ) ≤ (⌈q⌉ : ℚ) :=
        le_trans (Int.floor_le _) hhi
      exact_mod_cast this
    exact le_trans h1 (Int.ceil_le_floor_add_one q)

theorem nearestDouble_of_int (q : ℚ) (n : ℤ) (hq : q = n) (h : |n| ≤ 2 ^ 53) :
    nearestDouble q = n := by
  rw [hq]
  exact nearestDouble_intCast n h

theorem Binary64.add_fin (a b : ℚ) :
    Binary64.add (JsNum.fin a) (JsNum.fin b) = JsNum.fin (nearestDouble (a + b)) := rfl
theorem Binary64.mul_fin (a b : ℚ) :
    Binary64.mul (JsNum.fin a) (JsNum.fin b) = JsNum.fin (nearestDouble (a * b)) := rfl
theorem Binary64.sub_fin (a b : ℚ) :
    Binary64.sub (JsNum.fin a) (JsNum.fin b) = JsNum.fin (nearestDouble (a - b)) := rfl
theorem Binary64.div_fin (a b : ℚ) :
    Binary64.div (JsNum.fin a) (JsNum.fin b) = JsNum.fin (nearestDouble (a / b)) := rfl

/-! ## Experience points on doubles -/

/-- C4, amended: for counts `txCount` and `activeDays` and a non-negative
`totalOutEth` with `txCount*10 + activeDays*50 + totalOutEth*100 ≤ 2^52`,
`calculateXP` returns `totalXP = txCount*10 + activeDays*50 + bonus`, where
`bonus` is the floor of the double nearest to the product `totalOutEth*100`,
which is `floor(totalOutEth*100)` or one more; `level = floor(totalXP/1000) + 1`,
`currentLevelXP = (level-1)*1000` and `nextLevelXP = level*1000`. -/
theorem calculateXP_rounded_formula (txCount activeDays : ℕ) (totalOutEth : ℚ)
    (hout : 0 ≤ totalOutEth)
    (hrange : (txCount : ℚ) * 10 + activeDays * 50 + totalOutEth * 100 ≤ 2 ^ 52) :
    ∃ totalXP level bonus : ℤ,
      bonus = ⌊nearestDouble (totalOutEth * 100)⌋
      ∧ ⌊totalOutEth * 100⌋ ≤ bonus ∧ bonus ≤ ⌊totalOutEth * 100⌋ + 1
      ∧ totalXP = txCount * 10 + activeDays * 50 + bonus
      ∧ level = ⌊(totalXP : ℚ) / 1000⌋ + 1
      ∧ Binary64.calculateXP (JsNum.fin txCount) (JsNum.fin activeDays)
          (JsNum.fin totalOutEth) =
          { totalXP := JsNum.fin totalXP,
            level := JsNum.fin level,
            currentLevelXP := JsNum.fin ((level - 1) * 1000),
            nextLevelXP := JsNum.fin (level * 1000) } := by
  have ht0 : (0 : ℚ) ≤ (txCount : ℚ) * 10 := by positivity
  have ha0 : (0 : ℚ) ≤ (activeDays : ℚ) * 50 := by positivity
  have hq0 : (0 : ℚ) ≤ totalOutEth * 100 := by positivity
  have habs : |totalOutEth * 100| < 2 ^ 53 := by
    rw [abs_of_nonneg hq0]
    have : (2 : ℚ) ^ 52 < 2 ^ 53 := by norm_num
    linarith
  obtain ⟨hb1, hb2⟩ := floor_nearestDouble_bracket (totalOutEth * 100) habs
  obtain ⟨F, hF⟩ : ∃ F : ℤ, F = ⌊nearestDouble (totalOutEth * 100)⌋ := ⟨_, rfl⟩
  rw [← hF] at hb1 hb2
  have hfl0 : (0 : ℤ) ≤ ⌊totalOutEth * 100⌋ := Int.floor_nonneg.mpr hq0
  have hF0 : 0 ≤ F := le_trans hfl0 hb1
  have hFq : (F : ℚ) ≤ totalOutEth * 100 + 1 := by
    have h1 : (F : ℚ) ≤ ((⌊totalOutEth * 100⌋ + 1 : ℤ) : ℚ) := by exact_mod_cast hb2
    have h2 := Int.floor_le (totalOutEth * 100)
    push_cast at h1
    linarith
  obtain ⟨T, hT⟩ : ∃ T : ℤ, T = (txCount : ℤ) * 10 := ⟨_, rfl⟩
  obtain ⟨A, hA⟩ : ∃ A : ℤ, A = (activeDays : ℤ) * 50 := ⟨_, rfl⟩
  have hT0 : 0 ≤ T := by rw [hT]; positivity
  have hA0 : 0 ≤ A := by rw [hA]; positivity
  have hTq : (txCount : ℚ) * 10 = (T : ℚ) := by rw [hT]; push_cast; ring
  have hAq : (activeDays : ℚ) * 50 = (A : ℚ) := by rw [hA]; push_cast; ring
  have hX : T + A + F ≤ 4503599627370497 := by
    have : ((T + A + F : ℤ) : ℚ) ≤ ((4503599627370497 : ℤ) : ℚ) := by
      push_cast
      rw [← hTq, ← hAq]
      have : (2 : ℚ) ^ 52 = 4503599627370496 := by norm_num
      linarith
    exact_mod_cast this
  obtain ⟨K, hK⟩ : ∃ K : ℤ, K = ⌊((T + A + F : ℤ) : ℚ) / 1000⌋ := ⟨_, rfl⟩
  have hXq0 : (0 : ℚ) ≤ ((T + A + F : ℤ) : ℚ) := by
    have : 0 ≤ T + A + F := by omega
    exact_mod_cast this
  have hK0 : 0 ≤ K := by
    rw [hK]
    exact Int.floor_nonneg.mpr (div_nonneg hXq0 (by norm_num))
  have hKX : K * 1000 ≤ T + A + F := by
    have := Int.floor_le (((T + A + F : ℤ) : ℚ) / 1000)
    rw [← hK, le_div_iff₀ (by norm_num)] at this
    exact_mod_cast this
  have p53 : (2 : ℤ) ^ 53 = 9007199254740992 := by norm_num
  have n1 : nearestDouble ((txCount : ℚ) * 10) = (T : ℚ) :=
    nearestDouble_of_int _ T hTq (by rw [abs_le, p53]; constructor <;> omega)
  have n2 : nearestDouble (0 + (T : ℚ)) = (T : ℚ) :=
    nearestDouble_of_int _ T (by ring) (by rw [abs_le, p53]; constructor <;> omega)
  have n3 : nearestDouble ((activeDays : ℚ) * 50) = (A : ℚ) :=
    nearestDouble_of_int _ A hAq (by rw [abs_le, p53]; constructor <;> omega)
  have n4 : nearestDouble ((T : ℚ) + (A : ℚ)) = ((T + A : ℤ) : ℚ) :=
    nearestDouble_of_int _ (T + A) (by push_cast; ring)
      (by rw [abs_le, p53]; constructor <;> omega)
  have n5 : nearestDouble (((T + A : ℤ) : ℚ) + (F : ℚ)) = ((T + A + F : ℤ) : ℚ) :=
    nearestDouble_of_int _ (T + A + F) (by push_cast; ring)
      (by rw [abs_le, p53]; constructor <;> omega)
  have n6 : ⌊nearestDouble (((T + A + F : ℤ) : ℚ) / 1000)⌋ = K := by
    rw [hK]
    exact floor_nearestDouble_div (T + A + F) (by omega) (by rw [p53]; omega)
  have n7 : nearestDouble ((K : ℚ) + 1) = ((K + 1 : ℤ) : ℚ) :=
    nearestDouble_of_int _ (K + 1) (by push_cast; ring)
      (by rw [abs_le, p53]; constructor <;> omega)
  have n8 : nearestDouble (((K + 1 : ℤ) : ℚ) - 1) = (K : ℚ) :=
    nearestDouble_of_int _ K (by push_cast; ring)
      (by rw [abs_le, p53]; constructor <;> omega)
  have n9 : nearestDouble ((K : ℚ) * 1000) = ((K * 1000 : ℤ) : ℚ) :=
    nearestDouble_of_int _ (K * 1000) (by push_cast; ring)
      (by rw [abs_le, p53]; constructor <;> omega)
  have n10 : nearestDouble (((K + 1 : ℤ) : ℚ) * 1000) = (((K + 1) * 1000 : ℤ) : ℚ) :=
    nearestDouble_of_int _ ((K + 1) * 1000) (by push_cast; ring)
      (by rw [abs_le, p53]; constructor <;> omega)
  refine ⟨T + A + F, K + 1, F, hF, hb1, hb2, by rw [hT, hA], by rw [hK], ?_⟩
  simp only [Binary64.calculateXP, JsNum.ofNat_lit, Binary64.add_fin, Binary64.mul_fin,
    Binary64.sub_fin, Binary64.div_fin, Math.floor_fin, Nat.cast_ofNat, Nat.cast_zero,
    Nat.cast_one]
  rw [← hF, n1, n2, n3, n4, n5, n6, n7, n8, n9, n10]
  push_cast
  simp only [add_sub_cancel_right]

/-- C4, amended, at 150 transactions on 10 days with an outbound value of 2.5. -/
theorem calculateXP_rounded_formula_witness :
    ∃ totalXP level bonus : ℤ,
      bonus = ⌊nearestDouble ((5 / 2 : ℚ) * 100)⌋
      ∧ ⌊(5 / 2 : ℚ) * 100⌋ ≤ bonus ∧ bonus ≤ ⌊(5 / 2 : ℚ) * 100⌋ + 1
      ∧ totalXP = (150 : ℕ) * 10 + (10 : ℕ) * 50 + bonus
      ∧ level = ⌊(totalXP : ℚ) / 1000⌋ + 1
      ∧ Binary64.calculateXP (JsNum.fin (150 : ℕ)) (JsNum.fin (10 : ℕ))
          (JsNum.fin (5 / 2)) =
          { totalXP := JsNum.fin totalXP,
            level := JsNum.fin level,
            currentLevelXP := JsNum.fin ((level - 1) * 1000),
            nextLevelXP := JsNum.fin (level * 1000) } :=
  calculateXP_rounded_formula 150 10 (5 / 2) (by norm_num) (by norm_num)

theorem nearestDouble_threeHundredths_product : nearestDouble (threeHundredths * 100) = 3 := by
  rw [nearestDouble_of_bounds _ 1 6755399441055744 (by norm_num [threeHundredths, abs_of_pos])
    (by norm_num [threeHundredths, abs_of_pos]) (by norm_num)
    (by norm_num [threeHundredths, roundHalfEven])]
  norm_num

/-- C4, as stated, fails: at 0 transactions, 0 active days and
the outbound value `0.03`, `calculateXP` returns `totalXP = 3`, where
`txCount*10 + activeDays*50 + floor(totalOutEth*100)` is 2: the product of the
double `0.03` and 100 is just below 3 and the nearest double is 3. -/
theorem calculateXP_rounds_product_up :
    nearestDouble (3 / 100) = threeHundredths
    ∧ (Binary64.calculateXP 0 0 (JsNum.fin threeHundredths)).totalXP = JsNum.fin 3
    ∧ (0 : ℚ) * 10 + 0 * 50 + (⌊threeHundredths * 100⌋ : ℤ) = 2 := by
  refine ⟨?_, ?_, ?_⟩
  · rw [nearestDouble_of_bounds _ (-6) 8646911284551352 (by norm_num [abs_of_pos])
      (by norm_num [abs_of_pos]) (by norm_num) (by norm_num [roundHalfEven])]
    norm_num [threeHundredths]
  · simp only [Binary64.calculateXP, JsNum.ofNat_lit, Binary64.add_fin, Binary64.mul_fin,
      Math.floor_fin, Nat.cast_ofNat, Nat.cast_zero, zero_mul, zero_add, nearestDouble_zero,
      nearestDouble_threeHundredths_product]
    have h3 : nearestDouble ((⌊(3 : ℚ)⌋ : ℤ) : ℚ) = 3 := by
      rw [show ⌊(3 : ℚ)⌋ = 3 by norm_num]
      exact nearestDouble_of_int _ 3 (by norm_num) (by norm_num)
    rw [h3]
  · norm_num [threeHundredths]

/-! ## Totals on doubles -/

theorem sameAddressBy_eq (toLower : String → String) (field : Option String)
    (address : String) :
    sameAddressBy toLower field address
      = decide (field.map toLower = some (toLower address)) := by
  cases field with
  | none => simp [sameAddressBy]
  | some s => simp [sameAddressBy]

theorem numberOrZero_of (field : Option JsNum) (v : ℚ)
    (h : field = some (JsNum.fin v) ∨ (field = none ∧ v = 0)) :
    numberOrZero field = JsNum.fin v := by
  rcases h with h | ⟨h, hv⟩
  · rw [h]
    rfl
  · rw [h, hv]
    rfl

theorem Binary64.foldl_add_fin (xs : List Record) (f : Record → JsNum) (g : Record → ℚ)
    (h : ∀ tx ∈ xs, f tx = JsNum.fin (g tx)) :
    ∀ acc : ℚ, xs.foldl (fun sum tx => Binary64.add sum (f tx)) (JsNum.fin acc)
      = JsNum.fin ((xs.map g).foldl (fun sum x => nearestDouble (sum + x)) acc) := by
  induction xs with
  | nil => intro acc; rfl
  | cons x xs ih =>
    intro acc
    rw [List.foldl_cons, h x (List.mem_cons_self x xs), Binary64.add_fin,
      ih (fun y hy => h y (List.mem_cons_of_mem x hy)), List.map_cons, List.foldl_cons]

theorem Binary64.reduce_fin (xs : List Record) (f : Record → JsNum) (g : Record → ℚ)
    (h : ∀ tx ∈ xs, f tx = JsNum.fin (g tx)) :
    xs.foldl (fun sum tx => Binary64.add sum (f tx)) 0 = JsNum.fin (doubleSum (xs.map g)) := by
  have := Binary64.foldl_add_fin xs f g h 0
  rw [doubleSum, ← this]
  rfl

/-- C15, amended: `totalIn` is the sum, accumulated on doubles from left to right
starting at 0, of the doubles nearest to `value / 10^18` over the records whose
`to` equals the address after `toLowerCase`, `totalOut` the same over the
records whose `from` does, and `totalGas` the same accumulation over all records
of the doubles nearest to `p / 10^18`, where `p` is the double nearest to
`gasUsed * gasPrice`; a missing field counts as 0. -/
theorem totals_are_double_sums (toLower : String → String) (address : String)
    (safeTransactions : List Record) (value gasUsed gasPrice : Record → ℚ)
    (hvalue : ∀ tx ∈ safeTransactions,
      tx.value = some (JsNum.fin (value tx)) ∨ (tx.value = none ∧ value tx = 0))
    (hgasUsed : ∀ tx ∈ safeTransactions,
      tx.gasUsed = some (JsNum.fin (gasUsed tx)) ∨ (tx.gasUsed = none ∧ gasUsed tx = 0))
    (hgasPrice : ∀ tx ∈ safeTransactions,
      tx.gasPrice = some (JsNum.fin (gasPrice tx)) ∨ (tx.gasPrice = none ∧ gasPrice tx = 0)) :
    Binary64.totalIn toLower address safeTransactions
        = JsNum.fin (doubleSum ((safeTransactions.filter
            (fun tx => decide (tx.to_.map toLower = some (toLower address)))).map
              (fun tx => nearestDouble (value tx / 10 ^ 18))))
    ∧ Binary64.totalOut toLower address safeTransactions
        = JsNum.fin (doubleSum ((safeTransactions.filter
            (fun tx => decide (tx.from_.map toLower = some (toLower address)))).map
              (fun tx => nearestDouble (value tx / 10 ^ 18))))
    ∧ Binary64.totalGas safeTransactions
        = JsNum.fin (doubleSum (safeTransactions.map
            (fun tx => nearestDouble (nearestDouble (gasUsed tx * gasPrice tx) / 10 ^ 18)))) := by
  refine ⟨?_, ?_, ?_⟩
  · unfold Binary64.totalIn
    simp only [sameAddressBy_eq]
    apply Binary64.reduce_fin
    intro tx htx
    rw [numberOrZero_of _ _ (hvalue tx (List.mem_of_mem_filter htx)), Binary64.div_fin]
  · unfold Binary64.totalOut
    simp only [sameAddressBy_eq]
    apply Binary64.reduce_fin
    intro tx htx
    rw [numberOrZero_of _ _ (hvalue tx (List.mem_of_mem_filter htx)), Binary64.div_fin]
  · unfold Binary64.totalGas
    apply Binary64.reduce_fin
    intro tx htx
    rw [numberOrZero_of _ _ (hgasUsed tx htx), numberOrZero_of _ _ (hgasPrice tx htx),
      Binary64.mul_fin, Binary64.div_fin]

/-- C15, amended, for one transaction sent by the address and one received by
it, the address of the second written in upper case. -/
theorem totals_are_double_sums_witness :
    Binary64.totalIn toLowerCase sampleAddress [sampleOutTransaction, sampleInTransaction]
        = JsNum.fin (doubleSum (([sampleOutTransaction, sampleInTransaction].filter
            (fun tx => decide (tx.to_.map toLowerCase = some (toLowerCase sampleAddress)))).map
              (fun tx => nearestDouble (finiteOrZero tx.value / 10 ^ 18))))
    ∧ Binary64.totalOut toLowerCase sampleAddress [sampleOutTransaction, sampleInTransaction]
        = JsNum.fin (doubleSum (([sampleOutTransaction, sampleInTransaction].filter
            (fun tx => decide (tx.from_.map toLowerCase = some (toLowerCase sampleAddress)))).map
              (fun tx => nearestDouble (finiteOrZero tx.value / 10 ^ 18))))
    ∧ Binary64.totalGas [sampleOutTransaction, sampleInTransaction]
        = JsNum.fin (doubleSum ([sampleOutTransaction, sampleInTransaction].map
            (fun tx => nearestDouble (nearestDouble
              (finiteOrZero tx.gasUsed * finiteOrZero tx.gasPrice) / 10 ^ 18)))) :=
  totals_are_double_sums toLowerCase sampleAddress [sampleOutTransaction, sampleInTransaction]
    (fun tx => finiteOrZero tx.value) (fun tx => finiteOrZero tx.gasUsed)
    (fun tx => finiteOrZero tx.gasPrice)
    (by
      intro tx htx
      rw [List.mem_cons, List.mem_singleton] at htx
      rcases htx with h | h <;> subst h <;> exact Or.inl rfl)
    (by
      intro tx htx
      rw [List.mem_cons, List.mem_singleton] at htx
      rcases htx with h | h <;> subst h <;> exact Or.inl rfl)
    (by
      intro tx htx
      rw [List.mem_cons, List.mem_singleton] at htx
      rcases htx with h | h <;> subst h <;> exact Or.inl rfl)

theorem nearestDouble_of_value (q r : ℚ) (L m : ℤ) (h1 : (2 : ℚ) ^ L ≤ |q|)
    (h2 : |q| < (2 : ℚ) ^ (L + 1)) (hL : -1022 ≤ L)
    (hm : roundHalfEven (q / 2 ^ (L - 52)) = m) (hr : (m : ℚ) * 2 ^ (L - 52) = r) :
    nearestDouble q = r := by
  rw [nearestDouble_of_bounds q L m h1 h2 hL hm, hr]

/-- C15, as stated, fails: for three transactions sent by the
address, of 0.05, 9.9 and 0.05 ether, `totalOut` is `10 + 2^-49`, the double
written `10.000000000000002`, where the sum of `value / 10^18` is 10. -/
theorem totalOut_differs_from_sum :
    nearestDouble 50000000000000000 = 50000000000000000
    ∧ nearestDouble 9900000000000000000 = 9900000000000000000
    ∧ Binary64.totalOut toLowerCase sampleAddress roundingTransactions
        = JsNum.fin (10 + 1 / 2 ^ 49)
    ∧ (50000000000000000 : ℚ) / 10 ^ 18 + 9900000000000000000 / 10 ^ 18
        + 50000000000000000 / 10 ^ 18 = 10 := by
  have e1 : nearestDouble ((50000000000000000 : ℚ) / 10 ^ 18)
      = 3602879701896397 / 72057594037927936 :=
    nearestDouble_of_value _ _ (-5) 7205759403792794 (by norm_num [abs_of_pos])
      (by norm_num [abs_of_pos]) (by norm_num) (by norm_num [roundHalfEven]) (by norm_num)
  have e2 : nearestDouble ((0 : ℚ) + 3602879701896397 / 72057594037927936)
      = 3602879701896397 / 72057594037927936 :=
    nearestDouble_of_value _ _ (-5) 7205759403792794 (by norm_num [abs_of_pos])
      (by norm_num [abs_of_pos]) (by norm_num) (by norm_num [roundHalfEven]) (by norm_num)
  have e3 : nearestDouble ((9900000000000000000 : ℚ) / 10 ^ 18)
      = 5573204538870989 / 562949953421312 :=
    nearestDouble_of_value _ _ 3 5573204538870989 (by norm_num [abs_of_pos])
      (by norm_num [abs_of_pos]) (by norm_num) (by norm_num [roundHalfEven]) (by norm_num)
  have e4 : nearestDouble ((3602879701896397 : ℚ) / 72057594037927936
      + 5573204538870989 / 562949953421312) = 5601352036542055 / 562949953421312 :=
    nearestDouble_of_value _ _ 3 5601352036542055 (by norm_num [abs_of_pos])
      (by norm_num [abs_of_pos]) (by norm_num) (by norm_num [roundHalfEven]) (by norm_num)
  have e5 : nearestDouble ((5601352036542055 : ℚ) / 562949953421312
      + 3602879701896397 / 72057594037927936) = 10 + 1 / 2 ^ 49 :=
    nearestDouble_of_value _ _ 3 5629499534213121 (by norm_num [abs_of_pos])
      (by norm_num [abs_of_pos]) (by norm_num) (by norm_num [roundHalfEven]) (by norm_num)
  refine ⟨?_, ?_, ?_, by norm_num⟩
  · exact nearestDouble_of_value _ _ 55 6250000000000000 (by norm_num [abs_of_pos])
      (by norm_num [abs_of_pos]) (by norm_num) (by norm_num [roundHalfEven]) (by norm_num)
  · exact nearestDouble_of_value _ _ 63 4833984375000000 (by norm_num [abs_of_pos])
      (by norm_num [abs_of_pos]) (by norm_num) (by norm_num [roundHalfEven]) (by norm_num)
  · have hfilter : roundingTransactions.filter
        (fun tx => sameAddressBy toLowerCase tx.from_ sampleAddress) = roundingTransactions := by
      simp [roundingTransactions, sameAddressBy]
    unfold Binary64.totalOut
    rw [hfilter]
    simp only [roundingTransactions, List.foldl_cons, List.foldl_nil, numberOrZero,
      JsNum.ofNat_lit, Binary64.add_fin, Binary64.div_fin, Nat.cast_zero]
    rw [e1, e2, e3, e4, e5]

/-! ## Transfer records without a contract address -/

/-- C14: the code does not do what the claim says.  For one token transfer and
one NFT transfer that carry no `contractAddress`, and an empty transaction
list, `getIdentityData` reports `tokenCount = 1` and `nftCount = 1`, where the
transfer records hold no contract address at all. -/
theorem noActivity_counts_missing_address :
    fetchedTokenTransfers (transfersEnv [namelessTransfer]) sampleAddress = [namelessTransfer]
    ∧ fetchedNFTTransfers (transfersEnv [namelessTransfer]) sampleAddress = [namelessTransfer]
    ∧ [namelessTransfer].filterMap (fun t => t.contractAddress) = []
    ∧ (∃ data : IdentityData,
        (getIdentityData (transfersEnv [namelessTransfer]) sampleAddress).1
          = IdentityResult.success data
        ∧ data.identityStats.txCount = 0
        ∧ data.tokenCount = 1 ∧ data.nftCount = 1) :=
  ⟨by decide, by decide, by decide, _, rfl, by decide, by decide, by decide⟩

end BaseIdentity
